import Mathlib

/-!
# Urho3D-Editor: viewport layout, camera input and undoable node transforms

Shallow embedding of `Source/Urho3DEditor/SceneEditor/SceneViewportManager.cpp` (viewport
layout manager and camera input controller) and of `Source/Library/Editor/Transformable.cpp`
(transform commands of the undo engine).

Conventions of the embedding:
* C++ `int` values are `Int`; `a / 2` on `int` is truncating division, `Int.tdiv`.
  The only arithmetic of the manager is halving a surface dimension and subtracting rectangle
  edges that lie between 0 and that dimension, which cannot overflow, so no wrap-around is
  modelled.
* `float` values are exact rationals.
* `QVector<QSharedPointer<SceneViewport>>` is a `List SceneViewport`; `viewports_[i]` is the
  `i`-th list element.
* The render surface size (`Graphics::GetWidth/GetHeight`) is read from the environment and
  therefore passed as the arguments `width height`.
* A failed `Q_ASSERT`, an out-of-range index and a null dereference are the result `none`.
* Engine operations on `float` data that have no exact rational counterpart (rotating a vector
  by a quaternion, the length of a vector) are the fields of an `EngineMath` argument.
* Calls that act on objects outside the modelled state (`Node::Translate` arguments,
  `SetMouseMode`) are also recorded, in call order, in the result of `SceneViewport::Update`.
-/

namespace Urho3DEditor

/-- Modelled from the spec: the enum declaration (`SceneViewportManager.h`) is not part of the
sources; the enumerators are the nine values named by the spec and by the `switch` statements of
the `.cpp` file. `OutOfEnum raw` stands for any other value of the underlying integer type,
which a cast can produce and which the `default:` branches handle. -/
inductive SceneViewportLayout where
  | Empty
  | Single
  | Vertical
  | Horizontal
  | Quad
  | Top1_Bottom2
  | Top2_Bottom1
  | Left1_Right2
  | Left2_Right1
  | OutOfEnum (raw : Int)
  deriving DecidableEq

/-- Get number of viewports (`GetNumberOfViewports`, lines 13-33). All returned literals are
non-negative, so the `int` result is a `Nat`. -/
def GetNumberOfViewports (layout : SceneViewportLayout) : Nat :=
  match layout with
  | SceneViewportLayout.Single => 1
  | SceneViewportLayout.Vertical => 2
  | SceneViewportLayout.Horizontal => 2
  | SceneViewportLayout.Top1_Bottom2 => 3
  | SceneViewportLayout.Top2_Bottom1 => 3
  | SceneViewportLayout.Left1_Right2 => 3
  | SceneViewportLayout.Left2_Right1 => 3
  | SceneViewportLayout.Quad => 4
  | SceneViewportLayout.Empty => 0
  | SceneViewportLayout.OutOfEnum _ => 0

/-- Engine type `Urho3D::IntVector2`. -/
structure IntVector2 where
  x_ : Int
  y_ : Int
  deriving DecidableEq

/-- Engine constant `IntVector2::ZERO`. -/
def IntVector2.ZERO : IntVector2 := ⟨0, 0⟩

/-- Engine enum `Urho3D::Intersection`. -/
inductive Intersection where
  | OUTSIDE
  | INTERSECTS
  | INSIDE
  deriving DecidableEq

/-- Engine type `Urho3D::IntRect`, constructed as `IntRect(left, top, right, bottom)`. -/
structure IntRect where
  left_ : Int
  top_ : Int
  right_ : Int
  bottom_ : Int
  deriving DecidableEq

/-- Engine constant `IntRect::ZERO`, the rectangle of a freshly constructed `Urho3D::Viewport`. -/
def IntRect.ZERO : IntRect := ⟨0, 0, 0, 0⟩

/-- Engine accessor `IntRect::Width`. -/
def IntRect.Width (r : IntRect) : Int := r.right_ - r.left_

/-- Engine accessor `IntRect::Height`. -/
def IntRect.Height (r : IntRect) : Int := r.bottom_ - r.top_

/-- Engine accessor `IntRect::Size`. -/
def IntRect.Size (r : IntRect) : IntVector2 := ⟨r.Width, r.Height⟩

/-- Engine test `IntRect::IsInside(const IntVector2&)`: a point is outside when it is left of
`left_`, above `top_`, at or beyond `right_`, or at or beyond `bottom_`. -/
def IntRect.IsInside (r : IntRect) (point : IntVector2) : Intersection :=
  if point.x_ < r.left_ ∨ point.y_ < r.top_ ∨ point.x_ ≥ r.right_ ∨ point.y_ ≥ r.bottom_ then
    Intersection.OUTSIDE
  else
    Intersection.INSIDE

/-- Engine type `Urho3D::Vector3`. -/
structure Vector3 where
  x_ : ℚ
  y_ : ℚ
  z_ : ℚ
  deriving DecidableEq

/-- Engine constant `Vector3::ZERO`. -/
def Vector3.ZERO : Vector3 := ⟨0, 0, 0⟩

/-- Engine type `Urho3D::Quaternion`, kept in the form in which the editor builds every rotation
it assigns: the three-argument constructor `Quaternion(x, y, z)` from Euler angles in degrees.
The identity rotation is `Quaternion(0, 0, 0)`. -/
structure Quaternion where
  x_ : ℚ
  y_ : ℚ
  z_ : ℚ
  deriving DecidableEq

/-- Engine constant `Quaternion::IDENTITY`. -/
def Quaternion.IDENTITY : Quaternion := ⟨0, 0, 0⟩

/-- Engine accessor `Quaternion::EulerAngles`, reading back the angles of the constructor
(rounding and angle normalisation are not modelled). -/
def Quaternion.EulerAngles (q : Quaternion) : Vector3 := ⟨q.x_, q.y_, q.z_⟩

/-- The state of one `SceneViewport`: the camera node (which has no parent, so its world
transform is its local transform), the Euler-angle accumulators, the camera zoom and projection
flag, the two interaction flags and the rectangle held by the engine viewport. -/
structure SceneViewport where
  position : Vector3
  rotation : Quaternion
  cameraAngles_ : Vector3
  zoom : ℚ
  orthographic : Bool
  flyMode_ : Bool
  orbiting_ : Bool
  rect : IntRect
  deriving DecidableEq

/-- The constructor `SceneViewport::SceneViewport` (lines 35-44) with `camera = nullptr`: a fresh
node at the origin with identity rotation, a fresh perspective camera with zoom 1, both flags
false and an engine viewport whose rectangle is `IntRect::ZERO`. -/
def SceneViewport.new : SceneViewport :=
  { position := Vector3.ZERO
    rotation := Quaternion.IDENTITY
    cameraAngles_ := Vector3.ZERO
    zoom := 1
    orthographic := false
    flyMode_ := false
    orbiting_ := false
    rect := IntRect.ZERO }

/-- The method `SceneViewport::SetTransform` (lines 46-51). -/
def SceneViewport.SetTransform (v : SceneViewport) (position : Vector3) (rotation : Quaternion) :
    SceneViewport :=
  { v with
    position := position
    rotation := rotation
    cameraAngles_ := rotation.EulerAngles }

/-- The method `SceneViewport::SetRect` (lines 53-56). -/
def SceneViewport.SetRect (v : SceneViewport) (rect : IntRect) : SceneViewport :=
  { v with rect := rect }

/-- The state of a `SceneViewportManager`. `emitted` counts the `viewportsChanged` signals
emitted so far. -/
structure SceneViewportManager where
  currentViewport_ : Int
  layout_ : SceneViewportLayout
  viewports_ : List SceneViewport
  emitted : Nat
  deriving DecidableEq

/-- The static constant `defaultPosition(0, 10, -10)` of `UpdateNumberOfViewports`. -/
def defaultPosition : Vector3 := ⟨0, 10, -10⟩

/-- The static constant `defaultRotation(45, 0, 0)` of `UpdateNumberOfViewports`. -/
def defaultRotation : Quaternion := ⟨45, 0, 0⟩

/-- The `for` loop of `UpdateNumberOfViewports` (lines 364-369): `k` iterations, each creating
a viewport, setting its transform and appending it. -/
def growViewports (position : Vector3) (rotation : Quaternion) :
    Nat → List SceneViewport → List SceneViewport
  | 0, vs => vs
  | k + 1, vs =>
      growViewports position rotation k (vs ++ [SceneViewport.new.SetTransform position rotation])

/-- The seed transform chosen by `UpdateNumberOfViewports` (lines 355-362): the defaults, or,
when there is at least one viewport, the world transform of `viewports_[oldNumViewports - 1]`. -/
def seedTransform (vs : List SceneViewport) : Vector3 × Quaternion :=
  let oldNumViewports := vs.length
  if 0 < oldNumViewports then
    match vs[oldNumViewports - 1]? with
    | some node => (node.position, node.rotation)
    | none => (defaultPosition, defaultRotation)
  else
    (defaultPosition, defaultRotation)

/-- The method `SceneViewportManager::UpdateNumberOfViewports` (lines 343-371). The argument is
a viewport count; its only caller passes `GetNumberOfViewports`. -/
def SceneViewportManager.UpdateNumberOfViewports (m : SceneViewportManager) (numViewports : Nat) :
    SceneViewportManager :=
  let oldNumViewports := m.viewports_.length
  if numViewports < oldNumViewports then
    { m with viewports_ := m.viewports_.take numViewports }
  else
    let seed := seedTransform m.viewports_
    { m with
      viewports_ := growViewports seed.1 seed.2 (numViewports - oldNumViewports) m.viewports_ }

/-- The assignment `viewports_[i]->SetRect(rect)`. It is only used below the `Q_ASSERT` of
`UpdateViewportLayout`, where every index written is in range. -/
def setRectAt : List SceneViewport → Nat → IntRect → List SceneViewport
  | [], _, _ => []
  | v :: vs, 0, rect => v.SetRect rect :: vs
  | v :: vs, i + 1, rect => v :: setRectAt vs i rect

/-- The `switch` of `UpdateViewportLayout` (lines 398-441). -/
def applyLayoutRects (layout : SceneViewportLayout) (width height : Int)
    (vs : List SceneViewport) : List SceneViewport :=
  let halfWidth := Int.tdiv width 2
  let halfHeight := Int.tdiv height 2
  match layout with
  | SceneViewportLayout.Empty => vs
  | SceneViewportLayout.Single =>
      setRectAt vs 0 ⟨0, 0, width, height⟩
  | SceneViewportLayout.Vertical =>
      let vs := setRectAt vs 0 ⟨0, 0, halfWidth, height⟩
      setRectAt vs 1 ⟨halfWidth, 0, width, height⟩
  | SceneViewportLayout.Horizontal =>
      let vs := setRectAt vs 0 ⟨0, 0, width, halfHeight⟩
      setRectAt vs 1 ⟨0, halfHeight, width, height⟩
  | SceneViewportLayout.Quad =>
      let vs := setRectAt vs 0 ⟨0, 0, halfWidth, halfHeight⟩
      let vs := setRectAt vs 1 ⟨halfWidth, 0, width, halfHeight⟩
      let vs := setRectAt vs 2 ⟨0, halfHeight, halfWidth, height⟩
      setRectAt vs 3 ⟨halfWidth, halfHeight, width, height⟩
  | SceneViewportLayout.Top1_Bottom2 =>
      let vs := setRectAt vs 0 ⟨0, 0, width, halfHeight⟩
      let vs := setRectAt vs 1 ⟨0, halfHeight, halfWidth, height⟩
      setRectAt vs 2 ⟨halfWidth, halfHeight, width, height⟩
  | SceneViewportLayout.Top2_Bottom1 =>
      let vs := setRectAt vs 0 ⟨0, 0, halfWidth, halfHeight⟩
      let vs := setRectAt vs 1 ⟨halfWidth, 0, width, halfHeight⟩
      setRectAt vs 2 ⟨0, halfHeight, width, height⟩
  | SceneViewportLayout.Left1_Right2 =>
      let vs := setRectAt vs 0 ⟨0, 0, halfWidth, height⟩
      let vs := setRectAt vs 1 ⟨halfWidth, 0, width, halfHeight⟩
      setRectAt vs 2 ⟨halfWidth, halfHeight, width, height⟩
  | SceneViewportLayout.Left2_Right1 =>
      let vs := setRectAt vs 0 ⟨0, 0, halfWidth, halfHeight⟩
      let vs := setRectAt vs 1 ⟨0, halfHeight, halfWidth, height⟩
      setRectAt vs 2 ⟨halfWidth, 0, width, height⟩
  | SceneViewportLayout.OutOfEnum _ => vs

/-- The method `SceneViewportManager::UpdateViewportLayout` (lines 388-442) on a surface of size
`width` x `height`. The result is `none` when the `Q_ASSERT` of line 397 fails. -/
def SceneViewportManager.UpdateViewportLayout (m : SceneViewportManager) (width height : Int) :
    Option SceneViewportManager :=
  if m.viewports_.length = GetNumberOfViewports m.layout_ then
    some { m with viewports_ := applyLayoutRects m.layout_ width height m.viewports_ }
  else
    none

/-- The method `SceneViewportManager::SetLayout` (lines 278-284). -/
def SceneViewportManager.SetLayout (m : SceneViewportManager) (layout : SceneViewportLayout)
    (width height : Int) : Option SceneViewportManager :=
  let m1 := { m with layout_ := layout }
  let m2 := m1.UpdateNumberOfViewports (GetNumberOfViewports layout)
  match m2.UpdateViewportLayout width height with
  | none => none
  | some m3 => some { m3 with emitted := m3.emitted + 1 }

/-- The method `SceneViewportManager::HandleResize` (lines 338-341); `width` and `height` are the
new surface size, which the event handler reads from the graphics subsystem. -/
def SceneViewportManager.HandleResize (m : SceneViewportManager) (width height : Int) :
    Option SceneViewportManager :=
  m.UpdateViewportLayout width height

/-- The loop of `SelectCurrentViewport` (lines 376-385), started at index `i` on the viewports
from `i` on: the index at which the loop breaks, if it does. -/
def selectLoop (mousePosition : IntVector2) : List SceneViewport → Nat → Option Nat
  | [], _ => none
  | v :: vs, i =>
      if v.rect.Size = IntVector2.ZERO ∨ v.rect.IsInside mousePosition ≠ Intersection.OUTSIDE then
        some i
      else
        selectLoop mousePosition vs (i + 1)

/-- The method `SceneViewportManager::SelectCurrentViewport` (lines 373-386). -/
def SceneViewportManager.SelectCurrentViewport (m : SceneViewportManager)
    (mousePosition : IntVector2) : SceneViewportManager :=
  match selectLoop mousePosition m.viewports_ 0 with
  | some i => { m with currentViewport_ := (i : Int) }
  | none => m

/-- The rectangles of the viewports, in collection order. -/
def SceneViewportManager.rects (m : SceneViewportManager) : List IntRect :=
  m.viewports_.map (fun v => v.rect)

/-- The size-equals-canonical-count condition asserted by `Q_ASSERT` at line 397. -/
def SceneViewportManager.CountInvariant (m : SceneViewportManager) : Prop :=
  m.viewports_.length = GetNumberOfViewports m.layout_

instance (m : SceneViewportManager) : Decidable m.CountInvariant := by
  unfold SceneViewportManager.CountInvariant; infer_instance

/-- The state built by the constructor's initialiser list (lines 266-272), before its body runs:
no viewports, layout `Empty`, current index 0. -/
def SceneViewportManager.initial : SceneViewportManager :=
  { currentViewport_ := 0
    layout_ := SceneViewportLayout.Empty
    viewports_ := []
    emitted := 0 }

/-- A pixel `(x, y)` lies in the rectangle read as the half-open box
`left <= x < right`, `top <= y < bottom`. -/
def IntRect.Contains (r : IntRect) (x y : Int) : Prop :=
  r.left_ ≤ x ∧ x < r.right_ ∧ r.top_ ≤ y ∧ y < r.bottom_

instance (r : IntRect) (x y : Int) : Decidable (r.Contains x y) := by
  unfold IntRect.Contains; infer_instance

/-- The number of rectangles of the list that contain the pixel `(x, y)`. -/
def coverCount (rects : List IntRect) (x y : Int) : Nat :=
  rects.countP (fun r => decide (r.Contains x y))

/-- The rectangles tile the surface `[0,width) x [0,height)`: every surface pixel lies in exactly
one rectangle, and no rectangle has a pixel outside the surface. -/
def TilesSurface (rects : List IntRect) (width height : Int) : Prop :=
  (∀ x y : Int, 0 ≤ x → x < width → 0 ≤ y → y < height → coverCount rects x y = 1) ∧
  (∀ r ∈ rects, ∀ x y : Int, r.Contains x y → 0 ≤ x ∧ x < width ∧ 0 ≤ y ∧ y < height)

/-- Closed form of the rectangles written by the `switch` of `UpdateViewportLayout`, in
collection order; `rects_applyLayoutRects` shows that `applyLayoutRects` produces them. -/
def layoutRects (layout : SceneViewportLayout) (width height : Int) : List IntRect :=
  let halfWidth := Int.tdiv width 2
  let halfHeight := Int.tdiv height 2
  match layout with
  | SceneViewportLayout.Empty => []
  | SceneViewportLayout.Single => [⟨0, 0, width, height⟩]
  | SceneViewportLayout.Vertical => [⟨0, 0, halfWidth, height⟩, ⟨halfWidth, 0, width, height⟩]
  | SceneViewportLayout.Horizontal => [⟨0, 0, width, halfHeight⟩, ⟨0, halfHeight, width, height⟩]
  | SceneViewportLayout.Quad =>
      [⟨0, 0, halfWidth, halfHeight⟩, ⟨halfWidth, 0, width, halfHeight⟩,
       ⟨0, halfHeight, halfWidth, height⟩, ⟨halfWidth, halfHeight, width, height⟩]
  | SceneViewportLayout.Top1_Bottom2 =>
      [⟨0, 0, width, halfHeight⟩, ⟨0, halfHeight, halfWidth, height⟩,
       ⟨halfWidth, halfHeight, width, height⟩]
  | SceneViewportLayout.Top2_Bottom1 =>
      [⟨0, 0, halfWidth, halfHeight⟩, ⟨halfWidth, 0, width, halfHeight⟩,
       ⟨0, halfHeight, width, height⟩]
  | SceneViewportLayout.Left1_Right2 =>
      [⟨0, 0, halfWidth, height⟩, ⟨halfWidth, 0, width, halfHeight⟩,
       ⟨halfWidth, halfHeight, width, height⟩]
  | SceneViewportLayout.Left2_Right1 =>
      [⟨0, 0, halfWidth, halfHeight⟩, ⟨0, halfHeight, halfWidth, height⟩,
       ⟨halfWidth, 0, width, height⟩]
  | SceneViewportLayout.OutOfEnum _ => []

/-- The layouts whose case in the `switch` of `UpdateViewportLayout` uses `halfWidth`, that is,
the layouts that split the horizontal axis. -/
def usesHalfWidth (layout : SceneViewportLayout) : Bool :=
  match layout with
  | SceneViewportLayout.Vertical => true
  | SceneViewportLayout.Quad => true
  | SceneViewportLayout.Top1_Bottom2 => true
  | SceneViewportLayout.Top2_Bottom1 => true
  | SceneViewportLayout.Left1_Right2 => true
  | SceneViewportLayout.Left2_Right1 => true
  | _ => false

/-- The layouts whose case in the `switch` of `UpdateViewportLayout` uses `halfHeight`, that is,
the layouts that split the vertical axis. -/
def usesHalfHeight (layout : SceneViewportLayout) : Bool :=
  match layout with
  | SceneViewportLayout.Horizontal => true
  | SceneViewportLayout.Quad => true
  | SceneViewportLayout.Top1_Bottom2 => true
  | SceneViewportLayout.Top2_Bottom1 => true
  | SceneViewportLayout.Left1_Right2 => true
  | SceneViewportLayout.Left2_Right1 => true
  | _ => false

/-- The selection test of the claim about `SelectCurrentViewport`: the rectangle has size
`(0, 0)` or contains the cursor (`left <= x < right` and `top <= y < bottom`). -/
def rectMatches (r : IntRect) (cursor : IntVector2) : Prop :=
  (r.Width = 0 ∧ r.Height = 0) ∨
    (r.left_ ≤ cursor.x_ ∧ cursor.x_ < r.right_ ∧ r.top_ ≤ cursor.y_ ∧ cursor.y_ < r.bottom_)

instance (r : IntRect) (cursor : IntVector2) : Decidable (rectMatches r cursor) := by
  unfold rectMatches; infer_instance

/-! ## Camera input controller: `SceneViewport::Update` -/

/-- Modelled from the spec: the enum `HotKeyMode` is declared in a header that is not part of the
sources; its two enumerators are the ones compared against in `SceneViewport::Update`.
`OutOfEnum raw` stands for any other integer that the cast `(HotKeyMode)...toInt()` of line 65
can produce. -/
inductive HotKeyMode where
  | Standard
  | Blender
  | OutOfEnum (raw : Int)
  deriving DecidableEq

/-- The `Qt::Key` values queried by `SceneViewport::Update`. -/
inductive Key where
  | Key_Shift
  | Key_Control
  | Key_Alt
  | Key_F
  | Key_W
  | Key_S
  | Key_A
  | Key_D
  | Key_E
  | Key_Q
  | Key_Up
  | Key_Down
  | Key_Left
  | Key_Right
  | Key_PageUp
  | Key_PageDown
  | Key_Home
  | Key_Escape
  deriving DecidableEq

/-- The `Qt::MouseButton` values queried by the viewport code. -/
inductive MouseButton where
  | LeftButton
  | RightButton
  | MiddleButton
  deriving DecidableEq

/-- Engine enum `Urho3D::MouseMode`. -/
inductive MouseMode where
  | MM_ABSOLUTE
  | MM_RELATIVE
  | MM_WRAP
  | MM_FREE
  deriving DecidableEq

/-- Engine enum `Urho3D::TransformSpace`. -/
inductive TransformSpace where
  | TS_LOCAL
  | TS_PARENT
  | TS_WORLD
  deriving DecidableEq

/-- The queries of `SceneInputInterface` used by the viewport code: a read-only snapshot of the
keyboard and mouse for one update. -/
structure SceneInputInterface where
  IsKeyDown : Key → Bool
  IsKeyPressed : Key → Bool
  IsMouseButtonDown : MouseButton → Bool
  GetMousePosition : IntVector2
  GetMouseMove : IntVector2
  GetMouseWheelMove : Int

/-- The seven configuration values that `SceneViewport::Update` reads at lines 65-71, after
conversion, under the names of the local constants that hold them. -/
structure CameraVariables where
  hotKeyMode : HotKeyMode
  cameraShiftSpeedMultiplier : ℚ
  cameraBaseSpeed : ℚ
  mouseWheelCameraPosition : Bool
  mmbPanMode : Bool
  limitRotation : Bool
  cameraBaseRotationSpeed : ℚ

/-- The argument record `SceneViewportUpdateParams` of `SceneViewport::Update`. -/
structure SceneViewportUpdateParams where
  timeStep_ : ℚ
  config_ : CameraVariables
  input_ : SceneInputInterface
  hasSelection_ : Bool
  selectionCenter_ : Vector3

/-- The engine operations on `float` data that are not rational functions of their arguments:
`Quaternion * Vector3` and `Vector3::Length`. -/
structure EngineMath where
  rotate : Quaternion → Vector3 → Vector3
  length : Vector3 → ℚ

/-- Engine operator `Vector3 + Vector3`. -/
def Vector3.add (a b : Vector3) : Vector3 := ⟨a.x_ + b.x_, a.y_ + b.y_, a.z_ + b.z_⟩

/-- Engine operator `Vector3 - Vector3`. -/
def Vector3.sub (a b : Vector3) : Vector3 := ⟨a.x_ - b.x_, a.y_ - b.y_, a.z_ - b.z_⟩

/-- Engine operator `Vector3 * float`. -/
def Vector3.mul (a : Vector3) (rhs : ℚ) : Vector3 := ⟨a.x_ * rhs, a.y_ * rhs, a.z_ * rhs⟩

/-- Engine function `Urho3D::Clamp`. -/
def Clamp (value min max : ℚ) : ℚ :=
  if value < min then min
  else if value > max then max
  else value

/-- The running state of one call of `SceneViewport::Update`: the viewport, the arguments of
the `Node::Translate` calls made so far and the arguments of the `SetMouseMode` calls made so
far, both in call order. -/
structure CameraUpdate where
  viewport : SceneViewport
  translations : List (Vector3 × TransformSpace)
  mouseModes : List MouseMode

/-- Engine method `Node::Translate` on the parentless camera node: a local translation is rotated
by the node rotation, a parent-space or world-space translation is added as it is. -/
def CameraUpdate.Translate (E : EngineMath) (u : CameraUpdate) (delta : Vector3)
    (space : TransformSpace) : CameraUpdate :=
  { u with
    viewport :=
      { u.viewport with
        position :=
          match space with
          | TransformSpace.TS_LOCAL =>
              u.viewport.position.add (E.rotate u.viewport.rotation delta)
          | TransformSpace.TS_PARENT => u.viewport.position.add delta
          | TransformSpace.TS_WORLD => u.viewport.position.add delta }
    translations := u.translations ++ [(delta, space)] }

/-- Engine method `Node::SetWorldPosition` on the parentless camera node. -/
def CameraUpdate.SetWorldPosition (u : CameraUpdate) (position : Vector3) : CameraUpdate :=
  { u with viewport := { u.viewport with position := position } }

/-- Engine method `Camera::SetZoom`. -/
def CameraUpdate.SetZoom (u : CameraUpdate) (zoom : ℚ) : CameraUpdate :=
  { u with viewport := { u.viewport with zoom := zoom } }

/-- The call `input.SetMouseMode(mode)`. -/
def CameraUpdate.SetMouseMode (u : CameraUpdate) (mode : MouseMode) : CameraUpdate :=
  { u with mouseModes := u.mouseModes ++ [mode] }

/-- Lines 73-78 of `SceneViewport::Update`: check for camera fly mode. -/
def toggleFlyMode (p : SceneViewportUpdateParams) (v : SceneViewport) : SceneViewport :=
  if p.config_.hotKeyMode = HotKeyMode.Blender then
    if p.input_.IsKeyDown Key.Key_Shift && p.input_.IsKeyPressed Key.Key_F then
      { v with flyMode_ := !v.flyMode_ }
    else v
  else v

/-- Lines 81-83: the local `speedMultiplier`. -/
def speedMultiplier (p : SceneViewportUpdateParams) : ℚ :=
  if p.input_.IsKeyDown Key.Key_Shift then p.config_.cameraShiftSpeedMultiplier else 1

/-- One of the six `if` statements of lines 89-112: translate when one of the two keys is
down. -/
def moveOnKeys (E : EngineMath) (p : SceneViewportUpdateParams) (k1 k2 : Key)
    (direction : Vector3) (space : TransformSpace) (u : CameraUpdate) : CameraUpdate :=
  if p.input_.IsKeyDown k1 || p.input_.IsKeyDown k2 then
    u.Translate E ((direction.mul p.timeStep_).mul (speedMultiplier p)) space
  else u

/-- Lines 85-114 of `SceneViewport::Update`: move camera. -/
def moveCamera (E : EngineMath) (p : SceneViewportUpdateParams) (u : CameraUpdate) :
    CameraUpdate :=
  let cameraBaseSpeed := p.config_.cameraBaseSpeed
  if !p.input_.IsKeyDown Key.Key_Control && !p.input_.IsKeyDown Key.Key_Alt then
    if p.config_.hotKeyMode = HotKeyMode.Standard ∨
        (p.config_.hotKeyMode = HotKeyMode.Blender ∧ u.viewport.flyMode_ = true ∧
          p.input_.IsKeyDown Key.Key_Shift = false) then
      let u := moveOnKeys E p Key.Key_W Key.Key_Up ⟨0, 0, cameraBaseSpeed⟩
        TransformSpace.TS_LOCAL u
      let u := moveOnKeys E p Key.Key_S Key.Key_Down ⟨0, 0, -cameraBaseSpeed⟩
        TransformSpace.TS_LOCAL u
      let u := moveOnKeys E p Key.Key_A Key.Key_Left ⟨-cameraBaseSpeed, 0, 0⟩
        TransformSpace.TS_LOCAL u
      let u := moveOnKeys E p Key.Key_D Key.Key_Right ⟨cameraBaseSpeed, 0, 0⟩
        TransformSpace.TS_LOCAL u
      let u := moveOnKeys E p Key.Key_E Key.Key_PageUp ⟨0, cameraBaseSpeed, 0⟩
        TransformSpace.TS_WORLD u
      moveOnKeys E p Key.Key_Q Key.Key_PageDown ⟨0, -cameraBaseSpeed, 0⟩
        TransformSpace.TS_WORLD u
    else u
  else u

/-- The wheel translation `direction * -wheel * scale * timeStep * speedMultiplier` of lines
122, 136, 138, 151, 155 and 166 (`scale` is 20 there). -/
def wheelDelta (p : SceneViewportUpdateParams) (direction : Vector3) (scale : ℚ) : Vector3 :=
  (((direction.mul (-(p.input_.GetMouseWheelMove : ℚ))).mul scale).mul p.timeStep_).mul
    (speedMultiplier p)

/-- The zoom assignment of lines 127-128 and 161-162. -/
def wheelZoom (p : SceneViewportUpdateParams) (u : CameraUpdate) : CameraUpdate :=
  let zoom := u.viewport.zoom + -(p.input_.GetMouseWheelMove : ℚ) * (1 / 10) * speedMultiplier p
  u.SetZoom (Clamp zoom (1 / 10) 30)

/-- Lines 116-171 of `SceneViewport::Update`: the mouse wheel. -/
def wheelCamera (E : EngineMath) (p : SceneViewportUpdateParams) (u : CameraUpdate) :
    CameraUpdate :=
  let cameraBaseSpeed := p.config_.cameraBaseSpeed
  if p.input_.GetMouseWheelMove ≠ 0 then
    if p.config_.hotKeyMode = HotKeyMode.Standard then
      if p.config_.mouseWheelCameraPosition then
        u.Translate E (wheelDelta p ⟨0, 0, -cameraBaseSpeed⟩ 20) TransformSpace.TS_LOCAL
      else
        wheelZoom p u
    else if p.config_.hotKeyMode = HotKeyMode.Blender then
      if p.config_.mouseWheelCameraPosition && !u.viewport.orthographic then
        if p.input_.IsKeyDown Key.Key_Shift then
          u.Translate E (wheelDelta p ⟨0, -cameraBaseSpeed, 0⟩ 20) TransformSpace.TS_LOCAL
        else if p.input_.IsKeyDown Key.Key_Control then
          u.Translate E (wheelDelta p ⟨-cameraBaseSpeed, 0, 0⟩ 20) TransformSpace.TS_LOCAL
        else
          let distance := E.length (u.viewport.position.sub p.selectionCenter_)
          let ratio := distance / 40
          let factor := if ratio < 1 then ratio else 1
          let direction : Vector3 := ⟨0, 0, -cameraBaseSpeed⟩
          u.Translate E
            (((((direction.mul (-(p.input_.GetMouseWheelMove : ℚ))).mul 40).mul factor).mul
              p.timeStep_).mul (speedMultiplier p))
            TransformSpace.TS_LOCAL
      else
        if p.input_.IsKeyDown Key.Key_Shift then
          u.Translate E (wheelDelta p ⟨0, -cameraBaseSpeed, 0⟩ 20) TransformSpace.TS_LOCAL
        else if p.input_.IsKeyDown Key.Key_Control then
          u.Translate E (wheelDelta p ⟨-cameraBaseSpeed, 0, 0⟩ 20) TransformSpace.TS_LOCAL
        else
          if p.input_.IsKeyDown Key.Key_Alt then
            wheelZoom p u
          else
            u.Translate E (wheelDelta p ⟨0, 0, -cameraBaseSpeed⟩ 20) TransformSpace.TS_LOCAL
    else u
  else u

/-- Lines 173-180 of `SceneViewport::Update`: the Home key. -/
def homeCamera (E : EngineMath) (p : SceneViewportUpdateParams) (u : CameraUpdate) :
    CameraUpdate :=
  if p.input_.IsKeyDown Key.Key_Home then
    if p.hasSelection_ then
      u.SetWorldPosition (p.selectionCenter_.sub (E.rotate u.viewport.rotation ⟨0, 0, 10⟩))
    else u
  else u

/-- Lines 183-189: the local `changeCamViewButton`, from the fly flag as it is at line 185. -/
def changeCamViewButton (p : SceneViewportUpdateParams) (flyMode : Bool) : Bool :=
  if p.config_.hotKeyMode = HotKeyMode.Standard then
    p.input_.IsMouseButtonDown MouseButton.RightButton ||
      p.input_.IsMouseButtonDown MouseButton.MiddleButton
  else if p.config_.hotKeyMode = HotKeyMode.Blender then
    p.input_.IsMouseButtonDown MouseButton.MiddleButton || flyMode
  else false

/-- Lines 187-193: in Blender mode the right button or Escape leaves fly mode. -/
def leaveFlyMode (p : SceneViewportUpdateParams) (v : SceneViewport) : SceneViewport :=
  if p.config_.hotKeyMode = HotKeyMode.Standard then v
  else if p.config_.hotKeyMode = HotKeyMode.Blender then
    if p.input_.IsMouseButtonDown MouseButton.RightButton ||
        p.input_.IsKeyDown Key.Key_Escape then
      { v with flyMode_ := false }
    else v
  else v

/-- Lines 202-218: the local `panTheCamera`, from the fly flag as it is at line 216. -/
def panTheCamera (p : SceneViewportUpdateParams) (flyMode : Bool) : Bool :=
  if p.config_.hotKeyMode = HotKeyMode.Standard then
    if p.input_.IsMouseButtonDown MouseButton.MiddleButton then
      if p.config_.mmbPanMode then !p.input_.IsKeyDown Key.Key_Shift
      else p.input_.IsKeyDown Key.Key_Shift
    else false
  else if p.config_.hotKeyMode = HotKeyMode.Blender then
    if !flyMode then p.input_.IsKeyDown Key.Key_Shift else false
  else false

/-- Lines 236-238 and 245-247: put the camera on the orbit around the selection centre. -/
def orbitCamera (E : EngineMath) (p : SceneViewportUpdateParams) (u : CameraUpdate) :
    CameraUpdate :=
  let d := u.viewport.position.sub p.selectionCenter_
  let u := u.SetWorldPosition
    (p.selectionCenter_.sub (E.rotate u.viewport.rotation ⟨0, 0, E.length d⟩))
  { u with viewport := { u.viewport with orbiting_ := true } }

/-- Lines 224-249: rotate the camera and, with the middle button, orbit. -/
def rotateCamera (E : EngineMath) (p : SceneViewportUpdateParams) (u : CameraUpdate) :
    CameraUpdate :=
  let mouseMove := p.input_.GetMouseMove
  let x1 := u.viewport.cameraAngles_.x_ + (mouseMove.y_ : ℚ) * p.config_.cameraBaseRotationSpeed
  let y1 := u.viewport.cameraAngles_.y_ + (mouseMove.x_ : ℚ) * p.config_.cameraBaseRotationSpeed
  let x2 := if p.config_.limitRotation then Clamp x1 (-90) 90 else x1
  let u : CameraUpdate :=
    { u with
      viewport :=
        { u.viewport with
          cameraAngles_ := ⟨x2, y1, u.viewport.cameraAngles_.z_⟩
          rotation := ⟨x2, y1, 0⟩ } }
  if p.config_.hotKeyMode = HotKeyMode.Standard then
    if p.input_.IsMouseButtonDown MouseButton.MiddleButton && p.hasSelection_ then
      orbitCamera E p u
    else u
  else if p.config_.hotKeyMode = HotKeyMode.Blender then
    if p.input_.IsMouseButtonDown MouseButton.MiddleButton then
      orbitCamera E p u
    else u
  else u

/-- Lines 182-254 of `SceneViewport::Update`: rotate/orbit/pan camera. -/
def viewCamera (E : EngineMath) (p : SceneViewportUpdateParams) (u : CameraUpdate) :
    CameraUpdate :=
  let change := changeCamViewButton p u.viewport.flyMode_
  let u : CameraUpdate := { u with viewport := leaveFlyMode p u.viewport }
  if change then
    let u := u.SetMouseMode MouseMode.MM_WRAP
    let mouseMove := p.input_.GetMouseMove
    if mouseMove.x_ ≠ 0 ∨ mouseMove.y_ ≠ 0 then
      if panTheCamera p u.viewport.flyMode_ then
        let direction : Vector3 := ⟨-(mouseMove.x_ : ℚ), (mouseMove.y_ : ℚ), 0⟩
        u.Translate E
          (((direction.mul p.timeStep_).mul p.config_.cameraBaseSpeed).mul (1 / 2))
          TransformSpace.TS_LOCAL
      else
        rotateCamera E p u
    else u
  else
    u.SetMouseMode MouseMode.MM_ABSOLUTE

/-- Lines 256-257 of `SceneViewport::Update`: orbiting ends when the middle button is up. -/
def endOrbiting (p : SceneViewportUpdateParams) (u : CameraUpdate) : CameraUpdate :=
  if u.viewport.orbiting_ && !p.input_.IsMouseButtonDown MouseButton.MiddleButton then
    { u with viewport := { u.viewport with orbiting_ := false } }
  else u

/-- The method `SceneViewport::Update` (lines 58-263). The result holds the updated viewport
together with the `Translate` and `SetMouseMode` calls of this update. -/
def SceneViewport.Update (E : EngineMath) (v : SceneViewport) (p : SceneViewportUpdateParams) :
    CameraUpdate :=
  let u : CameraUpdate :=
    { viewport := toggleFlyMode p v, translations := [], mouseModes := [] }
  let u := moveCamera E p u
  let u := wheelCamera E p u
  let u := homeCamera E p u
  let u := viewCamera E p u
  endOrbiting p u

/-- The method `SceneViewportManager::Update` (lines 316-336). The configuration values, the
selection flag and the selection centre are what the document returns to lines 328-331. The
member `currentCameraRay_`, an engine ray that no modelled method reads, is not part of the
state. The result is `none` when `viewports_[currentViewport_]` is out of range. -/
def SceneViewportManager.Update (E : EngineMath) (m : SceneViewportManager)
    (input : SceneInputInterface) (timeStep : ℚ) (config : CameraVariables)
    (hasSelection : Bool) (selectedCenter : Vector3) :
    Option (SceneViewportManager × CameraUpdate) :=
  let m1 :=
    if !input.IsMouseButtonDown MouseButton.LeftButton
        && !input.IsMouseButtonDown MouseButton.RightButton
        && !input.IsMouseButtonDown MouseButton.MiddleButton then
      m.SelectCurrentViewport input.GetMousePosition
    else m
  let param : SceneViewportUpdateParams :=
    { timeStep_ := timeStep
      config_ := config
      input_ := input
      hasSelection_ := hasSelection
      selectionCenter_ := selectedCenter }
  if 0 ≤ m1.currentViewport_ then
    match m1.viewports_[m1.currentViewport_.toNat]? with
    | some currentViewport =>
        let u := currentViewport.Update E param
        some ({ m1 with viewports_ := m1.viewports_.set m1.currentViewport_.toNat u.viewport }, u)
    | none => none
  else
    none

/-- The condition under which `SceneViewport::Update` reaches the rotation code of lines
224-230: `changeCamViewButton` holds at line 195, the mouse move is non-zero at line 200 and
`panTheCamera` is false at line 220. -/
def rotatesCamera (p : SceneViewportUpdateParams) (v : SceneViewport) : Prop :=
  changeCamViewButton p (toggleFlyMode p v).flyMode_ = true ∧
  (p.input_.GetMouseMove.x_ ≠ 0 ∨ p.input_.GetMouseMove.y_ ≠ 0) ∧
  panTheCamera p (leaveFlyMode p (toggleFlyMode p v)).flyMode_ = false

instance (p : SceneViewportUpdateParams) (v : SceneViewport) : Decidable (rotatesCamera p v) := by
  unfold rotatesCamera; infer_instance

/-- The viewport after `n` consecutive calls of `SceneViewport::Update` with the same
arguments. -/
def runUpdates (E : EngineMath) (p : SceneViewportUpdateParams) : Nat → SceneViewport →
    SceneViewport
  | 0, v => v
  | n + 1, v => runUpdates E p n (v.Update E p).viewport

/-! ## Undoable node transforms: `Library/Editor/Transformable.cpp` -/

/-- The part of an engine scene node that the transform commands read and write: its id and
its local position, rotation and scale. -/
structure Node where
  id_ : Nat
  position_ : Vector3
  rotation_ : Quaternion
  scale_ : Vector3
  deriving DecidableEq

/-- A scene: its nodes in storage order. A `Node*` into the scene is the position of the node
in this list; a pointer that resolves to no element is a null or expired pointer. -/
structure Scene where
  nodes : List Node
  deriving DecidableEq

/-- The value type `NodeTransform`. -/
structure NodeTransform where
  position_ : Vector3
  rotation_ : Quaternion
  scale_ : Vector3
  deriving DecidableEq

/-- The method `NodeTransform::Define` (lines 24-29): the transform read from the node. -/
def NodeTransform.Define (node : Node) : NodeTransform :=
  { position_ := node.position_
    rotation_ := node.rotation_
    scale_ := node.scale_ }

/-- The method `NodeTransform::Apply` (lines 31-34), through the engine method
`Node::SetTransform(position, rotation, scale)`. -/
def NodeTransform.Apply (t : NodeTransform) (node : Node) : Node :=
  { node with
    position_ := t.position_
    rotation_ := t.rotation_
    scale_ := t.scale_ }

/-- The search behind `Scene::GetNode`: the position of the first node with the given id. -/
def findNode (id : Nat) : List Node → Option Nat
  | [] => none
  | n :: ns => if n.id_ = id then some 0 else (findNode id ns).map (fun r => r + 1)

/-- Engine method `Scene::GetNode(id)`: a pointer to the node with this id, or null. -/
def Scene.GetNode (scene : Scene) (id : Nat) : Option Nat :=
  findNode id scene.nodes

/-- The statement `transform.Apply(*node)` for a pointer into the scene. -/
def Scene.applyTransform (scene : Scene) (node : Nat) (t : NodeTransform) : Scene :=
  match scene.nodes[node]? with
  | some n => { scene with nodes := scene.nodes.set node (t.Apply n) }
  | none => scene

/-- The command `SelectionTransformChanged` (lines 128-136). Its member `scene_` is a pointer;
the scene it points to, or `none` when that scene is gone, is the argument of `Undo` and
`Redo`. -/
structure SelectionTransformChanged where
  nodeId_ : Nat
  oldTransform_ : NodeTransform
  newTransform_ : NodeTransform
  deriving DecidableEq

/-- The method `SelectionTransformChanged::Undo` (lines 138-145). -/
def SelectionTransformChanged.Undo (c : SelectionTransformChanged) (scene_ : Option Scene) :
    Option Scene :=
  match scene_ with
  | some scene =>
      match scene.GetNode c.nodeId_ with
      | some node => some (scene.applyTransform node c.oldTransform_)
      | none => some scene
  | none => none

/-- The method `SelectionTransformChanged::Redo` (lines 147-154). -/
def SelectionTransformChanged.Redo (c : SelectionTransformChanged) (scene_ : Option Scene) :
    Option Scene :=
  match scene_ with
  | some scene =>
      match scene.GetNode c.nodeId_ with
      | some node => some (scene.applyTransform node c.newTransform_)
      | none => some scene
  | none => none

/-- Modelled from the spec: the class `UndoCommandGroup` is not part of the sources. Following
section 3 of the spec it is an ordered sequence of commands with a label; `Push` appends a
command. -/
structure UndoCommandGroup where
  title : String
  commands : List SelectionTransformChanged
  deriving DecidableEq

/-- Modelled from the spec: `UndoCommandGroup::Push`, which is not part of the sources, appends
the command to the sequence. -/
def UndoCommandGroup.Push (g : UndoCommandGroup) (command : SelectionTransformChanged) :
    UndoCommandGroup :=
  { g with commands := g.commands ++ [command] }

/-- Modelled from the spec: the history stack, whose implementation is not part of the sources
(`SceneDocument.h` only declares `AddAction`, `UndoAction` and `RedoAction`). Following section
4.1 of the spec it is a linear sequence of commands with a current position; `notified` counts
the history-changed notifications. -/
structure UndoStack (α : Type) where
  entries : List α
  position : Nat
  notified : Nat

/-- Modelled from the spec: `Push(command)` (section 4.1) discards all commands after the
current position, appends the command there, leaves the position at the tail and notifies the
observers. -/
def UndoStack.Push {α : Type} (st : UndoStack α) (command : α) : UndoStack α :=
  { entries := st.entries.take st.position ++ [command]
    position := (st.entries.take st.position ++ [command]).length
    notified := st.notified + 1 }

/-- Modelled from the spec: `Undo()` (section 4.1) is a no-op at the start; otherwise it invokes
`Undo()` on the command immediately before the current position and decrements the position.
`world` is the state the commands act on. -/
def UndoStack.Undo {α W : Type} (undo : α → W → W) (st : UndoStack α) (world : W) :
    UndoStack α × W :=
  if st.position = 0 then (st, world)
  else
    match st.entries[st.position - 1]? with
    | some command => ({ st with position := st.position - 1 }, undo command world)
    | none => (st, world)

/-- Modelled from the spec: `Redo()` (section 4.1) is a no-op at the tail; otherwise it invokes
`Redo()` on the command at the current position and increments the position. -/
def UndoStack.Redo {α W : Type} (redo : α → W → W) (st : UndoStack α) (world : W) :
    UndoStack α × W :=
  if st.entries.length ≤ st.position then (st, world)
  else
    match st.entries[st.position]? with
    | some command => ({ st with position := st.position + 1 }, redo command world)
    | none => (st, world)

/-- The members of `SelectionTransform` that `StartTransformation` and `EndTransformation` use:
the tracked node pointers and the transforms captured for them. -/
structure SelectionTransform where
  nodes_ : List Nat
  initialTransforms_ : List NodeTransform
  deriving DecidableEq

/-- The second loop of `StartTransformation` (lines 71-73): one captured transform per tracked
pointer; `none` when a pointer resolves to no node. -/
def defineTransforms (scene : Scene) : List Nat → Option (List NodeTransform)
  | [] => some []
  | node :: rest =>
      match scene.nodes[node]?, defineTransforms scene rest with
      | some n, some ts => some (NodeTransform.Define n :: ts)
      | _, _ => none

/-- The method `SelectionTransform::StartTransformation` (lines 63-74); `selection` is the list
returned by `selection_->GetNodesAndComponents()`. -/
def SelectionTransform.StartTransformation (_t : SelectionTransform) (scene : Scene)
    (selection : List Nat) : Option SelectionTransform :=
  match defineTransforms scene selection with
  | some ts => some { nodes_ := selection, initialTransforms_ := ts }
  | none => none

/-- The loop of `EndTransformation` (lines 111-120), started at index `i` on the tracked
pointers from `i` on; `none` when a pointer resolves to no node or `initialTransforms_[i]` is
out of range. -/
def pushCommands (scene : Scene) (initialTransforms_ : List NodeTransform) :
    List Nat → Nat → UndoCommandGroup → Option UndoCommandGroup
  | [], _, commandGroup => some commandGroup
  | node :: rest, i, commandGroup =>
      match scene.nodes[node]?, initialTransforms_[i]? with
      | some n, some initialTransform =>
          let newTransform := NodeTransform.Define n
          let command : SelectionTransformChanged :=
            { nodeId_ := n.id_, oldTransform_ := initialTransform, newTransform_ := newTransform }
          pushCommands scene initialTransforms_ rest (i + 1) (commandGroup.Push command)
      | _, _ => none

/-- The method `SelectionTransform::EndTransformation` (lines 105-125). `undoStack_` is the
stack that the member pointer refers to, or `none` for a null pointer; the result holds the new
members and the stack after the call. -/
def SelectionTransform.EndTransformation (t : SelectionTransform) (scene : Scene)
    (undoStack_ : Option (UndoStack UndoCommandGroup)) :
    Option (SelectionTransform × Option (UndoStack UndoCommandGroup)) :=
  match undoStack_ with
  | none => some (t, none)
  | some undoStack =>
      if t.nodes_.isEmpty then some (t, some undoStack)
      else
        match pushCommands scene t.initialTransforms_ t.nodes_ 0
            { title := "Node Transforms", commands := [] } with
        | some commandGroup =>
            some ({ nodes_ := [], initialTransforms_ := [] }, some (undoStack.Push commandGroup))
        | none => none

/-- The node id resolves to no node: the scene is gone, or `GetNode` returns null. -/
def resolvesToNothing (nodeId : Nat) (scene_ : Option Scene) : Prop :=
  match scene_ with
  | none => True
  | some scene => scene.GetNode nodeId = none

instance (nodeId : Nat) (scene_ : Option Scene) : Decidable (resolvesToNothing nodeId scene_) := by
  unfold resolvesToNothing
  cases scene_ <;> infer_instance

/-- The state of `SceneViewport::Update` when it reaches line 182: after the fly-mode check, the
movement keys, the wheel and the Home key. -/
def beforeView (E : EngineMath) (v : SceneViewport) (p : SceneViewportUpdateParams) :
    CameraUpdate :=
  homeCamera E p (wheelCamera E p (moveCamera E p
    { viewport := toggleFlyMode p v, translations := [], mouseModes := [] }))


/-- Qt type `QVariant`, limited to the kinds of value the editor stores. `Invalid` is the
default-constructed `QVariant()`, which `QSettings::value` and `QHash::value` return for a key
they do not hold. -/
inductive QVariant where
  | Invalid
  | ofBool (b : Bool)
  | ofInt (i : Int)
  | ofDouble (d : ℚ)
  | ofString (s : String)
  | ofStringList (l : List String)
  deriving DecidableEq

/-- Qt method `QVariant::isNull`: true for the invalid variant. (Null values of a contained
type, such as a null `QString`, are not represented.) -/
def QVariant.isNull : QVariant → Bool
  | QVariant.Invalid => true
  | _ => false

/-- The record `VariableDesc` filled in by `RegisterVariable` (lines 34-38). -/
structure VariableDesc where
  name_ : String
  defaultValue_ : QVariant
  displayText_ : String
  decoration_ : QVariant
  deriving DecidableEq

/-- The state of a `Configuration`: the persistent store `settings_` (a `QSettings`), the
registered defaults, the in-memory values and the registered descriptions per section. A key a
container does not hold is mapped to `none`. -/
structure Configuration where
  settings_ : String → Option QVariant
  defaultValues_ : String → Option QVariant
  variables_ : String → Option QVariant
  sections_ : String → List VariableDesc

/-- The constant `Configuration::DefaultSection` (line 7). -/
def Configuration.DefaultSection : String := "(Internal)"

/-- The constant `Configuration::PROJECT_RECENT` (line 10). -/
def Configuration.PROJECT_RECENT : String := "Project.Recent"

/-- Qt method `QSettings::value(key)` on `settings_`. -/
def Configuration.settingsValue (c : Configuration) (key : String) : QVariant :=
  (c.settings_ key).getD QVariant.Invalid

/-- Qt method `QSettings::setValue(key, value)` on `settings_`. -/
def Configuration.settingsSetValue (c : Configuration) (key : String) (value : QVariant) :
    Configuration :=
  { c with settings_ := fun k => if k = key then some value else c.settings_ k }

/-- The method `Configuration::RegisterVariable` (lines 29-40). -/
def Configuration.RegisterVariable (c : Configuration) (key : String) (defaultValue : QVariant)
    (section_ : String) (displayText : String) (decoration : QVariant) : Configuration :=
  let desc : VariableDesc :=
    { name_ := key
      defaultValue_ := defaultValue
      displayText_ := displayText
      decoration_ := decoration }
  let target := if section_.isEmpty then Configuration.DefaultSection else section_
  { c with
    defaultValues_ := fun k => if k = key then some defaultValue else c.defaultValues_ k
    sections_ := fun s => if s = target then c.sections_ s ++ [desc] else c.sections_ s }

/-- The method `Configuration::GetDefaultValue` (lines 42-45). -/
def Configuration.GetDefaultValue (c : Configuration) (key : String) : QVariant :=
  (c.defaultValues_ key).getD QVariant.Invalid

/-- The method `Configuration::GetValue` (lines 47-59): the returned value and the configuration
after the call, which may have cached the value in `variables_`. -/
def Configuration.GetValue (c : Configuration) (key : String) : QVariant × Configuration :=
  let c1 : Configuration :=
    if (c.variables_ key).isSome then c
    else
      let value := c.settingsValue key
      if !value.isNull then
        { c with variables_ := fun k => if k = key then some value else c.variables_ k }
      else
        { c with
          variables_ := fun k =>
            if k = key then some ((c.defaultValues_ key).getD QVariant.Invalid)
            else c.variables_ k }
  ((c1.variables_ key).getD QVariant.Invalid, c1)

/-- The method `Configuration::SetValue` (lines 61-66). -/
def Configuration.SetValue (c : Configuration) (key : String) (value : QVariant)
    (saveImmediately : Bool) : Configuration :=
  let c1 : Configuration :=
    { c with variables_ := fun k => if k = key then some value else c.variables_ k }
  if saveImmediately then c1.settingsSetValue key value else c1

/-- The method `Configuration::AddRecentProject` (lines 73-79). `GetRecentProjects` is the
member function called at line 75; it is declared in a header that is not part of the sources,
so it is an argument here. `removeAll` drops every element equal to `name`, `push_front` puts
`name` first. -/
def Configuration.AddRecentProject (GetRecentProjects : Configuration → List String)
    (c : Configuration) (name : String) : Configuration :=
  let recentProjects := GetRecentProjects c
  let recentProjects := recentProjects.filter (fun s => decide (s ≠ name))
  let recentProjects := name :: recentProjects
  c.settingsSetValue Configuration.PROJECT_RECENT (QVariant.ofStringList recentProjects)

/-- The reading of the recent-projects list that goes with the write of line 78: the string list
stored under `PROJECT_RECENT`, or the empty list. -/
def readRecentProjects (c : Configuration) : List String :=
  match c.settings_ Configuration.PROJECT_RECENT with
  | some (QVariant.ofStringList l) => l
  | _ => []

/-! ## The current viewport index -/

/-- The method `SceneViewportManager::ApplyViewports` (lines 286-296). `numViewports` is
`renderer->GetNumViewports()` before the call. The engine method `Renderer::SetViewport(index,
viewport)` grows the renderer's list when `index` is beyond its end, so after the first loop the
renderer holds the larger of the two counts and the second loop runs `index` up to it. -/
def SceneViewportManager.ApplyViewports (m : SceneViewportManager) (numViewports : Nat) :
    SceneViewportManager :=
  let index : Nat := max m.viewports_.length numViewports
  { m with currentViewport_ := min m.currentViewport_ ((index : Int) - 1) }

/-- The method `SceneViewportManager::GetCurrentCamera` (lines 311-314): the viewport whose
camera is returned, or `none` when `viewports_[currentViewport_]` is out of range. -/
def SceneViewportManager.GetCurrentCamera (m : SceneViewportManager) : Option SceneViewport :=
  if 0 ≤ m.currentViewport_ then m.viewports_[m.currentViewport_.toNat]? else none

/-! ## The rectangles written by `UpdateViewportLayout` -/

/-- The `SetRect` statements of the `switch` of `UpdateViewportLayout` (lines 398-441) as a
list, in statement order: the index `i` of `viewports_[i]` and the rectangle.
`applyLayoutRects_eq_writes` shows that `applyLayoutRects` performs exactly these writes. -/
def layoutWrites (layout : SceneViewportLayout) (width height : Int) : List (Nat × IntRect) :=
  let halfWidth := Int.tdiv width 2
  let halfHeight := Int.tdiv height 2
  match layout with
  | SceneViewportLayout.Empty => []
  | SceneViewportLayout.Single => [(0, ⟨0, 0, width, height⟩)]
  | SceneViewportLayout.Vertical =>
      [(0, ⟨0, 0, halfWidth, height⟩), (1, ⟨halfWidth, 0, width, height⟩)]
  | SceneViewportLayout.Horizontal =>
      [(0, ⟨0, 0, width, halfHeight⟩), (1, ⟨0, halfHeight, width, height⟩)]
  | SceneViewportLayout.Quad =>
      [(0, ⟨0, 0, halfWidth, halfHeight⟩), (1, ⟨halfWidth, 0, width, halfHeight⟩),
       (2, ⟨0, halfHeight, halfWidth, height⟩), (3, ⟨halfWidth, halfHeight, width, height⟩)]
  | SceneViewportLayout.Top1_Bottom2 =>
      [(0, ⟨0, 0, width, halfHeight⟩), (1, ⟨0, halfHeight, halfWidth, height⟩),
       (2, ⟨halfWidth, halfHeight, width, height⟩)]
  | SceneViewportLayout.Top2_Bottom1 =>
      [(0, ⟨0, 0, halfWidth, halfHeight⟩), (1, ⟨halfWidth, 0, width, halfHeight⟩),
       (2, ⟨0, halfHeight, width, height⟩)]
  | SceneViewportLayout.Left1_Right2 =>
      [(0, ⟨0, 0, halfWidth, height⟩), (1, ⟨halfWidth, 0, width, halfHeight⟩),
       (2, ⟨halfWidth, halfHeight, width, height⟩)]
  | SceneViewportLayout.Left2_Right1 =>
      [(0, ⟨0, 0, halfWidth, halfHeight⟩), (1, ⟨0, halfHeight, halfWidth, height⟩),
       (2, ⟨halfWidth, 0, width, height⟩)]
  | SceneViewportLayout.OutOfEnum _ => []

/-- The number of pixels of a rectangle read as a half-open box. -/
def IntRect.Area (r : IntRect) : Int := r.Width * r.Height

/-- Two rectangles, read as half-open pixel boxes, share no pixel. -/
def IntRect.Disjoint (a b : IntRect) : Prop :=
  ∀ x y : Int, ¬ (a.Contains x y ∧ b.Contains x y)

/-- The rectangle lies inside the surface `[0,width) x [0,height)`. -/
def IntRect.InsideSurface (r : IntRect) (width height : Int) : Prop :=
  0 ≤ r.left_ ∧ r.left_ ≤ r.right_ ∧ r.right_ ≤ width ∧
  0 ≤ r.top_ ∧ r.top_ ≤ r.bottom_ ∧ r.bottom_ ≤ height

instance (r : IntRect) (width height : Int) : Decidable (r.InsideSurface width height) := by
  unfold IntRect.InsideSurface; infer_instance

/-! ## Viewport counts and the size invariant -/

theorem growViewports_eq (position : Vector3) (rotation : Quaternion) (k : Nat)
    (vs : List SceneViewport) :
    growViewports position rotation k vs
      = vs ++ List.replicate k (SceneViewport.new.SetTransform position rotation) := by
  induction k generalizing vs with
  | zero => simp [growViewports]
  | succ k ih =>
      rw [growViewports, ih, List.append_assoc]
      congr 1

theorem UpdateNumberOfViewports_viewports (m : SceneViewportManager) (n : Nat) :
    (m.UpdateNumberOfViewports n).viewports_
      = if n < m.viewports_.length then m.viewports_.take n
        else m.viewports_ ++ List.replicate (n - m.viewports_.length)
          (SceneViewport.new.SetTransform (seedTransform m.viewports_).1
            (seedTransform m.viewports_).2) := by
  unfold SceneViewportManager.UpdateNumberOfViewports
  by_cases h : n < m.viewports_.length
  · simp [h]
  · simp [h, growViewports_eq]

theorem UpdateNumberOfViewports_length (m : SceneViewportManager) (n : Nat) :
    (m.UpdateNumberOfViewports n).viewports_.length = n := by
  rw [UpdateNumberOfViewports_viewports]
  split
  · rw [List.length_take]; omega
  · rw [List.length_append, List.length_replicate]; omega

theorem UpdateNumberOfViewports_layout (m : SceneViewportManager) (n : Nat) :
    (m.UpdateNumberOfViewports n).layout_ = m.layout_ := by
  by_cases h : n < m.viewports_.length <;>
    simp [SceneViewportManager.UpdateNumberOfViewports, h]

theorem UpdateNumberOfViewports_current (m : SceneViewportManager) (n : Nat) :
    (m.UpdateNumberOfViewports n).currentViewport_ = m.currentViewport_ := by
  by_cases h : n < m.viewports_.length <;>
    simp [SceneViewportManager.UpdateNumberOfViewports, h]

theorem UpdateNumberOfViewports_emitted (m : SceneViewportManager) (n : Nat) :
    (m.UpdateNumberOfViewports n).emitted = m.emitted := by
  by_cases h : n < m.viewports_.length <;>
    simp [SceneViewportManager.UpdateNumberOfViewports, h]

theorem length_setRectAt (vs : List SceneViewport) (i : Nat) (rect : IntRect) :
    (setRectAt vs i rect).length = vs.length := by
  induction vs generalizing i with
  | nil => simp [setRectAt]
  | cons v vs ih =>
      cases i with
      | zero => simp [setRectAt]
      | succ i => simp [setRectAt, ih]

theorem length_applyLayoutRects (layout : SceneViewportLayout) (width height : Int)
    (vs : List SceneViewport) :
    (applyLayoutRects layout width height vs).length = vs.length := by
  cases layout <;> simp [applyLayoutRects, length_setRectAt]

/-- The state reached by `SetLayout`, in closed form: the call always completes. -/
theorem SetLayout_eq (m : SceneViewportManager) (layout : SceneViewportLayout)
    (width height : Int) :
    m.SetLayout layout width height
      = some
          { currentViewport_ := m.currentViewport_
            layout_ := layout
            viewports_ := applyLayoutRects layout width height
              (({ m with layout_ := layout } : SceneViewportManager).UpdateNumberOfViewports
                (GetNumberOfViewports layout)).viewports_
            emitted := m.emitted + 1 } := by
  have hlen := UpdateNumberOfViewports_length
    ({ m with layout_ := layout } : SceneViewportManager) (GetNumberOfViewports layout)
  have hlay := UpdateNumberOfViewports_layout
    ({ m with layout_ := layout } : SceneViewportManager) (GetNumberOfViewports layout)
  have hcur := UpdateNumberOfViewports_current
    ({ m with layout_ := layout } : SceneViewportManager) (GetNumberOfViewports layout)
  have hem := UpdateNumberOfViewports_emitted
    ({ m with layout_ := layout } : SceneViewportManager) (GetNumberOfViewports layout)
  simp only [SceneViewportManager.SetLayout, SceneViewportManager.UpdateViewportLayout]
  simp only [hlay] at hlen ⊢
  simp [hlen, hcur, hem]

theorem tdiv_two_eq (w : Int) :
    Int.tdiv w 2 = if 0 ≤ w then w / 2 else -((-w) / 2) := by
  split
  · next h => exact Int.tdiv_eq_ediv h (by decide)
  · next h =>
      have h1 : w = -(-w) := by omega
      rw [h1, Int.neg_tdiv, Int.tdiv_eq_ediv (by omega) (by decide)]
      simp

theorem tdiv_two_bounds (w : Int) :
    (0 ≤ w → 2 * Int.tdiv w 2 ≤ w ∧ w ≤ 2 * Int.tdiv w 2 + 1) ∧
    (w < 0 → w ≤ 2 * Int.tdiv w 2 ∧ 2 * Int.tdiv w 2 ≤ w + 1) := by
  rw [tdiv_two_eq]
  split <;> constructor <;> intro _ <;> omega

theorem list_length_four {α : Type} (l : List α) (h : l.length = 4) :
    ∃ a b c d, l = [a, b, c, d] := by
  match l, h with
  | [a, b, c, d], _ => exact ⟨a, b, c, d, rfl⟩

theorem rects_applyLayoutRects (layout : SceneViewportLayout) (width height : Int)
    (vs : List SceneViewport) (h : vs.length = GetNumberOfViewports layout) :
    (applyLayoutRects layout width height vs).map (fun v => v.rect)
      = layoutRects layout width height := by
  cases layout <;> simp only [GetNumberOfViewports] at h
  case Empty => simp [List.length_eq_zero.mp h, applyLayoutRects, layoutRects]
  case OutOfEnum raw => simp [List.length_eq_zero.mp h, applyLayoutRects, layoutRects]
  case Single =>
    obtain ⟨a, rfl⟩ := List.length_eq_one.mp h
    simp [applyLayoutRects, layoutRects, setRectAt, SceneViewport.SetRect]
  case Quad =>
    obtain ⟨a, b, c, d, rfl⟩ := list_length_four vs h
    simp [applyLayoutRects, layoutRects, setRectAt, SceneViewport.SetRect]
  case Vertical =>
    obtain ⟨a, b, rfl⟩ := List.length_eq_two.mp h
    simp [applyLayoutRects, layoutRects, setRectAt, SceneViewport.SetRect]
  case Horizontal =>
    obtain ⟨a, b, rfl⟩ := List.length_eq_two.mp h
    simp [applyLayoutRects, layoutRects, setRectAt, SceneViewport.SetRect]
  all_goals
    obtain ⟨a, b, c, rfl⟩ := List.length_eq_three.mp h
    simp [applyLayoutRects, layoutRects, setRectAt, SceneViewport.SetRect]

theorem SetLayout_rects (m : SceneViewportManager) (layout : SceneViewportLayout)
    (width height : Int) :
    ∃ m1 : SceneViewportManager, m.SetLayout layout width height = some m1 ∧
      m1.rects = layoutRects layout width height := by
  refine ⟨_, SetLayout_eq m layout width height, ?_⟩
  apply rects_applyLayoutRects
  have hlen := UpdateNumberOfViewports_length
    ({ m with layout_ := layout } : SceneViewportManager) (GetNumberOfViewports layout)
  simpa using hlen

theorem layoutRects_tiles (layout : SceneViewportLayout) (width height : Int)
    (h : 0 < GetNumberOfViewports layout) :
    TilesSurface (layoutRects layout width height) width height := by
  have hw := tdiv_two_bounds width
  have hh := tdiv_two_bounds height
  cases layout <;> simp only [GetNumberOfViewports, Nat.lt_irrefl] at h <;>
    simp only [layoutRects, TilesSurface] <;>
    generalize Int.tdiv width 2 = halfWidth at hw ⊢ <;>
    generalize Int.tdiv height 2 = halfHeight at hh ⊢ <;>
    (constructor
     · intro x y hx0 hx1 hy0 hy1
       simp only [coverCount, List.countP_cons, List.countP_nil, IntRect.Contains,
         decide_eq_true_eq]
       split_ifs <;> omega
     · simp only [List.mem_cons, List.mem_singleton, List.not_mem_nil, or_false,
         IntRect.Contains]
       intro r hr x y hc
       rcases hr with rfl | rfl | rfl | rfl <;> simp only at hc <;> omega)

/-- C1: `GetNumberOfViewports` is the canonical table: `Empty` gives 0, `Single` gives 1,
`Vertical` and `Horizontal` give 2, the four asymmetric splits give 3, `Quad` gives 4, and
every out-of-enum value gives 0. -/
theorem GetNumberOfViewports_table :
    GetNumberOfViewports SceneViewportLayout.Empty = 0 ∧
    GetNumberOfViewports SceneViewportLayout.Single = 1 ∧
    GetNumberOfViewports SceneViewportLayout.Vertical = 2 ∧
    GetNumberOfViewports SceneViewportLayout.Horizontal = 2 ∧
    GetNumberOfViewports SceneViewportLayout.Top1_Bottom2 = 3 ∧
    GetNumberOfViewports SceneViewportLayout.Top2_Bottom1 = 3 ∧
    GetNumberOfViewports SceneViewportLayout.Left1_Right2 = 3 ∧
    GetNumberOfViewports SceneViewportLayout.Left2_Right1 = 3 ∧
    GetNumberOfViewports SceneViewportLayout.Quad = 4 ∧
    ∀ raw : Int, GetNumberOfViewports (SceneViewportLayout.OutOfEnum raw) = 0 :=
  ⟨rfl, rfl, rfl, rfl, rfl, rfl, rfl, rfl, rfl, fun _ => rfl⟩

/-- C2: from every manager state and for every layout `L`, `SetLayout(L)` completes, the stored
layout is `L`, the viewport collection has exactly `GetNumberOfViewports(L)` elements, and the
state on which `SetLayout` calls `UpdateViewportLayout` satisfies the asserted size invariant. -/
theorem SetLayout_layout_and_count (m : SceneViewportManager) (L : SceneViewportLayout)
    (width height : Int) :
    (∃ m1 : SceneViewportManager, m.SetLayout L width height = some m1 ∧
      m1.layout_ = L ∧ m1.viewports_.length = GetNumberOfViewports L ∧ m1.CountInvariant) ∧
    (({ m with layout_ := L } : SceneViewportManager).UpdateNumberOfViewports
      (GetNumberOfViewports L)).CountInvariant := by
  have hlen := UpdateNumberOfViewports_length
    ({ m with layout_ := L } : SceneViewportManager) (GetNumberOfViewports L)
  have hlay := UpdateNumberOfViewports_layout
    ({ m with layout_ := L } : SceneViewportManager) (GetNumberOfViewports L)
  refine ⟨⟨_, SetLayout_eq m L width height, rfl, ?_, ?_⟩, ?_⟩
  · simp [length_applyLayoutRects, hlen]
  · simp [SceneViewportManager.CountInvariant, length_applyLayoutRects, hlen]
  · simp only [SceneViewportManager.CountInvariant, hlay, hlen]

/-! ## Rectangles assigned by the layouts -/

/-- C3, as stated, fails for `Empty`: on an 800 x 600 surface `SetLayout(Empty)` leaves no
viewport, so the surface pixel `(0, 0)` lies in no viewport rectangle. -/
theorem SetLayout_Empty_not_tiling :
    SceneViewportManager.initial.SetLayout SceneViewportLayout.Empty 800 600
        = some { currentViewport_ := 0, layout_ := SceneViewportLayout.Empty,
                 viewports_ := [], emitted := 1 } ∧
      ¬ TilesSurface
          (SceneViewportManager.rects
            { currentViewport_ := 0, layout_ := SceneViewportLayout.Empty,
              viewports_ := [], emitted := 1 }) 800 600 := by
  refine ⟨rfl, ?_⟩
  intro h
  have h0 := h.1 0 0 (by decide) (by decide) (by decide) (by decide)
  simp [SceneViewportManager.rects, coverCount] at h0

/-- C3, amended: for every layout that has at least one viewport (every enumerator other than
`Empty`), every prior manager state and every surface width and height, `SetLayout` completes
and the viewport rectangles, read as half-open pixel boxes, tile the surface: every surface
pixel lies in exactly one rectangle and no rectangle has a pixel outside the surface. -/
theorem SetLayout_tiles_surface (m : SceneViewportManager) (L : SceneViewportLayout)
    (width height : Int) (hL : 0 < GetNumberOfViewports L) :
    ∃ m1 : SceneViewportManager, m.SetLayout L width height = some m1 ∧
      TilesSurface m1.rects width height := by
  obtain ⟨m1, h1, h2⟩ := SetLayout_rects m L width height
  exact ⟨m1, h1, h2 ▸ layoutRects_tiles L width height hL⟩

theorem SetLayout_tiles_surface_witness :
    0 < GetNumberOfViewports SceneViewportLayout.Top1_Bottom2 ∧
      ∃ m1 : SceneViewportManager,
        SceneViewportManager.initial.SetLayout SceneViewportLayout.Top1_Bottom2 801 601
          = some m1 ∧
        TilesSurface m1.rects 801 601 :=
  ⟨by decide,
    SetLayout_tiles_surface SceneViewportManager.initial SceneViewportLayout.Top1_Bottom2
      801 601 (by decide)⟩

/-- C4: on an 800 x 600 surface, `SetLayout(Quad)` from any manager state leaves exactly four
viewports whose rectangles, in collection order, are (0,0,400,300), (400,0,800,300),
(0,300,400,600) and (400,300,800,600). -/
theorem SetLayout_Quad_800_600 (m : SceneViewportManager) :
    ∃ m1 : SceneViewportManager, m.SetLayout SceneViewportLayout.Quad 800 600 = some m1 ∧
      m1.viewports_.length = 4 ∧
      m1.rects = [⟨0, 0, 400, 300⟩, ⟨400, 0, 800, 300⟩, ⟨0, 300, 400, 600⟩,
                  ⟨400, 300, 800, 600⟩] := by
  obtain ⟨m1, h1, h2⟩ := SetLayout_rects m SceneViewportLayout.Quad 800 600
  refine ⟨m1, h1, ?_, ?_⟩
  · have h3 : m1.rects.length = 4 := by rw [h2]; rfl
    simpa [SceneViewportManager.rects] using h3
  · rw [h2]; rfl

/-- C5: for non-negative width and height, every rectangle assigned by `SetLayout` spans, on
each axis, the whole surface, the first part `[0, d/2)` or the second part `[d/2, d)`, where
`d/2` is the integer quotient; a layout that splits an axis has a first part of extent `d/2`
and a second part of extent `d - d/2`; and the second extent is never smaller than the first,
exceeds it by at most one, and by exactly one precisely when `d` is odd. -/
theorem split_is_integer_half (m : SceneViewportManager) (L : SceneViewportLayout)
    (width height : Int) (hw : 0 ≤ width) (hh : 0 ≤ height) :
    ∃ m1 : SceneViewportManager, m.SetLayout L width height = some m1 ∧
      (∀ r ∈ m1.rects,
        (r.left_ = 0 ∧ r.right_ = width) ∨ (r.left_ = 0 ∧ r.right_ = width / 2) ∨
          (r.left_ = width / 2 ∧ r.right_ = width)) ∧
      (∀ r ∈ m1.rects,
        (r.top_ = 0 ∧ r.bottom_ = height) ∨ (r.top_ = 0 ∧ r.bottom_ = height / 2) ∨
          (r.top_ = height / 2 ∧ r.bottom_ = height)) ∧
      (usesHalfWidth L = true →
        (∃ r ∈ m1.rects, r.left_ = 0 ∧ r.Width = width / 2) ∧
        (∃ r ∈ m1.rects, r.left_ = width / 2 ∧ r.Width = width - width / 2)) ∧
      (usesHalfHeight L = true →
        (∃ r ∈ m1.rects, r.top_ = 0 ∧ r.Height = height / 2) ∧
        (∃ r ∈ m1.rects, r.top_ = height / 2 ∧ r.Height = height - height / 2)) ∧
      (width / 2 ≤ width - width / 2 ∧ (width - width / 2) - width / 2 ≤ 1 ∧
        ((width - width / 2) - width / 2 = 1 ↔ width % 2 = 1)) ∧
      (height / 2 ≤ height - height / 2 ∧ (height - height / 2) - height / 2 ≤ 1 ∧
        ((height - height / 2) - height / 2 = 1 ↔ height % 2 = 1)) := by
  obtain ⟨m1, h1, h2⟩ := SetLayout_rects m L width height
  have ew : Int.tdiv width 2 = width / 2 := Int.tdiv_eq_ediv hw (by decide)
  have eh : Int.tdiv height 2 = height / 2 := Int.tdiv_eq_ediv hh (by decide)
  refine ⟨m1, h1, ?_, ?_, ?_, ?_, ⟨by omega, by omega, by omega⟩, ⟨by omega, by omega, by omega⟩⟩
  all_goals rw [h2]
  all_goals cases L <;> simp [layoutRects, usesHalfWidth, usesHalfHeight, IntRect.Width,
    IntRect.Height, ew, eh]

theorem split_is_integer_half_witness :
    ∃ m1 : SceneViewportManager,
      SceneViewportManager.initial.SetLayout SceneViewportLayout.Quad 801 600 = some m1 ∧
      (∀ r ∈ m1.rects,
        (r.left_ = 0 ∧ r.right_ = 801) ∨ (r.left_ = 0 ∧ r.right_ = 801 / 2) ∨
          (r.left_ = 801 / 2 ∧ r.right_ = 801)) ∧
      (∀ r ∈ m1.rects,
        (r.top_ = 0 ∧ r.bottom_ = 600) ∨ (r.top_ = 0 ∧ r.bottom_ = 600 / 2) ∨
          (r.top_ = 600 / 2 ∧ r.bottom_ = 600)) ∧
      (usesHalfWidth SceneViewportLayout.Quad = true →
        (∃ r ∈ m1.rects, r.left_ = 0 ∧ r.Width = 801 / 2) ∧
        (∃ r ∈ m1.rects, r.left_ = 801 / 2 ∧ r.Width = 801 - 801 / 2)) ∧
      (usesHalfHeight SceneViewportLayout.Quad = true →
        (∃ r ∈ m1.rects, r.top_ = 0 ∧ r.Height = 600 / 2) ∧
        (∃ r ∈ m1.rects, r.top_ = 600 / 2 ∧ r.Height = 600 - 600 / 2)) ∧
      ((801 : Int) / 2 ≤ 801 - 801 / 2 ∧ ((801 : Int) - 801 / 2) - 801 / 2 ≤ 1 ∧
        (((801 : Int) - 801 / 2) - 801 / 2 = 1 ↔ (801 : Int) % 2 = 1)) ∧
      ((600 : Int) / 2 ≤ 600 - 600 / 2 ∧ ((600 : Int) - 600 / 2) - 600 / 2 ≤ 1 ∧
        (((600 : Int) - 600 / 2) - 600 / 2 = 1 ↔ (600 : Int) % 2 = 1)) :=
  split_is_integer_half SceneViewportManager.initial SceneViewportLayout.Quad 801 600
    (by decide) (by decide)

/-! ## Resizing -/

theorem UpdateNumberOfViewports_same (m : SceneViewportManager) :
    m.UpdateNumberOfViewports m.viewports_.length = m := by
  simp [SceneViewportManager.UpdateNumberOfViewports, growViewports]

theorem SetLayout_same (m : SceneViewportManager) (width height : Int)
    (hinv : m.CountInvariant) :
    m.SetLayout m.layout_ width height
      = some { m with
               viewports_ := applyLayoutRects m.layout_ width height m.viewports_
               emitted := m.emitted + 1 } := by
  have h0 : ({ m with layout_ := m.layout_ } : SceneViewportManager) = m := rfl
  have h1 : m.UpdateNumberOfViewports (GetNumberOfViewports m.layout_) = m := by
    unfold SceneViewportManager.CountInvariant at hinv
    rw [← hinv]
    exact UpdateNumberOfViewports_same m
  rw [SetLayout_eq, h0, h1]

theorem HandleResize_eq (m : SceneViewportManager) (width height : Int)
    (hinv : m.CountInvariant) :
    m.HandleResize width height
      = some { m with viewports_ := applyLayoutRects m.layout_ width height m.viewports_ } := by
  unfold SceneViewportManager.CountInvariant at hinv
  simp [SceneViewportManager.HandleResize, SceneViewportManager.UpdateViewportLayout, hinv]

theorem HandleResize_rects (m : SceneViewportManager) (width height : Int)
    (hinv : m.CountInvariant) :
    ∃ m1 : SceneViewportManager, m.HandleResize width height = some m1 ∧
      m1.layout_ = m.layout_ ∧ m1.viewports_.length = m.viewports_.length ∧
      m1.rects = layoutRects m.layout_ width height := by
  refine ⟨_, HandleResize_eq m width height hinv, rfl, ?_, ?_⟩
  · simp [length_applyLayoutRects]
  · exact rects_applyLayoutRects m.layout_ width height m.viewports_ hinv

/-- The size invariant holds after the constructor body `SetLayout(Single)` and is kept by
`HandleResize` and `SelectCurrentViewport`, so it holds in every state in which a resize event
can arrive; `SetLayout` re-establishes it from any state. -/
theorem CountInvariant_maintained (m : SceneViewportManager) (width height : Int)
    (cursor : IntVector2) :
    (∃ m0 : SceneViewportManager,
      SceneViewportManager.initial.SetLayout SceneViewportLayout.Single width height = some m0 ∧
      m0.CountInvariant) ∧
    (m.CountInvariant →
      (∃ m1 : SceneViewportManager, m.HandleResize width height = some m1 ∧
        m1.CountInvariant) ∧
      (m.SelectCurrentViewport cursor).CountInvariant) := by
  refine ⟨⟨_, SetLayout_eq _ _ _ _, ?_⟩, fun hinv => ⟨?_, ?_⟩⟩
  · simp only [SceneViewportManager.CountInvariant, length_applyLayoutRects,
      UpdateNumberOfViewports_length]
  · obtain ⟨m1, h1, hlay, hlen, _⟩ := HandleResize_rects m width height hinv
    refine ⟨m1, h1, ?_⟩
    unfold SceneViewportManager.CountInvariant at hinv ⊢
    rw [hlen, hlay, hinv]
  · unfold SceneViewportManager.CountInvariant at hinv ⊢
    unfold SceneViewportManager.SelectCurrentViewport
    split <;> exact hinv

/-- C6: on a manager state that satisfies the asserted size invariant, handling a resize to
`(w, h)` completes, leaves the layout value, the number of viewports and the current index
unchanged, and leaves exactly the viewports (hence exactly the rectangles) that
`SetLayout(current layout)` leaves at size `(w, h)`; a following `SetLayout(current layout)` at
the same size changes no rectangle. -/
theorem HandleResize_agrees_with_SetLayout (m : SceneViewportManager) (width height : Int)
    (hinv : m.CountInvariant) :
    ∃ m1 m2 m3 : SceneViewportManager,
      m.HandleResize width height = some m1 ∧
      m.SetLayout m.layout_ width height = some m2 ∧
      m1.SetLayout m1.layout_ width height = some m3 ∧
      m1.layout_ = m.layout_ ∧
      m1.viewports_.length = m.viewports_.length ∧
      m1.currentViewport_ = m.currentViewport_ ∧
      m1.viewports_ = m2.viewports_ ∧
      m1.rects = m2.rects ∧
      m3.rects = m1.rects := by
  obtain ⟨m1, h1, hlay, hlen, hrects⟩ := HandleResize_rects m width height hinv
  obtain ⟨m3, h3, h3r⟩ := SetLayout_rects m1 m1.layout_ width height
  have h1eq := HandleResize_eq m width height hinv
  rw [h1] at h1eq
  have hm1 := Option.some.inj h1eq
  refine ⟨m1, _, m3, h1, SetLayout_same m width height hinv, h3, hlay, hlen, ?_, ?_, ?_, ?_⟩
  · rw [hm1]
  · rw [hm1]
  · rw [hm1]; rfl
  · rw [h3r, hrects, hlay]

theorem HandleResize_agrees_with_SetLayout_witness :
    ∃ m1 m2 m3 : SceneViewportManager,
      SceneViewportManager.HandleResize
        { currentViewport_ := 1, layout_ := SceneViewportLayout.Vertical,
          viewports_ := [SceneViewport.new, SceneViewport.new], emitted := 1 } 1024 768
        = some m1 ∧
      SceneViewportManager.SetLayout
        { currentViewport_ := 1, layout_ := SceneViewportLayout.Vertical,
          viewports_ := [SceneViewport.new, SceneViewport.new], emitted := 1 }
        SceneViewportLayout.Vertical 1024 768 = some m2 ∧
      m1.SetLayout m1.layout_ 1024 768 = some m3 ∧
      m1.layout_ = SceneViewportLayout.Vertical ∧
      m1.viewports_.length = 2 ∧
      m1.currentViewport_ = 1 ∧
      m1.viewports_ = m2.viewports_ ∧
      m1.rects = m2.rects ∧
      m3.rects = m1.rects :=
  HandleResize_agrees_with_SetLayout
    { currentViewport_ := 1, layout_ := SceneViewportLayout.Vertical,
      viewports_ := [SceneViewport.new, SceneViewport.new], emitted := 1 } 1024 768
    (by decide)

/-- C7, as stated, fails: on a surface of width 0 and height 600, `SetLayout(Single)` leaves
the rectangle (0,0,0,600), whose height is 600, not 0. -/
theorem SetLayout_zero_width_keeps_height :
    (SceneViewportManager.initial.SetLayout SceneViewportLayout.Single 0 600).map
        SceneViewportManager.rects = some [⟨0, 0, 0, 600⟩] ∧
      ¬ (IntRect.Width ⟨0, 0, 0, 600⟩ = 0 ∧ IntRect.Height ⟨0, 0, 0, 600⟩ = 0) := by
  refine ⟨rfl, ?_⟩
  decide

/-- C7, amended: when the surface has zero area (width 0 or height 0), `SetLayout(L)` completes
from every state and for every layout, resize handling completes on every state satisfying the
size invariant, and every resulting viewport rectangle has zero area: its width is 0 when the
surface width is 0 and its height is 0 when the surface height is 0 (so it has size (0,0) when
both are 0). -/
theorem zero_area_surface_gives_zero_area_rects (m : SceneViewportManager)
    (L : SceneViewportLayout) (width height : Int) (hz : width = 0 ∨ height = 0) :
    (∃ m1 : SceneViewportManager, m.SetLayout L width height = some m1 ∧
      ∀ r ∈ m1.rects, (width = 0 → r.Width = 0) ∧ (height = 0 → r.Height = 0) ∧
        r.Width * r.Height = 0) ∧
    (m.CountInvariant →
      ∃ m1 : SceneViewportManager, m.HandleResize width height = some m1 ∧
        ∀ r ∈ m1.rects, (width = 0 → r.Width = 0) ∧ (height = 0 → r.Height = 0) ∧
          r.Width * r.Height = 0) := by
  have key : ∀ L0 : SceneViewportLayout, ∀ r ∈ layoutRects L0 width height,
      (width = 0 → r.Width = 0) ∧ (height = 0 → r.Height = 0) ∧ r.Width * r.Height = 0 := by
    intro L0 r hr
    have hwh : (width = 0 → r.Width = 0) ∧ (height = 0 → r.Height = 0) := by
      constructor
      · intro h0
        subst h0
        cases L0 <;> simp [layoutRects] at hr <;>
          (try rcases hr with rfl | rfl | rfl | rfl) <;>
          simp [IntRect.Width]
      · intro h0
        subst h0
        cases L0 <;> simp [layoutRects] at hr <;>
          (try rcases hr with rfl | rfl | rfl | rfl) <;>
          simp [IntRect.Height]
    refine ⟨hwh.1, hwh.2, ?_⟩
    rcases hz with h0 | h0
    · rw [hwh.1 h0]; simp
    · rw [hwh.2 h0]; simp
  constructor
  · obtain ⟨m1, h1, h2⟩ := SetLayout_rects m L width height
    exact ⟨m1, h1, h2 ▸ key L⟩
  · intro hinv
    obtain ⟨m1, h1, _, _, h2⟩ := HandleResize_rects m width height hinv
    exact ⟨m1, h1, h2 ▸ key m.layout_⟩

theorem zero_area_surface_gives_zero_area_rects_witness :
    ((0 : Int) = 0 ∨ (600 : Int) = 0) ∧
    ((∃ m1 : SceneViewportManager,
        SceneViewportManager.initial.SetLayout SceneViewportLayout.Quad 0 600 = some m1 ∧
        ∀ r ∈ m1.rects, ((0 : Int) = 0 → r.Width = 0) ∧ ((600 : Int) = 0 → r.Height = 0) ∧
          r.Width * r.Height = 0) ∧
      (SceneViewportManager.initial.CountInvariant →
        ∃ m1 : SceneViewportManager,
          SceneViewportManager.initial.HandleResize 0 600 = some m1 ∧
          ∀ r ∈ m1.rects, ((0 : Int) = 0 → r.Width = 0) ∧ ((600 : Int) = 0 → r.Height = 0) ∧
            r.Width * r.Height = 0)) :=
  ⟨by decide,
    zero_area_surface_gives_zero_area_rects SceneViewportManager.initial
      SceneViewportLayout.Quad 0 600 (by decide)⟩

/-! ## Growing and shrinking the collection -/

theorem seedTransform_nil : seedTransform [] = (defaultPosition, defaultRotation) := rfl

theorem seedTransform_of_last (vs : List SceneViewport) (h : 0 < vs.length) :
    ∃ last : SceneViewport, vs[vs.length - 1]? = some last ∧
      seedTransform vs = (last.position, last.rotation) := by
  have hlt : vs.length - 1 < vs.length := by omega
  refine ⟨vs[vs.length - 1], List.getElem?_eq_getElem hlt, ?_⟩
  simp [seedTransform, h, List.getElem?_eq_getElem hlt]

/-- C8: when `UpdateNumberOfViewports` grows the collection from `m` to `n > m` viewports, every
new viewport (index `m` to `n-1`) has the world position and rotation that viewport `m-1` had
before the call when `m > 0`, and position (0,10,-10) with rotation `Quaternion(45,0,0)` when
`m = 0`. -/
theorem UpdateNumberOfViewports_seeds_new (m : SceneViewportManager) (n i : Nat)
    (hgrow : m.viewports_.length < n) (hlo : m.viewports_.length ≤ i) (hhi : i < n) :
    ∃ v : SceneViewport, (m.UpdateNumberOfViewports n).viewports_[i]? = some v ∧
      (0 < m.viewports_.length →
        ∃ last : SceneViewport, m.viewports_[m.viewports_.length - 1]? = some last ∧
          v.position = last.position ∧ v.rotation = last.rotation) ∧
      (m.viewports_.length = 0 →
        v.position = ⟨0, 10, -10⟩ ∧ v.rotation = ⟨45, 0, 0⟩) := by
  refine ⟨SceneViewport.new.SetTransform (seedTransform m.viewports_).1
    (seedTransform m.viewports_).2, ?_, ?_, ?_⟩
  · rw [UpdateNumberOfViewports_viewports, if_neg (by omega)]
    rw [List.getElem?_append_right hlo]
    rw [List.getElem?_replicate]
    rw [if_pos (by omega)]
  · intro hpos
    obtain ⟨last, h1, h2⟩ := seedTransform_of_last m.viewports_ hpos
    exact ⟨last, h1, by simp [SceneViewport.SetTransform, h2]⟩
  · intro hz
    have hnil : m.viewports_ = [] := List.length_eq_zero.mp hz
    rw [hnil, seedTransform_nil]
    exact ⟨rfl, rfl⟩

theorem UpdateNumberOfViewports_seeds_new_witness :
    ∃ v : SceneViewport,
      (SceneViewportManager.UpdateNumberOfViewports
        { currentViewport_ := 0, layout_ := SceneViewportLayout.Single,
          viewports_ := [SceneViewport.new.SetTransform ⟨1, 2, 3⟩ ⟨30, 60, 0⟩], emitted := 1 }
        3).viewports_[2]? = some v ∧
      (0 < [SceneViewport.new.SetTransform ⟨1, 2, 3⟩ ⟨30, 60, 0⟩].length →
        ∃ last : SceneViewport,
          [SceneViewport.new.SetTransform ⟨1, 2, 3⟩ ⟨30, 60, 0⟩][
            [SceneViewport.new.SetTransform ⟨1, 2, 3⟩ ⟨30, 60, 0⟩].length - 1]? = some last ∧
          v.position = last.position ∧ v.rotation = last.rotation) ∧
      ([SceneViewport.new.SetTransform ⟨1, 2, 3⟩ ⟨30, 60, 0⟩].length = 0 →
        v.position = ⟨0, 10, -10⟩ ∧ v.rotation = ⟨45, 0, 0⟩) :=
  UpdateNumberOfViewports_seeds_new
    { currentViewport_ := 0, layout_ := SceneViewportLayout.Single,
      viewports_ := [SceneViewport.new.SetTransform ⟨1, 2, 3⟩ ⟨30, 60, 0⟩], emitted := 1 }
    3 2 (by decide) (by decide) (by decide)

/-- C9: changing the viewport count from `m` to `n` gives a collection of `n` viewports whose
first `min(m,n)` elements are the old ones, unchanged in every field and in the same order:
shrinking is exactly dropping the trailing `m-n` viewports, growing is exactly appending `n-m`
viewports; the layout value and the current index are not touched. -/
theorem UpdateNumberOfViewports_frame (m : SceneViewportManager) (n : Nat) :
    (m.UpdateNumberOfViewports n).viewports_.length = n ∧
    (m.UpdateNumberOfViewports n).viewports_.take (min m.viewports_.length n)
      = m.viewports_.take (min m.viewports_.length n) ∧
    (∀ i : Nat, i < min m.viewports_.length n →
      (m.UpdateNumberOfViewports n).viewports_[i]? = m.viewports_[i]?) ∧
    (n ≤ m.viewports_.length →
      (m.UpdateNumberOfViewports n).viewports_ = m.viewports_.take n) ∧
    (m.viewports_.length ≤ n →
      ∃ added : List SceneViewport, added.length = n - m.viewports_.length ∧
        (m.UpdateNumberOfViewports n).viewports_ = m.viewports_ ++ added) ∧
    (m.UpdateNumberOfViewports n).layout_ = m.layout_ ∧
    (m.UpdateNumberOfViewports n).currentViewport_ = m.currentViewport_ := by
  refine ⟨UpdateNumberOfViewports_length m n, ?_, ?_, ?_, ?_,
    UpdateNumberOfViewports_layout m n, UpdateNumberOfViewports_current m n⟩
  · rw [UpdateNumberOfViewports_viewports]
    split
    · next h => rw [List.take_take]; congr 1; omega
    · next h =>
        rw [List.take_append_of_le_length (by omega)]
  · intro i hi
    rw [UpdateNumberOfViewports_viewports]
    split
    · next h => rw [List.getElem?_take]; rw [if_pos (by omega)]
    · next h => rw [List.getElem?_append_left (by omega)]
  · intro hle
    rw [UpdateNumberOfViewports_viewports]
    split
    · rfl
    · next h =>
        have : n = m.viewports_.length := by omega
        subst this
        simp
  · intro hle
    rw [UpdateNumberOfViewports_viewports, if_neg (by omega)]
    exact ⟨_, List.length_replicate _ _, rfl⟩

theorem UpdateNumberOfViewports_frame_witness :
    (SceneViewportManager.UpdateNumberOfViewports
      { currentViewport_ := 1, layout_ := SceneViewportLayout.Quad,
        viewports_ := [SceneViewport.new, SceneViewport.new.SetTransform ⟨1, 2, 3⟩ ⟨30, 60, 0⟩,
          SceneViewport.new], emitted := 2 } 2).viewports_
      = [SceneViewport.new, SceneViewport.new.SetTransform ⟨1, 2, 3⟩ ⟨30, 60, 0⟩] :=
  (UpdateNumberOfViewports_frame
    { currentViewport_ := 1, layout_ := SceneViewportLayout.Quad,
      viewports_ := [SceneViewport.new, SceneViewport.new.SetTransform ⟨1, 2, 3⟩ ⟨30, 60, 0⟩,
        SceneViewport.new], emitted := 2 } 2).2.2.2.1 (by decide)

/-! ## Selecting the current viewport -/

theorem selectCondition_iff (r : IntRect) (cursor : IntVector2) :
    (r.Size = IntVector2.ZERO ∨ r.IsInside cursor ≠ Intersection.OUTSIDE)
      ↔ rectMatches r cursor := by
  unfold rectMatches IntRect.Size IntVector2.ZERO IntRect.IsInside
  rw [IntVector2.mk.injEq]
  constructor
  · rintro (h | h)
    · exact Or.inl h
    · right
      split at h
      · exact absurd rfl h
      · omega
  · rintro (h | h)
    · exact Or.inl h
    · right
      rw [if_neg (by omega)]
      decide

theorem selectLoop_some (cursor : IntVector2) (vs : List SceneViewport) (k r : Nat)
    (h : selectLoop cursor vs k = some r) :
    ∃ i : Nat, ∃ v : SceneViewport, r = k + i ∧ vs[i]? = some v ∧ rectMatches v.rect cursor ∧
      ∀ j : Nat, ∀ u : SceneViewport, j < i → vs[j]? = some u → ¬ rectMatches u.rect cursor := by
  induction vs generalizing k with
  | nil => simp [selectLoop] at h
  | cons a vs ih =>
      rw [selectLoop] at h
      split at h
      · next hc =>
          refine ⟨0, a, ?_, List.getElem?_cons_zero, (selectCondition_iff _ _).mp hc, ?_⟩
          · have := Option.some.inj h
            omega
          · intro j u hj
            omega
      · next hc =>
          obtain ⟨i, v, hr, hv, hm, hmin⟩ := ih (k + 1) h
          refine ⟨i + 1, v, by omega, by simpa using hv, hm, ?_⟩
          intro j u hj hu
          cases j with
          | zero =>
              have : u = a := by simpa using hu.symm
              subst this
              exact fun hmu => hc ((selectCondition_iff _ _).mpr hmu)
          | succ j => exact hmin j u (by omega) (by simpa using hu)

theorem selectLoop_none (cursor : IntVector2) (vs : List SceneViewport) (k : Nat)
    (h : selectLoop cursor vs k = none) :
    ∀ v ∈ vs, ¬ rectMatches v.rect cursor := by
  induction vs generalizing k with
  | nil => simp
  | cons a vs ih =>
      rw [selectLoop] at h
      split at h
      · simp at h
      · next hc =>
          intro v hv
          rcases List.mem_cons.mp hv with rfl | hv
          · exact fun hmu => hc ((selectCondition_iff _ _).mpr hmu)
          · exact ih (k + 1) h v hv

/-- C10: `SelectCurrentViewport(cursor)` changes nothing but the current index; it sets the
current index to the least index whose rectangle has size (0,0) or contains the cursor
(`left <= x < right` and `top <= y < bottom`); when no viewport matches, the current index is
unchanged; and a zero-size rectangle at index `i` keeps the selected index at or below `i`, so
no later viewport is selected. -/
theorem SelectCurrentViewport_first_match (m : SceneViewportManager) (cursor : IntVector2) :
    (m.SelectCurrentViewport cursor).viewports_ = m.viewports_ ∧
    (m.SelectCurrentViewport cursor).layout_ = m.layout_ ∧
    (∀ i : Nat, ∀ v : SceneViewport, m.viewports_[i]? = some v → rectMatches v.rect cursor →
      (∀ j : Nat, ∀ u : SceneViewport, j < i → m.viewports_[j]? = some u →
        ¬ rectMatches u.rect cursor) →
      (m.SelectCurrentViewport cursor).currentViewport_ = (i : Int)) ∧
    ((∀ v ∈ m.viewports_, ¬ rectMatches v.rect cursor) →
      (m.SelectCurrentViewport cursor).currentViewport_ = m.currentViewport_) ∧
    (∀ i : Nat, ∀ v : SceneViewport, m.viewports_[i]? = some v →
      v.rect.Size = IntVector2.ZERO →
      (m.SelectCurrentViewport cursor).currentViewport_ ≤ (i : Int)) := by
  have first : ∀ i : Nat, ∀ v : SceneViewport, m.viewports_[i]? = some v →
      rectMatches v.rect cursor →
      ∃ r : Nat, selectLoop cursor m.viewports_ 0 = some r ∧ r ≤ i ∧
        ((∀ j : Nat, ∀ u : SceneViewport, j < i → m.viewports_[j]? = some u →
          ¬ rectMatches u.rect cursor) → r = i) := by
    intro i v hv hm
    cases hsel : selectLoop cursor m.viewports_ 0 with
    | none =>
        exact absurd hm (selectLoop_none cursor m.viewports_ 0 hsel v
          (List.getElem?_mem hv))
    | some r =>
        obtain ⟨i1, v1, hr, hv1, hm1, hmin⟩ := selectLoop_some cursor m.viewports_ 0 r hsel
        have hle : i1 ≤ i := by
          by_contra hlt
          exact hmin i v (by omega) hv hm
        refine ⟨r, rfl, by omega, ?_⟩
        intro hleast
        have hge : i ≤ i1 := by
          by_contra hlt
          exact hleast i1 v1 (by omega) hv1 hm1
        omega
  refine ⟨?_, ?_, ?_, ?_, ?_⟩
  · unfold SceneViewportManager.SelectCurrentViewport
    split <;> rfl
  · unfold SceneViewportManager.SelectCurrentViewport
    split <;> rfl
  · intro i v hv hm hleast
    obtain ⟨r, hsel, _, hri⟩ := first i v hv hm
    unfold SceneViewportManager.SelectCurrentViewport
    rw [hsel, hri hleast]
  · intro hno
    cases hsel : selectLoop cursor m.viewports_ 0 with
    | none =>
        unfold SceneViewportManager.SelectCurrentViewport
        rw [hsel]
    | some r =>
        obtain ⟨i1, v1, _, hv1, hm1, _⟩ := selectLoop_some cursor m.viewports_ 0 r hsel
        exact absurd hm1 (hno v1 (List.getElem?_mem hv1))
  · intro i v hv hz
    obtain ⟨r, hsel, hle, _⟩ := first i v hv
      ((selectCondition_iff _ _).mp (Or.inl hz))
    unfold SceneViewportManager.SelectCurrentViewport
    rw [hsel]
    show (r : Int) ≤ (i : Int)
    omega

theorem SelectCurrentViewport_first_match_witness :
    (SceneViewportManager.SelectCurrentViewport
      { currentViewport_ := 0, layout_ := SceneViewportLayout.Vertical,
        viewports_ := [SceneViewport.new.SetRect ⟨0, 0, 400, 600⟩,
          SceneViewport.new.SetRect ⟨400, 0, 800, 600⟩], emitted := 1 }
      ⟨500, 20⟩).currentViewport_ = ((1 : Nat) : Int) :=
  (SelectCurrentViewport_first_match
    { currentViewport_ := 0, layout_ := SceneViewportLayout.Vertical,
      viewports_ := [SceneViewport.new.SetRect ⟨0, 0, 400, 600⟩,
        SceneViewport.new.SetRect ⟨400, 0, 800, 600⟩], emitted := 1 }
    ⟨500, 20⟩).2.2.1 1 (SceneViewport.new.SetRect ⟨400, 0, 800, 600⟩) rfl (by decide)
    (by
      intro j u hj hu
      have hj0 : j = 0 := by omega
      subst hj0
      have hu0 : u = SceneViewport.new.SetRect ⟨0, 0, 400, 600⟩ := by simpa using hu.symm
      subst hu0
      decide)

/-! ## Manager update and the current viewport -/

theorem SelectCurrentViewport_viewports (m : SceneViewportManager) (cursor : IntVector2) :
    (m.SelectCurrentViewport cursor).viewports_ = m.viewports_ := by
  unfold SceneViewportManager.SelectCurrentViewport
  split <;> rfl

/-- The manager state on which `Update` runs the viewport update: the state after the
selection of lines 319-323. -/
theorem Update_current (E : EngineMath) (m : SceneViewportManager)
    (input : SceneInputInterface) (timeStep : ℚ) (config : CameraVariables)
    (hasSelection : Bool) (selectedCenter : Vector3)
    (r : SceneViewportManager × CameraUpdate)
    (hr : m.Update E input timeStep config hasSelection selectedCenter = some r) :
    r.1.currentViewport_
      = (if (!input.IsMouseButtonDown MouseButton.LeftButton
            && !input.IsMouseButtonDown MouseButton.RightButton
            && !input.IsMouseButtonDown MouseButton.MiddleButton) = true then
          m.SelectCurrentViewport input.GetMousePosition
        else m).currentViewport_ := by
  unfold SceneViewportManager.Update at hr
  generalize (if (!input.IsMouseButtonDown MouseButton.LeftButton
            && !input.IsMouseButtonDown MouseButton.RightButton
            && !input.IsMouseButtonDown MouseButton.MiddleButton) = true then
          m.SelectCurrentViewport input.GetMousePosition
        else m) = m1 at hr ⊢
  simp only at hr
  split at hr
  · split at hr
    · rw [← Option.some.inj hr]
    · exact absurd hr (by simp)
  · exact absurd hr (by simp)

theorem Update_completes (E : EngineMath) (m : SceneViewportManager)
    (input : SceneInputInterface) (timeStep : ℚ) (config : CameraVariables)
    (hasSelection : Bool) (selectedCenter : Vector3)
    (hdown : (!input.IsMouseButtonDown MouseButton.LeftButton
            && !input.IsMouseButtonDown MouseButton.RightButton
            && !input.IsMouseButtonDown MouseButton.MiddleButton) = false)
    (h0 : 0 ≤ m.currentViewport_) (hlt : m.currentViewport_.toNat < m.viewports_.length) :
    ∃ r, m.Update E input timeStep config hasSelection selectedCenter = some r := by
  unfold SceneViewportManager.Update
  simp only [hdown, Bool.false_eq_true, if_false, h0, if_true,
    List.getElem?_eq_getElem hlt]
  exact ⟨_, rfl⟩

/-- C11: in a manager `Update` with the left, right or middle mouse button down the current
viewport index is not written: whenever the update completes the index is the one before it,
and it does complete when that index is in range; so an update that changes the index has none
of the three buttons down. -/
theorem Update_keeps_current_while_button_down (E : EngineMath) (m : SceneViewportManager)
    (input : SceneInputInterface) (timeStep : ℚ) (config : CameraVariables)
    (hasSelection : Bool) (selectedCenter : Vector3) :
    ((input.IsMouseButtonDown MouseButton.LeftButton = true ∨
        input.IsMouseButtonDown MouseButton.RightButton = true ∨
        input.IsMouseButtonDown MouseButton.MiddleButton = true) →
      (∀ r, m.Update E input timeStep config hasSelection selectedCenter = some r →
        r.1.currentViewport_ = m.currentViewport_) ∧
      (0 ≤ m.currentViewport_ → m.currentViewport_.toNat < m.viewports_.length →
        ∃ r, m.Update E input timeStep config hasSelection selectedCenter = some r ∧
          r.1.currentViewport_ = m.currentViewport_)) ∧
    (∀ r, m.Update E input timeStep config hasSelection selectedCenter = some r →
      r.1.currentViewport_ ≠ m.currentViewport_ →
      input.IsMouseButtonDown MouseButton.LeftButton = false ∧
      input.IsMouseButtonDown MouseButton.RightButton = false ∧
      input.IsMouseButtonDown MouseButton.MiddleButton = false) := by
  have hcond : (input.IsMouseButtonDown MouseButton.LeftButton = true ∨
        input.IsMouseButtonDown MouseButton.RightButton = true ∨
        input.IsMouseButtonDown MouseButton.MiddleButton = true) →
      (!input.IsMouseButtonDown MouseButton.LeftButton
        && !input.IsMouseButtonDown MouseButton.RightButton
        && !input.IsMouseButtonDown MouseButton.MiddleButton) = false := by
    intro hdown
    rcases hdown with h | h | h <;> simp [h]
  have held : (input.IsMouseButtonDown MouseButton.LeftButton = true ∨
        input.IsMouseButtonDown MouseButton.RightButton = true ∨
        input.IsMouseButtonDown MouseButton.MiddleButton = true) →
      ∀ r, m.Update E input timeStep config hasSelection selectedCenter = some r →
        r.1.currentViewport_ = m.currentViewport_ := by
    intro hdown r hr
    rw [Update_current E m input timeStep config hasSelection selectedCenter r hr,
      hcond hdown]
    rfl
  refine ⟨fun hdown => ⟨held hdown, ?_⟩, ?_⟩
  · intro h0 hlt
    obtain ⟨r, hr⟩ := Update_completes E m input timeStep config hasSelection selectedCenter
      (hcond hdown) h0 hlt
    exact ⟨r, hr, held hdown r hr⟩
  · intro r hr hne
    by_contra hnot
    apply hne
    apply held _ r hr
    by_contra hnone
    apply hnot
    simp only [not_or, Bool.not_eq_true] at hnone
    exact hnone

theorem Update_keeps_current_while_button_down_witness :
    (SceneViewportManager.Update ⟨fun _ v => v, fun _ => 0⟩
      { currentViewport_ := 0, layout_ := SceneViewportLayout.Vertical,
        viewports_ := [SceneViewport.new.SetRect ⟨0, 0, 400, 600⟩,
          SceneViewport.new.SetRect ⟨400, 0, 800, 600⟩], emitted := 1 }
      { IsKeyDown := fun _ => false, IsKeyPressed := fun _ => false,
        IsMouseButtonDown := fun b => decide (b = MouseButton.RightButton),
        GetMousePosition := ⟨500, 20⟩, GetMouseMove := ⟨3, 0⟩, GetMouseWheelMove := 0 }
      (1 / 60)
      { hotKeyMode := HotKeyMode.Standard, cameraShiftSpeedMultiplier := 5,
        cameraBaseSpeed := 5, mouseWheelCameraPosition := true, mmbPanMode := true,
        limitRotation := true, cameraBaseRotationSpeed := 1 / 5 }
      false Vector3.ZERO).map (fun r => r.1.currentViewport_) = some 0 := by
  obtain ⟨r, hr, hcv⟩ :=
    ((Update_keeps_current_while_button_down ⟨fun _ v => v, fun _ => 0⟩
      { currentViewport_ := 0, layout_ := SceneViewportLayout.Vertical,
        viewports_ := [SceneViewport.new.SetRect ⟨0, 0, 400, 600⟩,
          SceneViewport.new.SetRect ⟨400, 0, 800, 600⟩], emitted := 1 }
      { IsKeyDown := fun _ => false, IsKeyPressed := fun _ => false,
        IsMouseButtonDown := fun b => decide (b = MouseButton.RightButton),
        GetMousePosition := ⟨500, 20⟩, GetMouseMove := ⟨3, 0⟩, GetMouseWheelMove := 0 }
      (1 / 60)
      { hotKeyMode := HotKeyMode.Standard, cameraShiftSpeedMultiplier := 5,
        cameraBaseSpeed := 5, mouseWheelCameraPosition := true, mmbPanMode := true,
        limitRotation := true, cameraBaseRotationSpeed := 1 / 5 }
      false Vector3.ZERO).1 (Or.inr (Or.inl (by decide)))).2 (by decide) (by decide)
  rw [hr]
  exact congrArg some hcv

/-! ## Camera movement keys -/

theorem moveOnKeys_translations (E : EngineMath) (p : SceneViewportUpdateParams) (k1 k2 : Key)
    (direction : Vector3) (space : TransformSpace) (u : CameraUpdate) :
    (moveOnKeys E p k1 k2 direction space u).translations
      = u.translations ++
        (if (p.input_.IsKeyDown k1 || p.input_.IsKeyDown k2) = true then
          [((direction.mul p.timeStep_).mul (speedMultiplier p), space)]
        else []) := by
  unfold moveOnKeys
  split <;> simp [CameraUpdate.Translate]

theorem wheelCamera_translations (E : EngineMath) (p : SceneViewportUpdateParams)
    (u : CameraUpdate) :
    ∃ rest, (wheelCamera E p u).translations = u.translations ++ rest := by
  have htr : ∀ (d : Vector3) (s : TransformSpace),
      (u.Translate E d s).translations = u.translations ++ [(d, s)] := fun _ _ => rfl
  have hz : (wheelZoom p u).translations = u.translations ++ [] := by
    simp [wheelZoom, CameraUpdate.SetZoom]
  unfold wheelCamera
  simp only
  split_ifs <;>
    first
      | exact ⟨_, htr _ _⟩
      | exact ⟨_, hz⟩

theorem homeCamera_translations (E : EngineMath) (p : SceneViewportUpdateParams)
    (u : CameraUpdate) :
    (homeCamera E p u).translations = u.translations := by
  unfold homeCamera
  split_ifs <;> rfl

theorem rotateCamera_translations (E : EngineMath) (p : SceneViewportUpdateParams)
    (u : CameraUpdate) :
    (rotateCamera E p u).translations = u.translations := by
  unfold rotateCamera
  simp only
  split_ifs <;> rfl

theorem viewCamera_translations (E : EngineMath) (p : SceneViewportUpdateParams)
    (u : CameraUpdate) :
    ∃ rest, (viewCamera E p u).translations = u.translations ++ rest := by
  unfold viewCamera
  simp only
  split_ifs
  · exact ⟨_, rfl⟩
  · exact ⟨[], by rw [rotateCamera_translations]; simp [CameraUpdate.SetMouseMode]⟩
  · exact ⟨[], by simp [CameraUpdate.SetMouseMode]⟩
  · exact ⟨[], by simp [CameraUpdate.SetMouseMode]⟩

theorem endOrbiting_translations (p : SceneViewportUpdateParams) (u : CameraUpdate) :
    (endOrbiting p u).translations = u.translations := by
  unfold endOrbiting
  split_ifs <;> rfl

/-- The `Translate` calls of `SceneViewport::Update` start with those of the movement block. -/
theorem Update_translations_start (E : EngineMath) (v : SceneViewport)
    (p : SceneViewportUpdateParams) :
    ∃ rest, (v.Update E p).translations
      = (moveCamera E p
          { viewport := toggleFlyMode p v, translations := [], mouseModes := [] }).translations
        ++ rest := by
  unfold SceneViewport.Update
  simp only
  generalize moveCamera E p
    { viewport := toggleFlyMode p v, translations := [], mouseModes := [] } = u1
  obtain ⟨r1, h1⟩ := wheelCamera_translations E p u1
  obtain ⟨r2, h2⟩ := viewCamera_translations E p (homeCamera E p (wheelCamera E p u1))
  refine ⟨r1 ++ r2, ?_⟩
  rw [endOrbiting_translations, h2, homeCamera_translations, h1, List.append_assoc]

/-! ## Zoom and rotation accumulators -/

theorem toggleFlyMode_frame (p : SceneViewportUpdateParams) (v : SceneViewport) :
    toggleFlyMode p v = { v with flyMode_ := (toggleFlyMode p v).flyMode_ } := by
  unfold toggleFlyMode
  split_ifs <;> rfl

theorem leaveFlyMode_frame (p : SceneViewportUpdateParams) (v : SceneViewport) :
    leaveFlyMode p v = { v with flyMode_ := (leaveFlyMode p v).flyMode_ } := by
  unfold leaveFlyMode
  split_ifs <;> rfl

theorem moveOnKeys_frame (E : EngineMath) (p : SceneViewportUpdateParams) (k1 k2 : Key)
    (direction : Vector3) (space : TransformSpace) (u : CameraUpdate) :
    (moveOnKeys E p k1 k2 direction space u).viewport
      = { u.viewport with
          position := (moveOnKeys E p k1 k2 direction space u).viewport.position } := by
  unfold moveOnKeys
  split_ifs <;> rfl

theorem moveCamera_frame (E : EngineMath) (p : SceneViewportUpdateParams) (u : CameraUpdate) :
    (moveCamera E p u).viewport
      = { u.viewport with position := (moveCamera E p u).viewport.position } := by
  unfold moveCamera
  simp only
  split_ifs
  · rw [moveOnKeys_frame, moveOnKeys_frame E p Key.Key_E, moveOnKeys_frame E p Key.Key_D,
      moveOnKeys_frame E p Key.Key_A, moveOnKeys_frame E p Key.Key_S,
      moveOnKeys_frame E p Key.Key_W]
  · rfl
  · rfl

theorem wheelCamera_frame (E : EngineMath) (p : SceneViewportUpdateParams) (u : CameraUpdate) :
    (wheelCamera E p u).viewport
      = { u.viewport with
          position := (wheelCamera E p u).viewport.position
          zoom := (wheelCamera E p u).viewport.zoom } := by
  unfold wheelCamera
  simp only
  split_ifs <;> rfl

theorem homeCamera_frame (E : EngineMath) (p : SceneViewportUpdateParams) (u : CameraUpdate) :
    (homeCamera E p u).viewport
      = { u.viewport with position := (homeCamera E p u).viewport.position } := by
  unfold homeCamera
  split_ifs <;> rfl

theorem rotateCamera_zoom (E : EngineMath) (p : SceneViewportUpdateParams) (u : CameraUpdate) :
    (rotateCamera E p u).viewport.zoom = u.viewport.zoom := by
  unfold rotateCamera
  simp only
  split_ifs <;> rfl

theorem viewCamera_zoom (E : EngineMath) (p : SceneViewportUpdateParams) (u : CameraUpdate) :
    (viewCamera E p u).viewport.zoom = u.viewport.zoom := by
  have hl : (leaveFlyMode p u.viewport).zoom = u.viewport.zoom := by
    rw [leaveFlyMode_frame]
  unfold viewCamera
  simp only
  split_ifs
  · exact hl
  · rw [rotateCamera_zoom]; exact hl
  · exact hl
  · exact hl

theorem endOrbiting_frame (p : SceneViewportUpdateParams) (u : CameraUpdate) :
    (endOrbiting p u).viewport
      = { u.viewport with orbiting_ := (endOrbiting p u).viewport.orbiting_ } := by
  unfold endOrbiting
  split_ifs <;> rfl

theorem Clamp_bounds (value lo hi : ℚ) (h : lo ≤ hi) :
    lo ≤ Clamp value lo hi ∧ Clamp value lo hi ≤ hi := by
  unfold Clamp
  split_ifs with h1 h2
  · exact ⟨le_refl _, h⟩
  · exact ⟨h, le_refl _⟩
  · exact ⟨not_lt.mp h1, not_lt.mp h2⟩

theorem wheelCamera_zoom (E : EngineMath) (p : SceneViewportUpdateParams) (u : CameraUpdate) :
    (wheelCamera E p u).viewport.zoom
      = if p.input_.GetMouseWheelMove ≠ 0 ∧
            ((p.config_.hotKeyMode = HotKeyMode.Standard ∧
                p.config_.mouseWheelCameraPosition = false) ∨
              (p.config_.hotKeyMode = HotKeyMode.Blender ∧
                (p.config_.mouseWheelCameraPosition = false ∨ u.viewport.orthographic = true) ∧
                p.input_.IsKeyDown Key.Key_Shift = false ∧
                p.input_.IsKeyDown Key.Key_Control = false ∧
                p.input_.IsKeyDown Key.Key_Alt = true)) then
          Clamp (u.viewport.zoom
            - (p.input_.GetMouseWheelMove : ℚ) * (1 / 10) * speedMultiplier p) (1 / 10) 30
        else u.viewport.zoom := by
  have hz : (wheelZoom p u).viewport.zoom
      = Clamp (u.viewport.zoom
          - (p.input_.GetMouseWheelMove : ℚ) * (1 / 10) * speedMultiplier p) (1 / 10) 30 := by
    simp only [wheelZoom, CameraUpdate.SetZoom]
    congr 1
    ring
  unfold wheelCamera
  simp only
  by_cases hw : p.input_.GetMouseWheelMove = 0
  · simp [hw]
  · by_cases hs : p.config_.hotKeyMode = HotKeyMode.Standard
    · by_cases hp : p.config_.mouseWheelCameraPosition = true
      · simp [hw, hs, hp, CameraUpdate.Translate]
      · simp [hw, hs, hp, hz]
    · by_cases hb : p.config_.hotKeyMode = HotKeyMode.Blender
      · cases h1 : p.config_.mouseWheelCameraPosition <;>
          cases h2 : u.viewport.orthographic <;>
          cases h3 : p.input_.IsKeyDown Key.Key_Shift <;>
          cases h4 : p.input_.IsKeyDown Key.Key_Control <;>
          cases h5 : p.input_.IsKeyDown Key.Key_Alt <;>
          simp [hw, hb, h1, h2, h3, h4, h5, hz, CameraUpdate.Translate]
      · simp [hw, hs, hb]

/-- C19: the zoom after `SceneViewport::Update` is `clamp(old zoom - wheel delta x 0.1 x speed
multiplier, 0.1, 30)` when the wheel moved and the update is in a zoom branch (Standard mode
with the wheel-controls-position toggle off, or Blender mode in the branch taken when the
toggle is off or the camera is orthographic, with Shift and Control up and Alt down), and the
old zoom in every other update; every clamped value lies in [0.1, 30]. -/
theorem Update_zoom (E : EngineMath) (v : SceneViewport) (p : SceneViewportUpdateParams) :
    ((v.Update E p).viewport.zoom
      = if p.input_.GetMouseWheelMove ≠ 0 ∧
            ((p.config_.hotKeyMode = HotKeyMode.Standard ∧
                p.config_.mouseWheelCameraPosition = false) ∨
              (p.config_.hotKeyMode = HotKeyMode.Blender ∧
                (p.config_.mouseWheelCameraPosition = false ∨ v.orthographic = true) ∧
                p.input_.IsKeyDown Key.Key_Shift = false ∧
                p.input_.IsKeyDown Key.Key_Control = false ∧
                p.input_.IsKeyDown Key.Key_Alt = true)) then
          Clamp (v.zoom - (p.input_.GetMouseWheelMove : ℚ) * (1 / 10) * speedMultiplier p)
            (1 / 10) 30
        else v.zoom) ∧
    (∀ oldZoom wheel multiplier : ℚ,
      1 / 10 ≤ Clamp (oldZoom - wheel * (1 / 10) * multiplier) (1 / 10) 30 ∧
      Clamp (oldZoom - wheel * (1 / 10) * multiplier) (1 / 10) 30 ≤ 30) := by
  refine ⟨?_, fun _ _ _ => Clamp_bounds _ _ _ (by norm_num)⟩
  have hm := moveCamera_frame E p
    { viewport := toggleFlyMode p v, translations := [], mouseModes := [] }
  have ht := toggleFlyMode_frame p v
  unfold SceneViewport.Update
  simp only
  rw [endOrbiting_frame]
  simp only
  rw [viewCamera_zoom, homeCamera_frame]
  simp only
  rw [wheelCamera_zoom, hm]
  simp only
  rw [ht]

theorem orbitCamera_angles (E : EngineMath) (p : SceneViewportUpdateParams) (u : CameraUpdate) :
    (orbitCamera E p u).viewport.cameraAngles_ = u.viewport.cameraAngles_ := rfl

theorem rotateCamera_angles (E : EngineMath) (p : SceneViewportUpdateParams) (u : CameraUpdate) :
    (rotateCamera E p u).viewport.cameraAngles_
      = ⟨if p.config_.limitRotation = true then
            Clamp (u.viewport.cameraAngles_.x_
              + (p.input_.GetMouseMove.y_ : ℚ) * p.config_.cameraBaseRotationSpeed) (-90) 90
          else u.viewport.cameraAngles_.x_
              + (p.input_.GetMouseMove.y_ : ℚ) * p.config_.cameraBaseRotationSpeed,
         u.viewport.cameraAngles_.y_
           + (p.input_.GetMouseMove.x_ : ℚ) * p.config_.cameraBaseRotationSpeed,
         u.viewport.cameraAngles_.z_⟩ := by
  unfold rotateCamera
  simp only
  split_ifs <;> simp [orbitCamera_angles]

theorem viewCamera_angles (E : EngineMath) (p : SceneViewportUpdateParams) (u : CameraUpdate)
    (hview : changeCamViewButton p u.viewport.flyMode_ = true)
    (hmove : p.input_.GetMouseMove.x_ ≠ 0 ∨ p.input_.GetMouseMove.y_ ≠ 0)
    (hpan : panTheCamera p (leaveFlyMode p u.viewport).flyMode_ = false) :
    (viewCamera E p u).viewport.cameraAngles_
      = ⟨if p.config_.limitRotation = true then
            Clamp (u.viewport.cameraAngles_.x_
              + (p.input_.GetMouseMove.y_ : ℚ) * p.config_.cameraBaseRotationSpeed) (-90) 90
          else u.viewport.cameraAngles_.x_
              + (p.input_.GetMouseMove.y_ : ℚ) * p.config_.cameraBaseRotationSpeed,
         u.viewport.cameraAngles_.y_
           + (p.input_.GetMouseMove.x_ : ℚ) * p.config_.cameraBaseRotationSpeed,
         u.viewport.cameraAngles_.z_⟩ := by
  have hl : (leaveFlyMode p u.viewport).cameraAngles_ = u.viewport.cameraAngles_ := by
    rw [leaveFlyMode_frame]
  unfold viewCamera
  simp only [hview, if_true, CameraUpdate.SetMouseMode, hmove, hpan, Bool.false_eq_true,
    if_false]
  rw [rotateCamera_angles]
  simp only [hl]

/-- The Euler-angle accumulators after an update that rotates the camera. -/
theorem Update_angles (E : EngineMath) (v : SceneViewport) (p : SceneViewportUpdateParams)
    (hrot : rotatesCamera p v) :
    (v.Update E p).viewport.cameraAngles_
      = ⟨if p.config_.limitRotation = true then
            Clamp (v.cameraAngles_.x_
              + (p.input_.GetMouseMove.y_ : ℚ) * p.config_.cameraBaseRotationSpeed) (-90) 90
          else v.cameraAngles_.x_
              + (p.input_.GetMouseMove.y_ : ℚ) * p.config_.cameraBaseRotationSpeed,
         v.cameraAngles_.y_
           + (p.input_.GetMouseMove.x_ : ℚ) * p.config_.cameraBaseRotationSpeed,
         v.cameraAngles_.z_⟩ := by
  obtain ⟨hview, hmove, hpan⟩ := hrot
  have hm := moveCamera_frame E p
    { viewport := toggleFlyMode p v, translations := [], mouseModes := [] }
  have hw := wheelCamera_frame E p (moveCamera E p
    { viewport := toggleFlyMode p v, translations := [], mouseModes := [] })
  have hh := homeCamera_frame E p (wheelCamera E p (moveCamera E p
    { viewport := toggleFlyMode p v, translations := [], mouseModes := [] }))
  have ht := toggleFlyMode_frame p v
  have hfly : (homeCamera E p (wheelCamera E p (moveCamera E p
      { viewport := toggleFlyMode p v, translations := [], mouseModes := [] }))).viewport.flyMode_
      = (toggleFlyMode p v).flyMode_ := by
    rw [hh]; simp only; rw [hw]; simp only; rw [hm]
  have hang : (homeCamera E p (wheelCamera E p (moveCamera E p
      { viewport := toggleFlyMode p v, translations := [], mouseModes := [] }))
      ).viewport.cameraAngles_ = v.cameraAngles_ := by
    rw [hh]; simp only; rw [hw]; simp only; rw [hm]; simp only; rw [ht]
  have hleave : (leaveFlyMode p (homeCamera E p (wheelCamera E p (moveCamera E p
      { viewport := toggleFlyMode p v, translations := [], mouseModes := [] }))).viewport).flyMode_
      = (leaveFlyMode p (toggleFlyMode p v)).flyMode_ := by
    unfold leaveFlyMode
    split_ifs <;> first | rfl | exact hfly
  unfold SceneViewport.Update
  simp only
  rw [endOrbiting_frame]
  simp only
  rw [viewCamera_angles E p _ (by rw [hfly]; exact hview) hmove (by rw [hleave]; exact hpan)]
  rw [hang]

theorem runUpdates_succ (E : EngineMath) (p : SceneViewportUpdateParams) (n : Nat)
    (v : SceneViewport) :
    runUpdates E p (n + 1) v = ((runUpdates E p n v).Update E p).viewport := by
  induction n generalizing v with
  | zero => rfl
  | succ n ih =>
      rw [runUpdates, ih]
      rfl

theorem Clamp_of_ge (value lo hi : ℚ) (h : lo ≤ hi) (hv : hi ≤ value) :
    Clamp value lo hi = hi := by
  unfold Clamp
  split_ifs with h1 h2
  · exact le_antisymm h (le_trans hv (le_of_lt h1))
  · rfl
  · exact le_antisymm (not_lt.mp h2) hv

/-- C20: in an update that rotates the camera the new pitch accumulator is
`clamp(old pitch + mouse dy x rotation speed, -90, 90)` with `LimitRotation` on and exactly
`old pitch + mouse dy x rotation speed` with it off, and the new yaw accumulator is
`old yaw + mouse dx x rotation speed` in both cases. Over `n` such updates with the same input
the yaw is `yaw + n x dx x speed`; with the limit off the pitch is `pitch + n x dy x speed`,
which exceeds every bound when `dy x speed > 0`; with the limit on the pitch stays in [-90, 90]
and is pinned at 90 from the first update that would carry it to 90 or beyond. -/
theorem Update_pitch_clamp (E : EngineMath) (v : SceneViewport) (p : SceneViewportUpdateParams)
    (hrot : rotatesCamera p v) :
    ((v.Update E p).viewport.cameraAngles_.x_
      = if p.config_.limitRotation = true then
          Clamp (v.cameraAngles_.x_
            + (p.input_.GetMouseMove.y_ : ℚ) * p.config_.cameraBaseRotationSpeed) (-90) 90
        else v.cameraAngles_.x_
            + (p.input_.GetMouseMove.y_ : ℚ) * p.config_.cameraBaseRotationSpeed) ∧
    ((v.Update E p).viewport.cameraAngles_.y_
      = v.cameraAngles_.y_
          + (p.input_.GetMouseMove.x_ : ℚ) * p.config_.cameraBaseRotationSpeed) ∧
    (p.config_.limitRotation = true →
      -90 ≤ (v.Update E p).viewport.cameraAngles_.x_ ∧
      (v.Update E p).viewport.cameraAngles_.x_ ≤ 90) ∧
    ((∀ v1 : SceneViewport, rotatesCamera p v1) →
      ∀ n : Nat,
        (runUpdates E p n v).cameraAngles_.y_
          = v.cameraAngles_.y_
              + (n : ℚ) * ((p.input_.GetMouseMove.x_ : ℚ) * p.config_.cameraBaseRotationSpeed) ∧
        (p.config_.limitRotation = false →
          (runUpdates E p n v).cameraAngles_.x_
            = v.cameraAngles_.x_
                + (n : ℚ) *
                  ((p.input_.GetMouseMove.y_ : ℚ) * p.config_.cameraBaseRotationSpeed)) ∧
        (p.config_.limitRotation = true →
          0 ≤ (p.input_.GetMouseMove.y_ : ℚ) * p.config_.cameraBaseRotationSpeed →
          90 ≤ v.cameraAngles_.x_
            + (p.input_.GetMouseMove.y_ : ℚ) * p.config_.cameraBaseRotationSpeed →
          1 ≤ n → (runUpdates E p n v).cameraAngles_.x_ = 90)) ∧
    ((∀ v1 : SceneViewport, rotatesCamera p v1) →
      p.config_.limitRotation = false →
      0 < (p.input_.GetMouseMove.y_ : ℚ) * p.config_.cameraBaseRotationSpeed →
      ∀ bound : ℚ, ∃ n : Nat, bound < (runUpdates E p n v).cameraAngles_.x_) := by
  have hstep := Update_angles E v p hrot
  have hyaw : (∀ v1 : SceneViewport, rotatesCamera p v1) → ∀ n : Nat,
      (runUpdates E p n v).cameraAngles_.y_
        = v.cameraAngles_.y_
            + (n : ℚ) * ((p.input_.GetMouseMove.x_ : ℚ) * p.config_.cameraBaseRotationSpeed) := by
    intro hall n
    induction n with
    | zero => simp [runUpdates]
    | succ n ih =>
        rw [runUpdates_succ, Update_angles E _ p (hall _)]
        simp only [ih]
        push_cast
        ring
  have hoff : (∀ v1 : SceneViewport, rotatesCamera p v1) →
      p.config_.limitRotation = false → ∀ n : Nat,
      (runUpdates E p n v).cameraAngles_.x_
        = v.cameraAngles_.x_
            + (n : ℚ) * ((p.input_.GetMouseMove.y_ : ℚ) * p.config_.cameraBaseRotationSpeed) := by
    intro hall hlim n
    induction n with
    | zero => simp [runUpdates]
    | succ n ih =>
        rw [runUpdates_succ, Update_angles E _ p (hall _)]
        simp only [hlim, Bool.false_eq_true, if_false, ih]
        push_cast
        ring
  have hon : (∀ v1 : SceneViewport, rotatesCamera p v1) →
      p.config_.limitRotation = true →
      0 ≤ (p.input_.GetMouseMove.y_ : ℚ) * p.config_.cameraBaseRotationSpeed →
      90 ≤ v.cameraAngles_.x_
        + (p.input_.GetMouseMove.y_ : ℚ) * p.config_.cameraBaseRotationSpeed →
      ∀ n : Nat, 1 ≤ n → (runUpdates E p n v).cameraAngles_.x_ = 90 := by
    intro hall hlim hnonneg hreach n hn
    induction n with
    | zero => omega
    | succ n ih =>
        rw [runUpdates_succ, Update_angles E _ p (hall _)]
        simp only [hlim, if_true]
        apply Clamp_of_ge _ _ _ (by norm_num)
        cases n with
        | zero => simpa [runUpdates] using hreach
        | succ k =>
            rw [ih (by omega)]
            linarith
  refine ⟨?_, ?_, ?_, ?_, ?_⟩
  · rw [hstep]
  · rw [hstep]
  · intro hlim
    rw [hstep]
    simp only [hlim, if_true]
    exact Clamp_bounds _ _ _ (by norm_num)
  · intro hall n
    exact ⟨hyaw hall n, fun hlim => hoff hall hlim n,
      fun hlim hnonneg hreach hn => hon hall hlim hnonneg hreach n hn⟩
  · intro hall hlim hpos bound
    obtain ⟨n, hn⟩ := exists_nat_gt ((bound - v.cameraAngles_.x_)
      / ((p.input_.GetMouseMove.y_ : ℚ) * p.config_.cameraBaseRotationSpeed))
    refine ⟨n, ?_⟩
    rw [hoff hall hlim n]
    have := (div_lt_iff₀ hpos).mp hn
    linarith

/-! ## Transform commands -/

theorem list_set_self {α : Type} (l : List α) (i : Nat) (a : α) (h : l[i]? = some a) :
    l.set i a = l := by
  induction l generalizing i with
  | nil => rfl
  | cons b l ih =>
      cases i with
      | zero =>
          have hb : b = a := by simpa using h
          simp [hb]
      | succ i =>
          have h1 : l[i]? = some a := by simpa using h
          simp [ih i h1]

theorem Apply_id (t : NodeTransform) (n : Node) : (t.Apply n).id_ = n.id_ := rfl

theorem Apply_Apply (t1 t2 : NodeTransform) (n : Node) :
    t2.Apply (t1.Apply n) = t2.Apply n := rfl

theorem Apply_Define (n : Node) : (NodeTransform.Define n).Apply n = n := rfl

theorem Define_Apply (t : NodeTransform) (n : Node) :
    NodeTransform.Define (t.Apply n) = t := rfl

theorem findNode_some (id : Nat) (ns : List Node) (r : Nat) (h : findNode id ns = some r) :
    ∃ n, ns[r]? = some n ∧ n.id_ = id := by
  induction ns generalizing r with
  | nil => simp [findNode] at h
  | cons a ns ih =>
      rw [findNode] at h
      split at h
      · next ha =>
          have hr : 0 = r := Option.some.inj h
          subst hr
          exact ⟨a, List.getElem?_cons_zero, ha⟩
      · next ha =>
          cases hf : findNode id ns with
          | none => simp [hf] at h
          | some r1 =>
              rw [hf] at h
              have hr : r1 + 1 = r := Option.some.inj h
              subst hr
              obtain ⟨n, hn, hid⟩ := ih r1 hf
              exact ⟨n, by simpa using hn, hid⟩

theorem findNode_congr (id : Nat) (ns ms : List Node)
    (h : ns.map (fun n => n.id_) = ms.map (fun n => n.id_)) :
    findNode id ns = findNode id ms := by
  induction ns generalizing ms with
  | nil =>
      cases ms with
      | nil => rfl
      | cons b ms => simp at h
  | cons a ns ih =>
      cases ms with
      | nil => simp at h
      | cons b ms =>
          simp only [List.map_cons, List.cons.injEq] at h
          simp only [findNode, h.1, ih ms h.2]

theorem applyTransform_ids (s : Scene) (r : Nat) (t : NodeTransform) :
    (s.applyTransform r t).nodes.map (fun n => n.id_) = s.nodes.map (fun n => n.id_) := by
  unfold Scene.applyTransform
  split
  · next n hn =>
      have hm : (s.nodes.map (fun n => n.id_))[r]? = some (t.Apply n).id_ := by
        simp [List.getElem?_map, hn, Apply_id]
      have hs : (s.nodes.set r (t.Apply n)).map (fun n => n.id_)
          = (s.nodes.map (fun n => n.id_)).set r (t.Apply n).id_ := by
        simp
      rw [hs]
      exact list_set_self _ _ _ hm
  · rfl

theorem GetNode_applyTransform (s : Scene) (r : Nat) (t : NodeTransform) (id : Nat) :
    (s.applyTransform r t).GetNode id = s.GetNode id :=
  findNode_congr id _ _ (applyTransform_ids s r t)

theorem applyTransform_eq (s : Scene) (r : Nat) (t : NodeTransform) (n : Node)
    (hn : s.nodes[r]? = some n) :
    s.applyTransform r t = { nodes := s.nodes.set r (t.Apply n) } := by
  unfold Scene.applyTransform
  rw [hn]

theorem applyTransform_twice (s : Scene) (r : Nat) (t1 t2 : NodeTransform) :
    (s.applyTransform r t1).applyTransform r t2 = s.applyTransform r t2 := by
  cases hn : s.nodes[r]? with
  | none =>
      have h1 : s.applyTransform r t1 = s := by
        unfold Scene.applyTransform; rw [hn]
      rw [h1]
  | some n =>
      have hlt : r < s.nodes.length := by
        by_contra hge
        rw [List.getElem?_eq_none (by omega)] at hn
        exact absurd hn (by simp)
      rw [applyTransform_eq s r t1 n hn, applyTransform_eq s r t2 n hn]
      rw [applyTransform_eq _ r t2 (t1.Apply n) (by simp [List.getElem?_set_self hlt])]
      simp [List.set_set, Apply_Apply]

theorem Undo_some (c : SelectionTransformChanged) (s : Scene) :
    c.Undo (some s)
      = match s.GetNode c.nodeId_ with
        | some node => some (s.applyTransform node c.oldTransform_)
        | none => some s := rfl

theorem Redo_some (c : SelectionTransformChanged) (s : Scene) :
    c.Redo (some s)
      = match s.GetNode c.nodeId_ with
        | some node => some (s.applyTransform node c.newTransform_)
        | none => some s := rfl

/-- Undo and redo of any command keep the node ids of the scene, position by position. -/
theorem Undo_Redo_ids (c : SelectionTransformChanged) (s : Scene) :
    (∃ s1, c.Undo (some s) = some s1 ∧
      s1.nodes.map (fun n => n.id_) = s.nodes.map (fun n => n.id_)) ∧
    (∃ s1, c.Redo (some s) = some s1 ∧
      s1.nodes.map (fun n => n.id_) = s.nodes.map (fun n => n.id_)) := by
  rw [Undo_some, Redo_some]
  cases s.GetNode c.nodeId_ with
  | none => exact ⟨⟨s, rfl, rfl⟩, ⟨s, rfl, rfl⟩⟩
  | some r =>
      exact ⟨⟨_, rfl, applyTransform_ids s r _⟩, ⟨_, rfl, applyTransform_ids s r _⟩⟩

theorem command_twice (c : SelectionTransformChanged) (scene_ : Option Scene) :
    c.Undo (c.Undo scene_) = c.Undo scene_ ∧ c.Redo (c.Redo scene_) = c.Redo scene_ := by
  cases scene_ with
  | none => exact ⟨rfl, rfl⟩
  | some s =>
      constructor
      · rw [Undo_some]
        cases hg : s.GetNode c.nodeId_ with
        | none => simp only [Undo_some, hg]
        | some r =>
            simp only [Undo_some, GetNode_applyTransform, hg, applyTransform_twice]
      · rw [Redo_some]
        cases hg : s.GetNode c.nodeId_ with
        | none => simp only [Redo_some, hg]
        | some r =>
            simp only [Redo_some, GetNode_applyTransform, hg, applyTransform_twice]

/-- C14: `SelectionTransformChanged::Undo` and `::Redo` are idempotent on every scene state
(scene gone, node missing or node present): applying either twice gives the same scene state as
applying it once. -/
theorem Undo_Redo_idempotent (c : SelectionTransformChanged) (scene_ : Option Scene) :
    c.Undo (c.Undo scene_) = c.Undo scene_ ∧ c.Redo (c.Redo scene_) = c.Redo scene_ := by
  cases scene_ with
  | none => exact ⟨rfl, rfl⟩
  | some s =>
      rw [Undo_some, Redo_some]
      cases hg : s.GetNode c.nodeId_ with
      | none =>
          constructor
          · simp only [Undo_some, hg]
          · simp only [Redo_some, hg]
      | some r =>
          have hu : (s.applyTransform r c.oldTransform_).GetNode c.nodeId_ = some r := by
            rw [GetNode_applyTransform, hg]
          have hr : (s.applyTransform r c.newTransform_).GetNode c.nodeId_ = some r := by
            rw [GetNode_applyTransform, hg]
          constructor
          · simp only [Undo_some, hu, applyTransform_twice]
          · simp only [Redo_some, hr, applyTransform_twice]

theorem iterate_of_idempotent {α : Type} (f : α → α) (hf : ∀ x, f (f x) = f x) (k : Nat)
    (hk : 1 ≤ k) (x : α) : Nat.iterate f k x = f x := by
  induction k generalizing x with
  | zero => omega
  | succ k ih =>
      cases k with
      | zero => rfl
      | succ j =>
          rw [Function.iterate_succ_apply, ih (by omega) (f x), hf]

theorem resolvesToNothing_noop (c : SelectionTransformChanged) (scene_ : Option Scene)
    (h : resolvesToNothing c.nodeId_ scene_) :
    c.Undo scene_ = scene_ ∧ c.Redo scene_ = scene_ := by
  cases scene_ with
  | none => exact ⟨rfl, rfl⟩
  | some s =>
      have hg : s.GetNode c.nodeId_ = none := h
      rw [Undo_some, Redo_some, hg]
      exact ⟨rfl, rfl⟩

theorem resolvesToNothing_step (nodeId : Nat) (c : SelectionTransformChanged)
    (scene_ : Option Scene) (h : resolvesToNothing nodeId scene_) :
    resolvesToNothing nodeId (c.Undo scene_) ∧ resolvesToNothing nodeId (c.Redo scene_) := by
  cases scene_ with
  | none => exact ⟨trivial, trivial⟩
  | some s =>
      have hg : s.GetNode nodeId = none := h
      obtain ⟨⟨s1, h1, hid1⟩, ⟨s2, h2, hid2⟩⟩ := Undo_Redo_ids c s
      rw [h1, h2]
      constructor
      · show s1.GetNode nodeId = none
        rw [← hg]
        exact findNode_congr nodeId _ _ hid1
      · show s2.GetNode nodeId = none
        rw [← hg]
        exact findNode_congr nodeId _ _ hid2

theorem resolvesToNothing_foldl (nodeId : Nat) (cs : List SelectionTransformChanged)
    (scene_ : Option Scene) (h : resolvesToNothing nodeId scene_) :
    resolvesToNothing nodeId (cs.foldl (fun s c => c.Undo s) scene_) ∧
    resolvesToNothing nodeId (cs.foldl (fun s c => c.Redo s) scene_) := by
  induction cs generalizing scene_ with
  | nil => exact ⟨h, h⟩
  | cons a cs ih =>
      simp only [List.foldl_cons]
      exact ⟨(ih _ (resolvesToNothing_step nodeId a scene_ h).1).1,
        (ih _ (resolvesToNothing_step nodeId a scene_ h).2).2⟩

/-- C12: for a command whose node id resolves to no node (scene gone or node missing), `Undo`
and `Redo` return the scene state as it is, so no node changes; and in any run of undos, or of
redos, over a sequence of commands that contains the command, the result is the one of the
same run without it, so the other commands of a group run and have their usual effect. -/
theorem dangling_command_is_noop (c : SelectionTransformChanged) (scene_ : Option Scene)
    (h : resolvesToNothing c.nodeId_ scene_) :
    c.Undo scene_ = scene_ ∧ c.Redo scene_ = scene_ ∧
    ∀ (before after : List SelectionTransformChanged),
      (before ++ c :: after).foldl (fun s x => x.Undo s) scene_
        = (before ++ after).foldl (fun s x => x.Undo s) scene_ ∧
      (before ++ c :: after).foldl (fun s x => x.Redo s) scene_
        = (before ++ after).foldl (fun s x => x.Redo s) scene_ := by
  refine ⟨(resolvesToNothing_noop c scene_ h).1, (resolvesToNothing_noop c scene_ h).2, ?_⟩
  intro before after
  constructor
  · simp only [List.foldl_append, List.foldl_cons]
    rw [(resolvesToNothing_noop c _ (resolvesToNothing_foldl c.nodeId_ before scene_ h).1).1]
  · simp only [List.foldl_append, List.foldl_cons]
    rw [(resolvesToNothing_noop c _ (resolvesToNothing_foldl c.nodeId_ before scene_ h).2).2]

theorem dangling_command_is_noop_witness :
    SelectionTransformChanged.Undo
        { nodeId_ := 7
          oldTransform_ := ⟨⟨1, 1, 1⟩, ⟨0, 0, 0⟩, ⟨1, 1, 1⟩⟩
          newTransform_ := ⟨⟨2, 2, 2⟩, ⟨0, 90, 0⟩, ⟨1, 1, 1⟩⟩ }
        (some { nodes := [⟨1, ⟨5, 5, 5⟩, ⟨0, 0, 0⟩, ⟨1, 1, 1⟩⟩] })
      = some { nodes := [⟨1, ⟨5, 5, 5⟩, ⟨0, 0, 0⟩, ⟨1, 1, 1⟩⟩] } :=
  (dangling_command_is_noop
    { nodeId_ := 7
      oldTransform_ := ⟨⟨1, 1, 1⟩, ⟨0, 0, 0⟩, ⟨1, 1, 1⟩⟩
      newTransform_ := ⟨⟨2, 2, 2⟩, ⟨0, 90, 0⟩, ⟨1, 1, 1⟩⟩ }
    (some { nodes := [⟨1, ⟨5, 5, 5⟩, ⟨0, 0, 0⟩, ⟨1, 1, 1⟩⟩] })
    (by decide)).1

/-- C13: for a command whose node exists and has the command's new transform, `k >= 1` undos
followed by `k` redos give back the scene as it was, one undo leaves the node with exactly the
command's old transform, and at every point of the sequence every other node is as it was. -/
theorem undo_redo_round_trip (c : SelectionTransformChanged) (s : Scene) (r : Nat) (n : Node)
    (k : Nat) (hget : s.GetNode c.nodeId_ = some r) (hn : s.nodes[r]? = some n)
    (hnew : NodeTransform.Define n = c.newTransform_) (hk : 1 ≤ k) :
    Nat.iterate c.Redo k (Nat.iterate c.Undo k (some s)) = some s ∧
    (∃ s1 n1, c.Undo (some s) = some s1 ∧ s1.nodes[r]? = some n1 ∧
      NodeTransform.Define n1 = c.oldTransform_ ∧ n1.id_ = n.id_ ∧
      s1.nodes.length = s.nodes.length) ∧
    (∀ i j : Nat, j ≠ r →
      (Nat.iterate c.Undo i (some s)).map (fun s1 => s1.nodes[j]?) = some (s.nodes[j]?) ∧
      (Nat.iterate c.Redo i (Nat.iterate c.Undo k (some s))).map (fun s1 => s1.nodes[j]?)
        = some (s.nodes[j]?)) := by
  have hlt : r < s.nodes.length := by
    by_contra hge
    rw [List.getElem?_eq_none (by omega)] at hn
    exact absurd hn (by simp)
  have hU : c.Undo (some s) = some { nodes := s.nodes.set r (c.oldTransform_.Apply n) } := by
    rw [Undo_some, hget]
    simp only [applyTransform_eq s r _ n hn]
  have hUk : ∀ i, 1 ≤ i → Nat.iterate c.Undo i (some s) = c.Undo (some s) :=
    fun i hi => iterate_of_idempotent c.Undo (fun x => (command_twice c x).1) i hi _
  have hRk : ∀ i x, 1 ≤ i → Nat.iterate c.Redo i x = c.Redo x :=
    fun i x hi => iterate_of_idempotent c.Redo (fun x => (command_twice c x).2) i hi x
  have hRU : c.Redo (c.Undo (some s)) = some s := by
    rw [Undo_some, hget]
    simp only [Redo_some, GetNode_applyTransform, hget, applyTransform_twice]
    rw [applyTransform_eq s r _ n hn, ← hnew, Apply_Define, list_set_self _ _ _ hn]
  refine ⟨?_, ?_, ?_⟩
  · rw [hUk k hk, hRk k _ hk, hRU]
  · refine ⟨_, c.oldTransform_.Apply n, hU, ?_, rfl, rfl, ?_⟩
    · simp [List.getElem?_set_self hlt]
    · simp
  · intro i j hj
    constructor
    · cases i with
      | zero => rfl
      | succ i =>
          rw [hUk (i + 1) (by omega), hU]
          simp [List.getElem?_set_ne (Ne.symm hj)]
    · cases i with
      | zero =>
          rw [hUk k hk, hU]
          simp [List.getElem?_set_ne (Ne.symm hj)]
      | succ i =>
          rw [hUk k hk, hRk (i + 1) _ (by omega), hRU]
          rfl

theorem undo_redo_round_trip_witness :
    Nat.iterate
        (SelectionTransformChanged.Redo
          { nodeId_ := 2
            oldTransform_ := ⟨⟨1, 1, 1⟩, ⟨0, 0, 0⟩, ⟨1, 1, 1⟩⟩
            newTransform_ := ⟨⟨2, 2, 2⟩, ⟨0, 90, 0⟩, ⟨1, 1, 1⟩⟩ }) 3
        (Nat.iterate
          (SelectionTransformChanged.Undo
            { nodeId_ := 2
              oldTransform_ := ⟨⟨1, 1, 1⟩, ⟨0, 0, 0⟩, ⟨1, 1, 1⟩⟩
              newTransform_ := ⟨⟨2, 2, 2⟩, ⟨0, 90, 0⟩, ⟨1, 1, 1⟩⟩ }) 3
          (some { nodes := [⟨1, ⟨5, 5, 5⟩, ⟨0, 0, 0⟩, ⟨1, 1, 1⟩⟩,
                            ⟨2, ⟨2, 2, 2⟩, ⟨0, 90, 0⟩, ⟨1, 1, 1⟩⟩] }))
      = some { nodes := [⟨1, ⟨5, 5, 5⟩, ⟨0, 0, 0⟩, ⟨1, 1, 1⟩⟩,
                         ⟨2, ⟨2, 2, 2⟩, ⟨0, 90, 0⟩, ⟨1, 1, 1⟩⟩] } :=
  (undo_redo_round_trip
    { nodeId_ := 2
      oldTransform_ := ⟨⟨1, 1, 1⟩, ⟨0, 0, 0⟩, ⟨1, 1, 1⟩⟩
      newTransform_ := ⟨⟨2, 2, 2⟩, ⟨0, 90, 0⟩, ⟨1, 1, 1⟩⟩ }
    { nodes := [⟨1, ⟨5, 5, 5⟩, ⟨0, 0, 0⟩, ⟨1, 1, 1⟩⟩,
                ⟨2, ⟨2, 2, 2⟩, ⟨0, 90, 0⟩, ⟨1, 1, 1⟩⟩] }
    1 ⟨2, ⟨2, 2, 2⟩, ⟨0, 90, 0⟩, ⟨1, 1, 1⟩⟩ 3 rfl rfl rfl (by decide)).1

/-! ## Start and end of a transformation -/

theorem defineTransforms_spec (scene : Scene) (selection : List Nat)
    (h : ∀ r ∈ selection, r < scene.nodes.length) :
    ∃ ts : List NodeTransform, defineTransforms scene selection = some ts ∧ ts.length = selection.length ∧
      ∀ (i r : Nat) (n : Node), selection[i]? = some r → scene.nodes[r]? = some n →
        ts[i]? = some (NodeTransform.Define n) := by
  induction selection with
  | nil => exact ⟨[], rfl, rfl, by simp⟩
  | cons a rest ih =>
      obtain ⟨ts, hts, hlen, hidx⟩ := ih (fun r hr => h r (List.mem_cons_of_mem _ hr))
      have ha : a < scene.nodes.length := h a (List.mem_cons_self _ _)
      refine ⟨NodeTransform.Define scene.nodes[a] :: ts, ?_, by simp [hlen], ?_⟩
      · simp [defineTransforms, List.getElem?_eq_getElem ha, hts]
      · intro i r n hi hn
        cases i with
        | zero =>
            have hr : a = r := by simpa using hi
            subst hr
            rw [List.getElem?_eq_getElem ha] at hn
            have hn1 : scene.nodes[a] = n := Option.some.inj hn
            simp [hn1]
        | succ i =>
            have hi1 : rest[i]? = some r := by simpa using hi
            simpa using hidx i r n hi1 hn

theorem pushCommands_spec (scene : Scene) (ts : List NodeTransform) (rest : List Nat) (i : Nat)
    (g : UndoCommandGroup)
    (hres : ∀ r ∈ rest, r < scene.nodes.length)
    (hts : i + rest.length ≤ ts.length) :
    ∃ cmds : List SelectionTransformChanged, pushCommands scene ts rest i g
        = some { title := g.title, commands := g.commands ++ cmds } ∧
      cmds.length = rest.length ∧
      ∀ (k r : Nat) (n : Node) (old : NodeTransform), rest[k]? = some r → scene.nodes[r]? = some n → ts[i + k]? = some old →
        cmds[k]? = some (SelectionTransformChanged.mk n.id_ old (NodeTransform.Define n)) := by
  induction rest generalizing i g with
  | nil => exact ⟨[], by simp [pushCommands], rfl, by simp⟩
  | cons a rest ih =>
      have ha : a < scene.nodes.length := hres a (List.mem_cons_self _ _)
      have hi : i < ts.length := by simp at hts; omega
      obtain ⟨cmds, hc, hlen, hidx⟩ := ih (i + 1)
        (g.Push { nodeId_ := scene.nodes[a].id_, oldTransform_ := ts[i],
                  newTransform_ := NodeTransform.Define scene.nodes[a] })
        (fun r hr => hres r (List.mem_cons_of_mem _ hr)) (by simp at hts; omega)
      refine ⟨SelectionTransformChanged.mk scene.nodes[a].id_ ts[i]
                (NodeTransform.Define scene.nodes[a]) :: cmds, ?_,
              by simp [hlen], ?_⟩
      · rw [pushCommands]
        simp only [List.getElem?_eq_getElem ha, List.getElem?_eq_getElem hi]
        rw [hc]
        simp [UndoCommandGroup.Push]
      · intro k r n old hk hn hold
        cases k with
        | zero =>
            have hr : a = r := by simpa using hk
            subst hr
            rw [List.getElem?_eq_getElem ha] at hn
            rw [Nat.add_zero, List.getElem?_eq_getElem hi] at hold
            have hn1 : scene.nodes[a] = n := Option.some.inj hn
            have ho1 : ts[i] = old := Option.some.inj hold
            simp [hn1, ho1]
        | succ k =>
            have hk1 : rest[k]? = some r := by simpa using hk
            have hold1 : ts[i + 1 + k]? = some old := by
              rw [← hold]; congr 1; omega
            simpa using hidx k r n old hk1 hn hold1

/-- What `StartTransformation` on `scene0` followed by `EndTransformation` on `scene1` pushes,
when every selected pointer resolves in both scenes. -/
theorem Start_End_spec (t0 : SelectionTransform) (scene0 scene1 : Scene)
    (selection : List Nat) (stack : UndoStack UndoCommandGroup)
    (hsel : selection ≠ [])
    (h0 : ∀ r ∈ selection, r < scene0.nodes.length)
    (h1 : ∀ r ∈ selection, r < scene1.nodes.length) :
    ∃ (t1 : SelectionTransform) (g : UndoCommandGroup), t0.StartTransformation scene0 selection = some t1 ∧
      t1.nodes_ = selection ∧
      t1.EndTransformation scene1 (some stack)
        = some ({ nodes_ := [], initialTransforms_ := [] }, some (stack.Push g)) ∧
      g.title = "Node Transforms" ∧
      g.commands.length = selection.length ∧
      ∀ (i r : Nat) (n0 n1 : Node), selection[i]? = some r → scene0.nodes[r]? = some n0 →
        scene1.nodes[r]? = some n1 →
        g.commands[i]? = some (SelectionTransformChanged.mk n1.id_ (NodeTransform.Define n0)
          (NodeTransform.Define n1)) := by
  obtain ⟨ts, hts, htlen, htidx⟩ := defineTransforms_spec scene0 selection h0
  obtain ⟨cmds, hc, hclen, hcidx⟩ := pushCommands_spec scene1 ts selection 0
    { title := "Node Transforms", commands := [] } h1 (by omega)
  refine ⟨{ nodes_ := selection, initialTransforms_ := ts },
    { title := "Node Transforms", commands := cmds }, ?_, rfl, ?_, rfl, hclen, ?_⟩
  · simp [SelectionTransform.StartTransformation, hts]
  · have hne : selection.isEmpty = false := by
      cases selection with
      | nil => exact absurd rfl hsel
      | cons a l => rfl
    simp only [SelectionTransform.EndTransformation, hne, Bool.false_eq_true, if_false, hc,
      List.nil_append]
  · intro i r n0 n1 hi hn0 hn1
    have hold := htidx i r n0 hi hn0
    exact hcidx i r n1 (NodeTransform.Define n0) hi hn1 (by simpa using hold)

theorem findNode_of_nodup (ns : List Node) (r : Nat) (n : Node)
    (hnd : (ns.map (fun n => n.id_)).Nodup) (hn : ns[r]? = some n) :
    findNode n.id_ ns = some r := by
  induction ns generalizing r with
  | nil => simp at hn
  | cons a ns ih =>
      simp only [List.map_cons, List.nodup_cons] at hnd
      cases r with
      | zero =>
          have ha : a = n := by simpa using hn
          simp [findNode, ha]
      | succ r =>
          have hn1 : ns[r]? = some n := by simpa using hn
          have hne : a.id_ ≠ n.id_ := by
            intro heq
            apply hnd.1
            rw [heq]
            exact List.mem_map.mpr ⟨n, List.getElem?_mem hn1, rfl⟩
          simp [findNode, hne, ih r hnd.2 hn1]

theorem index_unique_of_nodup (ns : List Node) (j r : Nat) (a b : Node)
    (hnd : (ns.map (fun n => n.id_)).Nodup) (ha : ns[j]? = some a) (hb : ns[r]? = some b)
    (hid : a.id_ = b.id_) : j = r := by
  have h1 := findNode_of_nodup ns j a hnd ha
  have h2 := findNode_of_nodup ns r b hnd hb
  rw [hid, h2] at h1
  exact (Option.some.inj h1).symm

theorem Undo_of_nodup (c : SelectionTransformChanged) (s : Scene) (r : Nat) (n : Node)
    (hnd : (s.nodes.map (fun n => n.id_)).Nodup) (hn : s.nodes[r]? = some n)
    (hid : n.id_ = c.nodeId_) :
    c.Undo (some s) = some { nodes := s.nodes.set r (c.oldTransform_.Apply n) } := by
  have hg : s.GetNode c.nodeId_ = some r := by
    rw [← hid]
    exact findNode_of_nodup s.nodes r n hnd hn
  rw [Undo_some, hg]
  simp only [applyTransform_eq s r _ n hn]

/-- Undoing a list of commands, in list order, on a scene with pairwise distinct node ids:
every node addressed by a command ends with the old transform of that command, every other
node is unchanged, provided commands with the same id carry the same old transform. -/
theorem undo_all_spec (cs : List SelectionTransformChanged) (s : Scene)
    (hnd : (s.nodes.map (fun n => n.id_)).Nodup)
    (hres : ∀ c ∈ cs, ∃ (r : Nat) (n : Node), s.nodes[r]? = some n ∧ n.id_ = c.nodeId_)
    (hagree : ∀ c ∈ cs, ∀ c1 ∈ cs, c.nodeId_ = c1.nodeId_ →
      c.oldTransform_ = c1.oldTransform_) :
    ∃ s1 : Scene, cs.foldl (fun x c => c.Undo x) (some s) = some s1 ∧
      s1.nodes.map (fun n => n.id_) = s.nodes.map (fun n => n.id_) ∧
      ∀ (j : Nat) (n : Node), s.nodes[j]? = some n →
        (∀ c ∈ cs, c.nodeId_ = n.id_ → s1.nodes[j]? = some (c.oldTransform_.Apply n)) ∧
        ((∀ c ∈ cs, c.nodeId_ ≠ n.id_) → s1.nodes[j]? = some n) := by
  induction cs generalizing s with
  | nil =>
      refine ⟨s, rfl, rfl, ?_⟩
      intro j n hn
      exact ⟨fun c hc => absurd hc (List.not_mem_nil c), fun _ => hn⟩
  | cons c cs ih =>
      obtain ⟨r, n, hn, hid⟩ := hres c (List.mem_cons_self _ _)
      have hlt : r < s.nodes.length := by
        by_contra hge
        rw [List.getElem?_eq_none (by omega)] at hn
        exact absurd hn (by simp)
      have hU := Undo_of_nodup c s r n hnd hn hid
      have hids : (s.nodes.set r (c.oldTransform_.Apply n)).map (fun n => n.id_)
          = s.nodes.map (fun n => n.id_) := by
        have := applyTransform_ids s r c.oldTransform_
        rwa [applyTransform_eq s r _ n hn] at this
      have hget : ∀ (j : Nat) (m : Node),
          (s.nodes.set r (c.oldTransform_.Apply n))[j]? = some m →
          ∃ m0, s.nodes[j]? = some m0 ∧ m0.id_ = m.id_ := by
        intro j m hm
        by_cases hj : r = j
        · subst hj
          rw [List.getElem?_set_self hlt] at hm
          exact ⟨n, hn, by rw [← Option.some.inj hm]; rfl⟩
        · rw [List.getElem?_set_ne hj] at hm
          exact ⟨m, hm, rfl⟩
      obtain ⟨s1, hfold, hids1, hspec⟩ := ih { nodes := s.nodes.set r (c.oldTransform_.Apply n) }
        (by rw [hids]; exact hnd)
        (by
          intro c1 hc1
          obtain ⟨r1, n1, hn1, hid1⟩ := hres c1 (List.mem_cons_of_mem _ hc1)
          by_cases hj : r = r1
          · subst hj
            rw [hn] at hn1
            have hnn : n = n1 := Option.some.inj hn1
            subst hnn
            exact ⟨r, c.oldTransform_.Apply n, by simp [List.getElem?_set_self hlt], hid1⟩
          · exact ⟨r1, n1, by simp [List.getElem?_set_ne hj, hn1], hid1⟩)
        (fun a ha b hb hab =>
          hagree a (List.mem_cons_of_mem _ ha) b (List.mem_cons_of_mem _ hb) hab)
      refine ⟨s1, ?_, hids1.trans hids, ?_⟩
      · rw [List.foldl_cons, hU, hfold]
      · intro j nj hnj
        by_cases hj : r = j
        · subst hj
          rw [hn] at hnj
          have hnn : n = nj := Option.some.inj hnj
          subst hnn
          have hset : (s.nodes.set r (c.oldTransform_.Apply n))[r]?
              = some (c.oldTransform_.Apply n) := by simp [List.getElem?_set_self hlt]
          obtain ⟨h1, h2⟩ := hspec r _ hset
          have hsame : ∀ c1 ∈ cs, c1.nodeId_ = n.id_ →
              s1.nodes[r]? = some (c1.oldTransform_.Apply n) := by
            intro c1 hc1 hc1id
            have := h1 c1 hc1 hc1id
            rwa [Apply_Apply] at this
          constructor
          · intro c1 hc1 hc1id
            rcases List.mem_cons.mp hc1 with rfl | hc1
            · by_cases hex : ∃ c2 ∈ cs, c2.nodeId_ = n.id_
              · obtain ⟨c2, hc2, hc2id⟩ := hex
                rw [hsame c2 hc2 hc2id]
                rw [hagree c1 (List.mem_cons_self _ _) c2 (List.mem_cons_of_mem _ hc2)
                  (by rw [hc1id, hc2id])]
              · apply h2
                intro c2 hc2 hc2id
                exact hex ⟨c2, hc2, hc2id⟩
            · exact hsame c1 hc1 hc1id
          · intro hnone
            exact absurd hid.symm (hnone c (List.mem_cons_self _ _))
        · have hset : (s.nodes.set r (c.oldTransform_.Apply n))[j]? = some nj := by
            rw [List.getElem?_set_ne hj]; exact hnj
          obtain ⟨h1, h2⟩ := hspec j nj hset
          constructor
          · intro c1 hc1 hc1id
            rcases List.mem_cons.mp hc1 with rfl | hc1
            · exfalso
              apply hj
              exact index_unique_of_nodup s.nodes r j n nj hnd hn hnj (by rw [hid, hc1id])
            · exact h1 c1 hc1 hc1id
          · intro hnone
            exact h2 (fun c1 hc1 => hnone c1 (List.mem_cons_of_mem _ hc1))

theorem commands_of_selection (scene0 scene1 : Scene) (selection : List Nat)
    (cmds : List SelectionTransformChanged)
    (h0 : ∀ r ∈ selection, r < scene0.nodes.length)
    (h1 : ∀ r ∈ selection, r < scene1.nodes.length)
    (hlen : cmds.length = selection.length)
    (hidx : ∀ (i r : Nat) (n0 n1 : Node), selection[i]? = some r →
      scene0.nodes[r]? = some n0 → scene1.nodes[r]? = some n1 →
      cmds[i]? = some (SelectionTransformChanged.mk n1.id_ (NodeTransform.Define n0)
        (NodeTransform.Define n1))) :
    (∀ c ∈ cmds, ∃ r ∈ selection, ∃ (n0 n1 : Node), scene0.nodes[r]? = some n0 ∧
      scene1.nodes[r]? = some n1 ∧
      c = SelectionTransformChanged.mk n1.id_ (NodeTransform.Define n0)
        (NodeTransform.Define n1)) ∧
    (∀ r ∈ selection, ∀ (n0 n1 : Node), scene0.nodes[r]? = some n0 →
      scene1.nodes[r]? = some n1 →
      SelectionTransformChanged.mk n1.id_ (NodeTransform.Define n0) (NodeTransform.Define n1)
        ∈ cmds) := by
  constructor
  · intro c hc
    obtain ⟨i, hi, hci⟩ := List.getElem_of_mem hc
    have hi2 : i < selection.length := by omega
    have hr : selection[i] ∈ selection := List.getElem_mem hi2
    have hn0 := List.getElem?_eq_getElem (h0 _ hr)
    have hn1 := List.getElem?_eq_getElem (h1 _ hr)
    have := hidx i selection[i] _ _ (List.getElem?_eq_getElem hi2) hn0 hn1
    rw [List.getElem?_eq_getElem hi, hci] at this
    exact ⟨selection[i], hr, _, _, hn0, hn1, Option.some.inj this⟩
  · intro r hr n0 n1 hn0 hn1
    obtain ⟨i, hi, hri⟩ := List.getElem_of_mem hr
    have := hidx i r n0 n1 (by rw [List.getElem?_eq_getElem hi, hri]) hn0 hn1
    exact List.getElem?_mem this

/-- C15: `StartTransformation` on the selected nodes followed, after any change of the scene
that keeps those nodes alive, by `EndTransformation` with an undo stack and at least one
tracked node makes exactly one `Push` on the stack: a group labelled "Node Transforms" with one
command per tracked node, in node order, holding the node id, the transform captured by
`StartTransformation` as old transform and the current local transform as new transform; the
tracked-node and initial-transform lists are then empty. With no undo stack or no tracked
nodes it pushes nothing and changes no state. -/
theorem EndTransformation_pushes_one_group (t0 : SelectionTransform) (scene0 scene1 : Scene)
    (selection : List Nat) (stack : UndoStack UndoCommandGroup)
    (hsel : selection ≠ [])
    (h0 : ∀ r ∈ selection, r < scene0.nodes.length)
    (h1 : ∀ r ∈ selection, r < scene1.nodes.length) :
    (∃ (t1 : SelectionTransform) (g : UndoCommandGroup),
      t0.StartTransformation scene0 selection = some t1 ∧
      t1.nodes_ = selection ∧
      t1.EndTransformation scene1 (some stack)
        = some ({ nodes_ := [], initialTransforms_ := [] }, some (stack.Push g)) ∧
      (stack.Push g).entries = stack.entries.take stack.position ++ [g] ∧
      g.title = "Node Transforms" ∧
      g.commands.length = selection.length ∧
      ∀ (i r : Nat) (n0 n1 : Node), selection[i]? = some r → scene0.nodes[r]? = some n0 →
        scene1.nodes[r]? = some n1 →
        g.commands[i]? = some (SelectionTransformChanged.mk n1.id_ (NodeTransform.Define n0)
          (NodeTransform.Define n1))) ∧
    (∀ t : SelectionTransform, t.EndTransformation scene1 none = some (t, none)) ∧
    (∀ (t : SelectionTransform) (undoStack_ : Option (UndoStack UndoCommandGroup)),
      t.nodes_ = [] → t.EndTransformation scene1 undoStack_ = some (t, undoStack_)) := by
  obtain ⟨t1, g, hs, hnodes, he, htitle, hlen, hidx⟩ :=
    Start_End_spec t0 scene0 scene1 selection stack hsel h0 h1
  refine ⟨⟨t1, g, hs, hnodes, he, rfl, htitle, hlen, hidx⟩, fun t => rfl, ?_⟩
  intro t undoStack_ hempty
  cases undoStack_ with
  | none => rfl
  | some st => simp [SelectionTransform.EndTransformation, hempty]

/-- C16: on a scene with pairwise distinct node ids in which all tracked nodes are still
present, undoing the commands of the group pushed by `EndTransformation`, once each and in any
order, leaves every tracked node with the position, rotation and scale captured by
`StartTransformation` (and its own id), and leaves every other node as it was. -/
theorem group_undo_restores_all (t0 : SelectionTransform) (scene0 scene1 : Scene)
    (selection : List Nat) (stack : UndoStack UndoCommandGroup)
    (hsel : selection ≠ [])
    (h0 : ∀ r ∈ selection, r < scene0.nodes.length)
    (h1 : ∀ r ∈ selection, r < scene1.nodes.length)
    (hids : (scene1.nodes.map (fun n => n.id_)).Nodup) :
    ∃ (t1 : SelectionTransform) (g : UndoCommandGroup),
      t0.StartTransformation scene0 selection = some t1 ∧
      t1.EndTransformation scene1 (some stack)
        = some ({ nodes_ := [], initialTransforms_ := [] }, some (stack.Push g)) ∧
      g.commands.length = selection.length ∧
      ∀ cs : List SelectionTransformChanged, cs.Perm g.commands →
        ∃ s2 : Scene, cs.foldl (fun x c => c.Undo x) (some scene1) = some s2 ∧
          s2.nodes.length = scene1.nodes.length ∧
          (∀ r ∈ selection, ∀ (n0 n1 : Node), scene0.nodes[r]? = some n0 →
            scene1.nodes[r]? = some n1 →
            ∃ n2 : Node, s2.nodes[r]? = some n2 ∧
              NodeTransform.Define n2 = NodeTransform.Define n0 ∧ n2.id_ = n1.id_) ∧
          (∀ j : Nat, j ∉ selection → s2.nodes[j]? = scene1.nodes[j]?) := by
  obtain ⟨t1, g, hs, _, he, _, hlen, hidx⟩ :=
    Start_End_spec t0 scene0 scene1 selection stack hsel h0 h1
  obtain ⟨hmem, hsel_mem⟩ :=
    commands_of_selection scene0 scene1 selection g.commands h0 h1 hlen hidx
  refine ⟨t1, g, hs, he, hlen, ?_⟩
  intro cs hperm
  obtain ⟨s2, hfold, hids2, hspec⟩ := undo_all_spec cs scene1 hids
    (by
      intro c hc
      obtain ⟨r, _, n0, n1, _, hn1, hceq⟩ := hmem c (hperm.mem_iff.mp hc)
      exact ⟨r, n1, hn1, by rw [hceq]⟩)
    (by
      intro c hc c1 hc1 hid
      obtain ⟨r, _, n0, n1, hn0, hn1, hceq⟩ := hmem c (hperm.mem_iff.mp hc)
      obtain ⟨r1, _, m0, m1, hm0, hm1, hceq1⟩ := hmem c1 (hperm.mem_iff.mp hc1)
      rw [hceq, hceq1] at hid
      have hrr : r = r1 := index_unique_of_nodup scene1.nodes r r1 n1 m1 hids hn1 hm1 hid
      subst hrr
      rw [hn0] at hm0
      have hnn : n0 = m0 := Option.some.inj hm0
      rw [hceq, hceq1, hnn])
  have hlen2 : s2.nodes.length = scene1.nodes.length := by
    have := congrArg List.length hids2
    simpa using this
  refine ⟨s2, hfold, hlen2, ?_, ?_⟩
  · intro r hr n0 n1 hn0 hn1
    have hc := hsel_mem r hr n0 n1 hn0 hn1
    have := (hspec r n1 hn1).1 _ (hperm.mem_iff.mpr hc) rfl
    exact ⟨_, this, rfl, rfl⟩
  · intro j hj
    cases hnj : scene1.nodes[j]? with
    | none =>
        have hge : scene1.nodes.length ≤ j := by
          by_contra hlt
          rw [List.getElem?_eq_getElem (by omega)] at hnj
          exact absurd hnj (by simp)
        exact List.getElem?_eq_none (by omega)
    | some nj =>
        apply (hspec j nj hnj).2
        intro c hc hcid
        obtain ⟨r, hr, n0, n1, _, hn1, hceq⟩ := hmem c (hperm.mem_iff.mp hc)
        rw [hceq] at hcid
        have hrj : r = j := index_unique_of_nodup scene1.nodes r j n1 nj hids hn1 hnj hcid
        exact hj (hrj ▸ hr)

/-- C17: on the history stack, `Push` leaves exactly the entries before the current position
followed by the pushed command, with the position at the tail, so every previously redoable
entry is gone; right after it `Redo`, repeated any number of times, changes neither the stack
nor the world; a following `Undo` undoes the pushed command, and only then does `Redo` act
again, replaying that command. -/
theorem Push_discards_redo {α W : Type} (undo redo : α → W → W) (st : UndoStack α)
    (command : α) (world : W) :
    (st.Push command).entries = st.entries.take st.position ++ [command] ∧
    (st.Push command).position = (st.Push command).entries.length ∧
    UndoStack.Redo redo (st.Push command) world = (st.Push command, world) ∧
    (∀ n : Nat,
      Nat.iterate (fun x : UndoStack α × W => UndoStack.Redo redo x.1 x.2) n
        (st.Push command, world) = (st.Push command, world)) ∧
    (UndoStack.Undo undo (st.Push command) world).2 = undo command world ∧
    (UndoStack.Undo undo (st.Push command) world).1.position
      = (st.Push command).position - 1 ∧
    (UndoStack.Redo redo (UndoStack.Undo undo (st.Push command) world).1
        (UndoStack.Undo undo (st.Push command) world).2).2
      = redo command (undo command world) ∧
    (UndoStack.Redo redo (UndoStack.Undo undo (st.Push command) world).1
        (UndoStack.Undo undo (st.Push command) world).2).1.position
      = (st.Push command).position := by
  have hredo : UndoStack.Redo redo (st.Push command) world = (st.Push command, world) := by
    simp [UndoStack.Redo, UndoStack.Push]
  have hundo : UndoStack.Undo undo (st.Push command) world
      = ({ st.Push command with position := (st.Push command).position - 1 },
          undo command world) := by
    simp [UndoStack.Undo, UndoStack.Push]
  refine ⟨rfl, rfl, hredo, ?_, ?_, ?_, ?_, ?_⟩
  · intro n
    induction n with
    | zero => rfl
    | succ n ih =>
        rw [Function.iterate_succ_apply', ih]
        exact hredo
  · rw [hundo]
  · rw [hundo]
  · rw [hundo]
    simp only [UndoStack.Redo, UndoStack.Push, List.length_append, List.length_take,
      List.length_singleton]
    rw [if_neg (by omega)]
    have hlt : min st.position st.entries.length + 1 - 1
        < (st.entries.take st.position ++ [command]).length := by
      simp only [List.length_append, List.length_take, List.length_singleton]
      omega
    rw [List.getElem?_eq_getElem hlt]
    simp
  · rw [hundo]
    simp only [UndoStack.Redo, UndoStack.Push, List.length_append, List.length_take,
      List.length_singleton]
    rw [if_neg (by omega)]
    have hlt : min st.position st.entries.length + 1 - 1
        < (st.entries.take st.position ++ [command]).length := by
      simp only [List.length_append, List.length_take, List.length_singleton]
      omega
    rw [List.getElem?_eq_getElem hlt]
    simp only
    omega

theorem EndTransformation_pushes_one_group_witness :
    ∃ (t1 : SelectionTransform) (g : UndoCommandGroup),
      SelectionTransform.StartTransformation { nodes_ := [], initialTransforms_ := [] }
        { nodes := [⟨1, ⟨5, 5, 5⟩, ⟨0, 0, 0⟩, ⟨1, 1, 1⟩⟩, ⟨2, ⟨2, 2, 2⟩, ⟨0, 90, 0⟩, ⟨1, 1, 1⟩⟩] }
        [1, 0] = some t1 ∧
      t1.EndTransformation
        { nodes := [⟨1, ⟨6, 5, 5⟩, ⟨0, 0, 0⟩, ⟨1, 1, 1⟩⟩, ⟨2, ⟨3, 2, 2⟩, ⟨0, 90, 0⟩, ⟨1, 1, 1⟩⟩] }
        (some { entries := [], position := 0, notified := 0 })
        = some ({ nodes_ := [], initialTransforms_ := [] },
            some (UndoStack.Push { entries := [], position := 0, notified := 0 } g)) ∧
      g.commands.length = 2 := by
  obtain ⟨t1, g, hs, _, he, _, _, hlen, _⟩ :=
    (EndTransformation_pushes_one_group { nodes_ := [], initialTransforms_ := [] }
      { nodes := [⟨1, ⟨5, 5, 5⟩, ⟨0, 0, 0⟩, ⟨1, 1, 1⟩⟩, ⟨2, ⟨2, 2, 2⟩, ⟨0, 90, 0⟩, ⟨1, 1, 1⟩⟩] }
      { nodes := [⟨1, ⟨6, 5, 5⟩, ⟨0, 0, 0⟩, ⟨1, 1, 1⟩⟩, ⟨2, ⟨3, 2, 2⟩, ⟨0, 90, 0⟩, ⟨1, 1, 1⟩⟩] }
      [1, 0] { entries := [], position := 0, notified := 0 }
      (by decide) (by decide) (by decide)).1
  exact ⟨t1, g, hs, he, hlen⟩

theorem group_undo_restores_all_witness :
    ∃ (t1 : SelectionTransform) (g : UndoCommandGroup) (s2 : Scene) (n2 : Node),
      SelectionTransform.StartTransformation { nodes_ := [], initialTransforms_ := [] }
        { nodes := [⟨1, ⟨5, 5, 5⟩, ⟨0, 0, 0⟩, ⟨1, 1, 1⟩⟩, ⟨2, ⟨2, 2, 2⟩, ⟨0, 90, 0⟩, ⟨1, 1, 1⟩⟩] }
        [1, 0] = some t1 ∧
      t1.EndTransformation
        { nodes := [⟨1, ⟨6, 5, 5⟩, ⟨0, 0, 0⟩, ⟨1, 1, 1⟩⟩, ⟨2, ⟨3, 2, 2⟩, ⟨0, 90, 0⟩, ⟨1, 1, 1⟩⟩] }
        (some { entries := [], position := 0, notified := 0 })
        = some ({ nodes_ := [], initialTransforms_ := [] },
            some (UndoStack.Push { entries := [], position := 0, notified := 0 } g)) ∧
      g.commands.reverse.foldl (fun x c => c.Undo x)
        (some { nodes := [⟨1, ⟨6, 5, 5⟩, ⟨0, 0, 0⟩, ⟨1, 1, 1⟩⟩,
                          ⟨2, ⟨3, 2, 2⟩, ⟨0, 90, 0⟩, ⟨1, 1, 1⟩⟩] }) = some s2 ∧
      s2.nodes[0]? = some n2 ∧
      NodeTransform.Define n2 = ⟨⟨5, 5, 5⟩, ⟨0, 0, 0⟩, ⟨1, 1, 1⟩⟩ := by
  obtain ⟨t1, g, hs, he, _, hall⟩ :=
    group_undo_restores_all { nodes_ := [], initialTransforms_ := [] }
      { nodes := [⟨1, ⟨5, 5, 5⟩, ⟨0, 0, 0⟩, ⟨1, 1, 1⟩⟩, ⟨2, ⟨2, 2, 2⟩, ⟨0, 90, 0⟩, ⟨1, 1, 1⟩⟩] }
      { nodes := [⟨1, ⟨6, 5, 5⟩, ⟨0, 0, 0⟩, ⟨1, 1, 1⟩⟩, ⟨2, ⟨3, 2, 2⟩, ⟨0, 90, 0⟩, ⟨1, 1, 1⟩⟩] }
      [1, 0] { entries := [], position := 0, notified := 0 }
      (by decide) (by decide) (by decide) (by decide)
  obtain ⟨s2, hfold, _, hsel, _⟩ := hall g.commands.reverse (List.reverse_perm _)
  obtain ⟨n2, hn2, hdef, _⟩ := hsel 0 (by decide) _ _ rfl rfl
  exact ⟨t1, g, s2, n2, hs, he, hfold, hn2, hdef⟩

theorem Update_pitch_clamp_witness :
    (SceneViewport.Update ⟨fun _ d => d, fun _ => 0⟩ SceneViewport.new
      { timeStep_ := 1 / 60
        config_ :=
          { hotKeyMode := HotKeyMode.Standard, cameraShiftSpeedMultiplier := 5,
            cameraBaseSpeed := 5, mouseWheelCameraPosition := true, mmbPanMode := true,
            limitRotation := true, cameraBaseRotationSpeed := 1 / 5 }
        input_ :=
          { IsKeyDown := fun _ => false,
            IsKeyPressed := fun _ => false,
            IsMouseButtonDown := fun b => decide (b = MouseButton.RightButton),
            GetMousePosition := ⟨10, 10⟩, GetMouseMove := ⟨0, 500⟩, GetMouseWheelMove := 0 }
        hasSelection_ := false
        selectionCenter_ := Vector3.ZERO }).viewport.cameraAngles_.x_ = 90 := by
  rw [(Update_pitch_clamp ⟨fun _ d => d, fun _ => 0⟩ SceneViewport.new
      { timeStep_ := 1 / 60
        config_ :=
          { hotKeyMode := HotKeyMode.Standard, cameraShiftSpeedMultiplier := 5,
            cameraBaseSpeed := 5, mouseWheelCameraPosition := true, mmbPanMode := true,
            limitRotation := true, cameraBaseRotationSpeed := 1 / 5 }
        input_ :=
          { IsKeyDown := fun _ => false,
            IsKeyPressed := fun _ => false,
            IsMouseButtonDown := fun b => decide (b = MouseButton.RightButton),
            GetMousePosition := ⟨10, 10⟩, GetMouseMove := ⟨0, 500⟩, GetMouseWheelMove := 0 }
        hasSelection_ := false
        selectionCenter_ := Vector3.ZERO } (by decide)).1]
  norm_num [Clamp, SceneViewport.new, Vector3.ZERO]


/-! ## Mouse mode and fly flag -/

theorem Update_eq_beforeView (E : EngineMath) (v : SceneViewport)
    (p : SceneViewportUpdateParams) :
    v.Update E p = endOrbiting p (viewCamera E p (beforeView E v p)) := rfl

theorem moveOnKeys_mouseModes (E : EngineMath) (p : SceneViewportUpdateParams) (k1 k2 : Key)
    (direction : Vector3) (space : TransformSpace) (u : CameraUpdate) :
    (moveOnKeys E p k1 k2 direction space u).mouseModes = u.mouseModes := by
  unfold moveOnKeys
  split_ifs <;> rfl

theorem moveCamera_mouseModes (E : EngineMath) (p : SceneViewportUpdateParams)
    (u : CameraUpdate) : (moveCamera E p u).mouseModes = u.mouseModes := by
  unfold moveCamera
  simp only
  split_ifs
  · simp only [moveOnKeys_mouseModes]
  · rfl
  · rfl

theorem wheelCamera_mouseModes (E : EngineMath) (p : SceneViewportUpdateParams)
    (u : CameraUpdate) : (wheelCamera E p u).mouseModes = u.mouseModes := by
  unfold wheelCamera
  simp only
  split_ifs <;> rfl

theorem homeCamera_mouseModes (E : EngineMath) (p : SceneViewportUpdateParams)
    (u : CameraUpdate) : (homeCamera E p u).mouseModes = u.mouseModes := by
  unfold homeCamera
  split_ifs <;> rfl

theorem rotateCamera_mouseModes (E : EngineMath) (p : SceneViewportUpdateParams)
    (u : CameraUpdate) : (rotateCamera E p u).mouseModes = u.mouseModes := by
  unfold rotateCamera
  simp only
  split_ifs <;> rfl

theorem rotateCamera_flyMode (E : EngineMath) (p : SceneViewportUpdateParams)
    (u : CameraUpdate) : (rotateCamera E p u).viewport.flyMode_ = u.viewport.flyMode_ := by
  unfold rotateCamera
  simp only
  split_ifs <;> rfl

theorem viewCamera_mouseModes (E : EngineMath) (p : SceneViewportUpdateParams)
    (u : CameraUpdate) :
    (viewCamera E p u).mouseModes
      = u.mouseModes ++
        [if changeCamViewButton p u.viewport.flyMode_ = true then MouseMode.MM_WRAP
          else MouseMode.MM_ABSOLUTE] := by
  unfold viewCamera
  simp only
  split_ifs
  · rfl
  · rw [rotateCamera_mouseModes]; rfl
  · rfl
  · rfl

theorem viewCamera_flyMode (E : EngineMath) (p : SceneViewportUpdateParams)
    (u : CameraUpdate) :
    (viewCamera E p u).viewport.flyMode_ = (leaveFlyMode p u.viewport).flyMode_ := by
  unfold viewCamera
  simp only
  split_ifs
  · rfl
  · rw [rotateCamera_flyMode]; rfl
  · rfl
  · rfl

theorem endOrbiting_mouseModes (p : SceneViewportUpdateParams) (u : CameraUpdate) :
    (endOrbiting p u).mouseModes = u.mouseModes := by
  unfold endOrbiting
  split_ifs <;> rfl

/-- At line 182 the viewport differs from the one after the fly-mode check at most in the camera
position and zoom, and no `SetMouseMode` call has been made. -/
theorem beforeView_frame (E : EngineMath) (v : SceneViewport) (p : SceneViewportUpdateParams) :
    (beforeView E v p).viewport
      = { toggleFlyMode p v with
          position := (beforeView E v p).viewport.position
          zoom := (beforeView E v p).viewport.zoom } ∧
    (beforeView E v p).mouseModes = [] := by
  unfold beforeView
  constructor
  · rw [homeCamera_frame]
    simp only
    rw [wheelCamera_frame]
    simp only
    rw [moveCamera_frame]
  · rw [homeCamera_mouseModes, wheelCamera_mouseModes, moveCamera_mouseModes]

theorem beforeView_flyMode (E : EngineMath) (v : SceneViewport)
    (p : SceneViewportUpdateParams) :
    (beforeView E v p).viewport.flyMode_ = (toggleFlyMode p v).flyMode_ := by
  rw [(beforeView_frame E v p).1]

theorem leaveFlyMode_flyMode_congr (p : SceneViewportUpdateParams) (v1 v2 : SceneViewport)
    (h : v1.flyMode_ = v2.flyMode_) :
    (leaveFlyMode p v1).flyMode_ = (leaveFlyMode p v2).flyMode_ := by
  unfold leaveFlyMode
  split_ifs <;> first | rfl | exact h

theorem Update_mouseModes (E : EngineMath) (v : SceneViewport)
    (p : SceneViewportUpdateParams) :
    (v.Update E p).mouseModes
      = [if changeCamViewButton p (toggleFlyMode p v).flyMode_ = true then MouseMode.MM_WRAP
          else MouseMode.MM_ABSOLUTE] := by
  rw [Update_eq_beforeView, endOrbiting_mouseModes, viewCamera_mouseModes,
    (beforeView_frame E v p).2, beforeView_flyMode]
  rfl

theorem Update_flyMode (E : EngineMath) (v : SceneViewport) (p : SceneViewportUpdateParams) :
    (v.Update E p).viewport.flyMode_ = (leaveFlyMode p (toggleFlyMode p v)).flyMode_ := by
  rw [Update_eq_beforeView, endOrbiting_frame]
  simp only
  rw [viewCamera_flyMode]
  exact leaveFlyMode_flyMode_congr p _ _ (beforeView_flyMode E v p)

/-- C22, as stated, fails: in Blender mode with the fly flag set and no mouse button held, the
update sets the mouse mode to wrap-around, not to absolute. -/
theorem fly_mode_wraps_without_button :
    (SceneViewport.Update ⟨fun _ d => d, fun _ => 0⟩
      { SceneViewport.new with flyMode_ := true }
      { timeStep_ := 1 / 60
        config_ :=
          { hotKeyMode := HotKeyMode.Blender, cameraShiftSpeedMultiplier := 5,
            cameraBaseSpeed := 5, mouseWheelCameraPosition := true, mmbPanMode := true,
            limitRotation := true, cameraBaseRotationSpeed := 1 / 5 }
        input_ :=
          { IsKeyDown := fun _ => false,
            IsKeyPressed := fun _ => false,
            IsMouseButtonDown := fun _ => false,
            GetMousePosition := ⟨10, 10⟩, GetMouseMove := ⟨0, 0⟩, GetMouseWheelMove := 0 }
        hasSelection_ := false
        selectionCenter_ := Vector3.ZERO }).mouseModes = [MouseMode.MM_WRAP] := by
  rw [Update_mouseModes]
  rfl

/-- C22, amended: every `SceneViewport::Update` sets the mouse mode exactly once: to wrap-around
when, in Standard mode, the right or middle button is held, or when, in Blender mode, the
middle button is held or the fly flag (as it is after this update's toggle check) is set; and
to absolute in every other case, including every other mode value. -/
theorem Update_sets_mouse_mode_once (E : EngineMath) (v : SceneViewport)
    (p : SceneViewportUpdateParams) :
    (v.Update E p).mouseModes.length = 1 ∧
    (p.config_.hotKeyMode = HotKeyMode.Standard →
      (v.Update E p).mouseModes
        = [if (p.input_.IsMouseButtonDown MouseButton.RightButton ||
              p.input_.IsMouseButtonDown MouseButton.MiddleButton) = true
            then MouseMode.MM_WRAP else MouseMode.MM_ABSOLUTE]) ∧
    (p.config_.hotKeyMode = HotKeyMode.Blender →
      (v.Update E p).mouseModes
        = [if (p.input_.IsMouseButtonDown MouseButton.MiddleButton ||
              (if (p.input_.IsKeyDown Key.Key_Shift && p.input_.IsKeyPressed Key.Key_F) = true
                then !v.flyMode_ else v.flyMode_)) = true
            then MouseMode.MM_WRAP else MouseMode.MM_ABSOLUTE]) ∧
    (p.config_.hotKeyMode ≠ HotKeyMode.Standard → p.config_.hotKeyMode ≠ HotKeyMode.Blender →
      (v.Update E p).mouseModes = [MouseMode.MM_ABSOLUTE]) := by
  have h := Update_mouseModes E v p
  refine ⟨by rw [h]; rfl, ?_, ?_, ?_⟩
  · intro hs
    rw [h]
    simp only [changeCamViewButton, hs, if_true]
  · intro hb
    rw [h]
    cases h1 : p.input_.IsMouseButtonDown MouseButton.MiddleButton <;>
      cases h2 : v.flyMode_ <;>
      cases h3 : p.input_.IsKeyDown Key.Key_Shift <;>
      cases h4 : p.input_.IsKeyPressed Key.Key_F <;>
      simp [changeCamViewButton, toggleFlyMode, hb, h1, h2, h3, h4]
  · intro hs hb
    rw [h]
    simp only [changeCamViewButton, hs, hb, if_false]
    rfl

theorem Update_sets_mouse_mode_once_witness :
    (SceneViewport.Update ⟨fun _ d => d, fun _ => 0⟩ SceneViewport.new
      { timeStep_ := 1 / 60
        config_ :=
          { hotKeyMode := HotKeyMode.Standard, cameraShiftSpeedMultiplier := 5,
            cameraBaseSpeed := 5, mouseWheelCameraPosition := true, mmbPanMode := true,
            limitRotation := true, cameraBaseRotationSpeed := 1 / 5 }
        input_ :=
          { IsKeyDown := fun _ => false,
            IsKeyPressed := fun _ => false,
            IsMouseButtonDown := fun b => decide (b = MouseButton.RightButton),
            GetMousePosition := ⟨10, 10⟩, GetMouseMove := ⟨0, 0⟩, GetMouseWheelMove := 0 }
        hasSelection_ := false
        selectionCenter_ := Vector3.ZERO }).mouseModes = [MouseMode.MM_WRAP] :=
  (Update_sets_mouse_mode_once ⟨fun _ d => d, fun _ => 0⟩ SceneViewport.new
      { timeStep_ := 1 / 60
        config_ :=
          { hotKeyMode := HotKeyMode.Standard, cameraShiftSpeedMultiplier := 5,
            cameraBaseSpeed := 5, mouseWheelCameraPosition := true, mmbPanMode := true,
            limitRotation := true, cameraBaseRotationSpeed := 1 / 5 }
        input_ :=
          { IsKeyDown := fun _ => false,
            IsKeyPressed := fun _ => false,
            IsMouseButtonDown := fun b => decide (b = MouseButton.RightButton),
            GetMousePosition := ⟨10, 10⟩, GetMouseMove := ⟨0, 0⟩, GetMouseWheelMove := 0 }
        hasSelection_ := false
        selectionCenter_ := Vector3.ZERO }).2.1 rfl

/-- C23: the fly flag after `SceneViewport::Update` depends only on the mode, the old flag and
the input: in Blender mode it is false when the right mouse button or Escape is down and
otherwise the old flag, toggled exactly when Shift is down and F was pressed; in Standard mode
and for every other mode value it is the old flag. -/
theorem Update_fly_flag (E : EngineMath) (v : SceneViewport) (p : SceneViewportUpdateParams) :
    (p.config_.hotKeyMode = HotKeyMode.Blender →
      (v.Update E p).viewport.flyMode_
        = if (p.input_.IsMouseButtonDown MouseButton.RightButton ||
              p.input_.IsKeyDown Key.Key_Escape) = true then false
          else if (p.input_.IsKeyDown Key.Key_Shift && p.input_.IsKeyPressed Key.Key_F) = true
            then !v.flyMode_
          else v.flyMode_) ∧
    (p.config_.hotKeyMode ≠ HotKeyMode.Blender →
      (v.Update E p).viewport.flyMode_ = v.flyMode_) := by
  have h := Update_flyMode E v p
  constructor
  · intro hb
    rw [h]
    cases h1 : p.input_.IsMouseButtonDown MouseButton.RightButton <;>
      cases h2 : p.input_.IsKeyDown Key.Key_Escape <;>
      cases h3 : p.input_.IsKeyDown Key.Key_Shift <;>
      cases h4 : p.input_.IsKeyPressed Key.Key_F <;>
      simp [leaveFlyMode, toggleFlyMode, hb, h1, h2, h3, h4]
  · intro hnb
    rw [h]
    simp only [leaveFlyMode, toggleFlyMode, hnb, if_false]
    split_ifs <;> rfl

theorem Update_fly_flag_witness :
    (SceneViewport.Update ⟨fun _ d => d, fun _ => 0⟩ SceneViewport.new
      { timeStep_ := 1 / 60
        config_ :=
          { hotKeyMode := HotKeyMode.Blender, cameraShiftSpeedMultiplier := 5,
            cameraBaseSpeed := 5, mouseWheelCameraPosition := true, mmbPanMode := true,
            limitRotation := true, cameraBaseRotationSpeed := 1 / 5 }
        input_ :=
          { IsKeyDown := fun k => decide (k = Key.Key_Shift),
            IsKeyPressed := fun k => decide (k = Key.Key_F),
            IsMouseButtonDown := fun _ => false,
            GetMousePosition := ⟨10, 10⟩, GetMouseMove := ⟨0, 0⟩, GetMouseWheelMove := 0 }
        hasSelection_ := false
        selectionCenter_ := Vector3.ZERO }).viewport.flyMode_ = true :=
  (Update_fly_flag ⟨fun _ d => d, fun _ => 0⟩ SceneViewport.new
      { timeStep_ := 1 / 60
        config_ :=
          { hotKeyMode := HotKeyMode.Blender, cameraShiftSpeedMultiplier := 5,
            cameraBaseSpeed := 5, mouseWheelCameraPosition := true, mmbPanMode := true,
            limitRotation := true, cameraBaseRotationSpeed := 1 / 5 }
        input_ :=
          { IsKeyDown := fun k => decide (k = Key.Key_Shift),
            IsKeyPressed := fun k => decide (k = Key.Key_F),
            IsMouseButtonDown := fun _ => false,
            GetMousePosition := ⟨10, 10⟩, GetMouseMove := ⟨0, 0⟩, GetMouseWheelMove := 0 }
        hasSelection_ := false
        selectionCenter_ := Vector3.ZERO }).1 rfl

/-! ## Idle updates, unknown modes and the wheel -/

theorem moveOnKeys_of_up (E : EngineMath) (p : SceneViewportUpdateParams) (k1 k2 : Key)
    (direction : Vector3) (space : TransformSpace) (u : CameraUpdate)
    (h1 : p.input_.IsKeyDown k1 = false) (h2 : p.input_.IsKeyDown k2 = false) :
    moveOnKeys E p k1 k2 direction space u = u := by
  simp [moveOnKeys, h1, h2]

/-- The movement block does nothing when all twelve movement keys are up. -/
theorem moveCamera_of_keys_up (E : EngineMath) (p : SceneViewportUpdateParams)
    (u : CameraUpdate)
    (hW : p.input_.IsKeyDown Key.Key_W = false) (hUp : p.input_.IsKeyDown Key.Key_Up = false)
    (hS : p.input_.IsKeyDown Key.Key_S = false) (hDown : p.input_.IsKeyDown Key.Key_Down = false)
    (hA : p.input_.IsKeyDown Key.Key_A = false) (hLeft : p.input_.IsKeyDown Key.Key_Left = false)
    (hD : p.input_.IsKeyDown Key.Key_D = false)
    (hRight : p.input_.IsKeyDown Key.Key_Right = false)
    (hE : p.input_.IsKeyDown Key.Key_E = false)
    (hPgUp : p.input_.IsKeyDown Key.Key_PageUp = false)
    (hQ : p.input_.IsKeyDown Key.Key_Q = false)
    (hPgDn : p.input_.IsKeyDown Key.Key_PageDown = false) :
    moveCamera E p u = u := by
  unfold moveCamera
  simp only
  split_ifs
  · rw [moveOnKeys_of_up E p Key.Key_W Key.Key_Up _ _ u hW hUp,
      moveOnKeys_of_up E p Key.Key_S Key.Key_Down _ _ u hS hDown,
      moveOnKeys_of_up E p Key.Key_A Key.Key_Left _ _ u hA hLeft,
      moveOnKeys_of_up E p Key.Key_D Key.Key_Right _ _ u hD hRight,
      moveOnKeys_of_up E p Key.Key_E Key.Key_PageUp _ _ u hE hPgUp,
      moveOnKeys_of_up E p Key.Key_Q Key.Key_PageDown _ _ u hQ hPgDn]
  · rfl
  · rfl

theorem wheelCamera_of_idle (E : EngineMath) (p : SceneViewportUpdateParams)
    (u : CameraUpdate) (h : p.input_.GetMouseWheelMove = 0) : wheelCamera E p u = u := by
  simp [wheelCamera, h]

theorem homeCamera_of_up (E : EngineMath) (p : SceneViewportUpdateParams)
    (u : CameraUpdate) (h : p.input_.IsKeyDown Key.Key_Home = false) :
    homeCamera E p u = u := by
  simp [homeCamera, h]

theorem endOrbiting_position (p : SceneViewportUpdateParams) (u : CameraUpdate) :
    (endOrbiting p u).viewport.position = u.viewport.position := by
  rw [endOrbiting_frame]

theorem leaveFlyMode_position (p : SceneViewportUpdateParams) (v : SceneViewport) :
    (leaveFlyMode p v).position = v.position := by
  rw [leaveFlyMode_frame]

theorem toggleFlyMode_position (p : SceneViewportUpdateParams) (v : SceneViewport) :
    (toggleFlyMode p v).position = v.position := by
  rw [toggleFlyMode_frame]

/-- The view block neither moves the camera nor calls `Translate` when the mouse did not
move. -/
theorem viewCamera_of_still (E : EngineMath) (p : SceneViewportUpdateParams)
    (u : CameraUpdate) (hx : p.input_.GetMouseMove.x_ = 0) (hy : p.input_.GetMouseMove.y_ = 0) :
    (viewCamera E p u).viewport.position = u.viewport.position ∧
    (viewCamera E p u).translations = u.translations := by
  unfold viewCamera
  simp only [hx, hy, ne_eq, not_true_eq_false, or_self, if_false]
  split_ifs
  · exact ⟨leaveFlyMode_position p _, rfl⟩
  · exact ⟨leaveFlyMode_position p _, rfl⟩

/-- An update with all movement keys and the Home key up, no wheel movement and no mouse
movement makes no `Translate` call and leaves the camera where it is. -/
theorem Update_of_idle (E : EngineMath) (v : SceneViewport) (p : SceneViewportUpdateParams)
    (hW : p.input_.IsKeyDown Key.Key_W = false) (hUp : p.input_.IsKeyDown Key.Key_Up = false)
    (hS : p.input_.IsKeyDown Key.Key_S = false) (hDown : p.input_.IsKeyDown Key.Key_Down = false)
    (hA : p.input_.IsKeyDown Key.Key_A = false) (hLeft : p.input_.IsKeyDown Key.Key_Left = false)
    (hD : p.input_.IsKeyDown Key.Key_D = false)
    (hRight : p.input_.IsKeyDown Key.Key_Right = false)
    (hE : p.input_.IsKeyDown Key.Key_E = false)
    (hPgUp : p.input_.IsKeyDown Key.Key_PageUp = false)
    (hQ : p.input_.IsKeyDown Key.Key_Q = false)
    (hPgDn : p.input_.IsKeyDown Key.Key_PageDown = false)
    (hHome : p.input_.IsKeyDown Key.Key_Home = false)
    (hwheel : p.input_.GetMouseWheelMove = 0)
    (hx : p.input_.GetMouseMove.x_ = 0) (hy : p.input_.GetMouseMove.y_ = 0) :
    (v.Update E p).translations = [] ∧ (v.Update E p).viewport.position = v.position := by
  have hb : beforeView E v p
      = { viewport := toggleFlyMode p v, translations := [], mouseModes := [] } := by
    unfold beforeView
    rw [moveCamera_of_keys_up E p _ hW hUp hS hDown hA hLeft hD hRight hE hPgUp hQ hPgDn,
      wheelCamera_of_idle E p _ hwheel, homeCamera_of_up E p _ hHome]
  obtain ⟨hpos, htr⟩ := viewCamera_of_still E p (beforeView E v p) hx hy
  rw [Update_eq_beforeView]
  constructor
  · rw [endOrbiting_translations, htr, hb]
  · rw [endOrbiting_position, hpos, hb]
    exact toggleFlyMode_position p v

/-- C24, as stated, fails: in Blender mode with the fly flag set, base speed 5 and elapsed time
1, an update with no key held, no wheel movement and no mouse movement makes no `Translate`
call and leaves the camera at its position. -/
theorem fly_mode_idle_does_not_move :
    (SceneViewport.Update ⟨fun _ d => d, fun _ => 0⟩
      { SceneViewport.new with flyMode_ := true }
      { timeStep_ := 1
        config_ :=
          { hotKeyMode := HotKeyMode.Blender, cameraShiftSpeedMultiplier := 5,
            cameraBaseSpeed := 5, mouseWheelCameraPosition := true, mmbPanMode := true,
            limitRotation := true, cameraBaseRotationSpeed := 1 / 5 }
        input_ :=
          { IsKeyDown := fun _ => false,
            IsKeyPressed := fun _ => false,
            IsMouseButtonDown := fun _ => false,
            GetMousePosition := ⟨10, 10⟩, GetMouseMove := ⟨0, 0⟩, GetMouseWheelMove := 0 }
        hasSelection_ := false
        selectionCenter_ := Vector3.ZERO }).translations = [] ∧
    (SceneViewport.Update ⟨fun _ d => d, fun _ => 0⟩
      { SceneViewport.new with flyMode_ := true }
      { timeStep_ := 1
        config_ :=
          { hotKeyMode := HotKeyMode.Blender, cameraShiftSpeedMultiplier := 5,
            cameraBaseSpeed := 5, mouseWheelCameraPosition := true, mmbPanMode := true,
            limitRotation := true, cameraBaseRotationSpeed := 1 / 5 }
        input_ :=
          { IsKeyDown := fun _ => false,
            IsKeyPressed := fun _ => false,
            IsMouseButtonDown := fun _ => false,
            GetMousePosition := ⟨10, 10⟩, GetMouseMove := ⟨0, 0⟩, GetMouseWheelMove := 0 }
        hasSelection_ := false
        selectionCenter_ := Vector3.ZERO }).viewport.position
      = SceneViewport.new.position :=
  Update_of_idle _ _ _ rfl rfl rfl rfl rfl rfl rfl rfl rfl rfl rfl rfl rfl rfl rfl rfl

theorem moveOnKeys_rotation (E : EngineMath) (p : SceneViewportUpdateParams) (k1 k2 : Key)
    (direction : Vector3) (space : TransformSpace) (u : CameraUpdate) :
    (moveOnKeys E p k1 k2 direction space u).viewport.rotation = u.viewport.rotation := by
  rw [moveOnKeys_frame]

theorem moveOnKeys_position_local (E : EngineMath) (p : SceneViewportUpdateParams)
    (k1 k2 : Key) (direction : Vector3) (u : CameraUpdate) :
    (moveOnKeys E p k1 k2 direction TransformSpace.TS_LOCAL u).viewport.position
      = if (p.input_.IsKeyDown k1 || p.input_.IsKeyDown k2) = true then
          u.viewport.position.add
            (E.rotate u.viewport.rotation ((direction.mul p.timeStep_).mul (speedMultiplier p)))
        else u.viewport.position := by
  unfold moveOnKeys
  split <;> rfl

theorem moveOnKeys_position_world (E : EngineMath) (p : SceneViewportUpdateParams)
    (k1 k2 : Key) (direction : Vector3) (u : CameraUpdate) :
    (moveOnKeys E p k1 k2 direction TransformSpace.TS_WORLD u).viewport.position
      = if (p.input_.IsKeyDown k1 || p.input_.IsKeyDown k2) = true then
          u.viewport.position.add ((direction.mul p.timeStep_).mul (speedMultiplier p))
        else u.viewport.position := by
  unfold moveOnKeys
  split <;> rfl

/-- The camera position after the movement block of lines 85-114 when the block is enabled:
the six key pairs act in order, each held pair adding its vector to the position, the local
vectors rotated by the camera rotation. -/
theorem moveCamera_position (E : EngineMath) (p : SceneViewportUpdateParams)
    (u : CameraUpdate)
    (hctrl : p.input_.IsKeyDown Key.Key_Control = false)
    (halt : p.input_.IsKeyDown Key.Key_Alt = false)
    (hen : p.config_.hotKeyMode = HotKeyMode.Standard ∨
      (p.config_.hotKeyMode = HotKeyMode.Blender ∧ u.viewport.flyMode_ = true ∧
        p.input_.IsKeyDown Key.Key_Shift = false)) :
    ∃ p1 p2 p3 p4 p5 p6 : Vector3,
      p1 = (if (p.input_.IsKeyDown Key.Key_W || p.input_.IsKeyDown Key.Key_Up) = true then
            u.viewport.position.add (E.rotate u.viewport.rotation
              ⟨0, 0, p.config_.cameraBaseSpeed * p.timeStep_ * speedMultiplier p⟩)
          else u.viewport.position) ∧
      p2 = (if (p.input_.IsKeyDown Key.Key_S || p.input_.IsKeyDown Key.Key_Down) = true then
            p1.add (E.rotate u.viewport.rotation
              ⟨0, 0, -(p.config_.cameraBaseSpeed * p.timeStep_ * speedMultiplier p)⟩)
          else p1) ∧
      p3 = (if (p.input_.IsKeyDown Key.Key_A || p.input_.IsKeyDown Key.Key_Left) = true then
            p2.add (E.rotate u.viewport.rotation
              ⟨-(p.config_.cameraBaseSpeed * p.timeStep_ * speedMultiplier p), 0, 0⟩)
          else p2) ∧
      p4 = (if (p.input_.IsKeyDown Key.Key_D || p.input_.IsKeyDown Key.Key_Right) = true then
            p3.add (E.rotate u.viewport.rotation
              ⟨p.config_.cameraBaseSpeed * p.timeStep_ * speedMultiplier p, 0, 0⟩)
          else p3) ∧
      p5 = (if (p.input_.IsKeyDown Key.Key_E || p.input_.IsKeyDown Key.Key_PageUp) = true then
            p4.add ⟨0, p.config_.cameraBaseSpeed * p.timeStep_ * speedMultiplier p, 0⟩
          else p4) ∧
      p6 = (if (p.input_.IsKeyDown Key.Key_Q || p.input_.IsKeyDown Key.Key_PageDown) = true then
            p5.add ⟨0, -(p.config_.cameraBaseSpeed * p.timeStep_ * speedMultiplier p), 0⟩
          else p5) ∧
      (moveCamera E p u).viewport.position = p6 := by
  refine ⟨_, _, _, _, _, _, rfl, rfl, rfl, rfl, rfl, rfl, ?_⟩
  unfold moveCamera
  simp only [hctrl, halt, Bool.not_false, Bool.and_self, if_true]
  rw [if_pos hen]
  simp only [moveOnKeys_position_world, moveOnKeys_position_local, moveOnKeys_rotation,
    Vector3.mul, zero_mul, neg_mul]

/-- With the wheel idle, the Home key up and no mouse movement, the `Translate` calls and the
camera position of an update are those of its movement block. -/
theorem Update_of_quiet (E : EngineMath) (v : SceneViewport) (p : SceneViewportUpdateParams)
    (hwheel : p.input_.GetMouseWheelMove = 0)
    (hHome : p.input_.IsKeyDown Key.Key_Home = false)
    (hx : p.input_.GetMouseMove.x_ = 0) (hy : p.input_.GetMouseMove.y_ = 0) :
    (v.Update E p).translations
      = (moveCamera E p
          { viewport := toggleFlyMode p v, translations := [], mouseModes := [] }).translations ∧
    (v.Update E p).viewport.position
      = (moveCamera E p
          { viewport := toggleFlyMode p v, translations := [],
            mouseModes := [] }).viewport.position := by
  have hb : beforeView E v p
      = moveCamera E p
          { viewport := toggleFlyMode p v, translations := [], mouseModes := [] } := by
    unfold beforeView
    rw [wheelCamera_of_idle E p _ hwheel, homeCamera_of_up E p _ hHome]
  obtain ⟨hpos, htr⟩ := viewCamera_of_still E p (beforeView E v p) hx hy
  rw [Update_eq_beforeView]
  constructor
  · rw [endOrbiting_translations, htr, hb]
  · rw [endOrbiting_position, hpos, hb]

/-- C18: in Standard mode with neither Control nor Alt held, the `Translate` calls of an update
begin with one call per held movement key pair, in the order W/Up, S/Down, A/Left, D/Right,
E/PageUp, Q/PageDown; the vector has the value base speed x elapsed time x multiplier on the
axis of the key (+Z, -Z, -X, +X local, +Y, -Y world) and 0 on the other axes, where the
multiplier is 1 without Shift and the configured shift multiplier with Shift. Each of these
calls moves the camera: the position after the movement block is the old position with the
vectors of the held pairs added in that order, the local ones rotated by the camera rotation,
and this is the camera position after the update when the wheel is idle, the Home key is up and
the mouse did not move. -/
theorem Standard_movement_keys (E : EngineMath) (v : SceneViewport)
    (p : SceneViewportUpdateParams)
    (hmode : p.config_.hotKeyMode = HotKeyMode.Standard)
    (hctrl : p.input_.IsKeyDown Key.Key_Control = false)
    (halt : p.input_.IsKeyDown Key.Key_Alt = false) :
    (speedMultiplier p
      = if p.input_.IsKeyDown Key.Key_Shift = true then p.config_.cameraShiftSpeedMultiplier
        else 1) ∧
    (∃ rest, (v.Update E p).translations
      = (if (p.input_.IsKeyDown Key.Key_W || p.input_.IsKeyDown Key.Key_Up) = true then
          [(⟨0, 0, p.config_.cameraBaseSpeed * p.timeStep_ * speedMultiplier p⟩,
            TransformSpace.TS_LOCAL)]
        else []) ++
        (if (p.input_.IsKeyDown Key.Key_S || p.input_.IsKeyDown Key.Key_Down) = true then
          [(⟨0, 0, -(p.config_.cameraBaseSpeed * p.timeStep_ * speedMultiplier p)⟩,
            TransformSpace.TS_LOCAL)]
        else []) ++
        (if (p.input_.IsKeyDown Key.Key_A || p.input_.IsKeyDown Key.Key_Left) = true then
          [(⟨-(p.config_.cameraBaseSpeed * p.timeStep_ * speedMultiplier p), 0, 0⟩,
            TransformSpace.TS_LOCAL)]
        else []) ++
        (if (p.input_.IsKeyDown Key.Key_D || p.input_.IsKeyDown Key.Key_Right) = true then
          [(⟨p.config_.cameraBaseSpeed * p.timeStep_ * speedMultiplier p, 0, 0⟩,
            TransformSpace.TS_LOCAL)]
        else []) ++
        (if (p.input_.IsKeyDown Key.Key_E || p.input_.IsKeyDown Key.Key_PageUp) = true then
          [(⟨0, p.config_.cameraBaseSpeed * p.timeStep_ * speedMultiplier p, 0⟩,
            TransformSpace.TS_WORLD)]
        else []) ++
        (if (p.input_.IsKeyDown Key.Key_Q || p.input_.IsKeyDown Key.Key_PageDown) = true then
          [(⟨0, -(p.config_.cameraBaseSpeed * p.timeStep_ * speedMultiplier p), 0⟩,
            TransformSpace.TS_WORLD)]
        else []) ++ rest) ∧
    (∃ p1 p2 p3 p4 p5 p6 : Vector3,
      p1 = (if (p.input_.IsKeyDown Key.Key_W || p.input_.IsKeyDown Key.Key_Up) = true then
            v.position.add (E.rotate v.rotation
              ⟨0, 0, p.config_.cameraBaseSpeed * p.timeStep_ * speedMultiplier p⟩)
          else v.position) ∧
      p2 = (if (p.input_.IsKeyDown Key.Key_S || p.input_.IsKeyDown Key.Key_Down) = true then
            p1.add (E.rotate v.rotation
              ⟨0, 0, -(p.config_.cameraBaseSpeed * p.timeStep_ * speedMultiplier p)⟩)
          else p1) ∧
      p3 = (if (p.input_.IsKeyDown Key.Key_A || p.input_.IsKeyDown Key.Key_Left) = true then
            p2.add (E.rotate v.rotation
              ⟨-(p.config_.cameraBaseSpeed * p.timeStep_ * speedMultiplier p), 0, 0⟩)
          else p2) ∧
      p4 = (if (p.input_.IsKeyDown Key.Key_D || p.input_.IsKeyDown Key.Key_Right) = true then
            p3.add (E.rotate v.rotation
              ⟨p.config_.cameraBaseSpeed * p.timeStep_ * speedMultiplier p, 0, 0⟩)
          else p3) ∧
      p5 = (if (p.input_.IsKeyDown Key.Key_E || p.input_.IsKeyDown Key.Key_PageUp) = true then
            p4.add ⟨0, p.config_.cameraBaseSpeed * p.timeStep_ * speedMultiplier p, 0⟩
          else p4) ∧
      p6 = (if (p.input_.IsKeyDown Key.Key_Q || p.input_.IsKeyDown Key.Key_PageDown) = true then
            p5.add ⟨0, -(p.config_.cameraBaseSpeed * p.timeStep_ * speedMultiplier p), 0⟩
          else p5) ∧
      (moveCamera E p
        { viewport := v, translations := [], mouseModes := [] }).viewport.position = p6 ∧
      (p.input_.GetMouseWheelMove = 0 → p.input_.IsKeyDown Key.Key_Home = false →
        p.input_.GetMouseMove.x_ = 0 → p.input_.GetMouseMove.y_ = 0 →
        (v.Update E p).viewport.position = p6)) := by
  have htog : toggleFlyMode p v = v := by
    simp [toggleFlyMode, hmode]
  refine ⟨rfl, ?_, ?_⟩
  · obtain ⟨rest, hrest⟩ := Update_translations_start E v p
    refine ⟨rest, ?_⟩
    rw [hrest]
    congr 1
    unfold moveCamera
    simp only [hctrl, halt, hmode, Bool.not_false, Bool.and_self, if_true, true_or]
    simp only [moveOnKeys_translations, List.nil_append, List.append_assoc, Vector3.mul,
      zero_mul, neg_mul]
  · obtain ⟨p1, p2, p3, p4, p5, p6, h1, h2, h3, h4, h5, h6, hpos⟩ :=
      moveCamera_position E p { viewport := v, translations := [], mouseModes := [] }
        hctrl halt (Or.inl hmode)
    refine ⟨p1, p2, p3, p4, p5, p6, h1, h2, h3, h4, h5, h6, hpos, ?_⟩
    intro hwheel hHome hx hy
    rw [(Update_of_quiet E v p hwheel hHome hx hy).2, htog]
    exact hpos

theorem Standard_movement_keys_witness :
    ((∃ rest,
      (SceneViewport.Update ⟨fun _ d => d, fun _ => 0⟩ SceneViewport.new
        { timeStep_ := 1
          config_ :=
            { hotKeyMode := HotKeyMode.Standard, cameraShiftSpeedMultiplier := 5,
              cameraBaseSpeed := 5, mouseWheelCameraPosition := true, mmbPanMode := true,
              limitRotation := true, cameraBaseRotationSpeed := 1 / 5 }
          input_ :=
            { IsKeyDown := fun k => decide (k = Key.Key_W),
              IsKeyPressed := fun _ => false,
              IsMouseButtonDown := fun _ => false,
              GetMousePosition := ⟨10, 10⟩, GetMouseMove := ⟨0, 0⟩, GetMouseWheelMove := 0 }
          hasSelection_ := false
          selectionCenter_ := Vector3.ZERO }).translations
        = [(⟨0, 0, 5⟩, TransformSpace.TS_LOCAL)] ++ rest) ∧
      (SceneViewport.Update ⟨fun _ d => d, fun _ => 0⟩ SceneViewport.new
        { timeStep_ := 1
          config_ :=
            { hotKeyMode := HotKeyMode.Standard, cameraShiftSpeedMultiplier := 5,
              cameraBaseSpeed := 5, mouseWheelCameraPosition := true, mmbPanMode := true,
              limitRotation := true, cameraBaseRotationSpeed := 1 / 5 }
          input_ :=
            { IsKeyDown := fun k => decide (k = Key.Key_W),
              IsKeyPressed := fun _ => false,
              IsMouseButtonDown := fun _ => false,
              GetMousePosition := ⟨10, 10⟩, GetMouseMove := ⟨0, 0⟩, GetMouseWheelMove := 0 }
          hasSelection_ := false
          selectionCenter_ := Vector3.ZERO }).viewport.position = ⟨0, 0, 5⟩) ∧
    ((∃ rest,
      (SceneViewport.Update ⟨fun _ d => d, fun _ => 0⟩ SceneViewport.new
        { timeStep_ := 1
          config_ :=
            { hotKeyMode := HotKeyMode.Standard, cameraShiftSpeedMultiplier := 5,
              cameraBaseSpeed := 5, mouseWheelCameraPosition := true, mmbPanMode := true,
              limitRotation := true, cameraBaseRotationSpeed := 1 / 5 }
          input_ :=
            { IsKeyDown := fun k => decide (k = Key.Key_W ∨ k = Key.Key_Shift),
              IsKeyPressed := fun _ => false,
              IsMouseButtonDown := fun _ => false,
              GetMousePosition := ⟨10, 10⟩, GetMouseMove := ⟨0, 0⟩, GetMouseWheelMove := 0 }
          hasSelection_ := false
          selectionCenter_ := Vector3.ZERO }).translations
        = [(⟨0, 0, 25⟩, TransformSpace.TS_LOCAL)] ++ rest) ∧
      (SceneViewport.Update ⟨fun _ d => d, fun _ => 0⟩ SceneViewport.new
        { timeStep_ := 1
          config_ :=
            { hotKeyMode := HotKeyMode.Standard, cameraShiftSpeedMultiplier := 5,
              cameraBaseSpeed := 5, mouseWheelCameraPosition := true, mmbPanMode := true,
              limitRotation := true, cameraBaseRotationSpeed := 1 / 5 }
          input_ :=
            { IsKeyDown := fun k => decide (k = Key.Key_W ∨ k = Key.Key_Shift),
              IsKeyPressed := fun _ => false,
              IsMouseButtonDown := fun _ => false,
              GetMousePosition := ⟨10, 10⟩, GetMouseMove := ⟨0, 0⟩, GetMouseWheelMove := 0 }
          hasSelection_ := false
          selectionCenter_ := Vector3.ZERO }).viewport.position = ⟨0, 0, 25⟩) := by
  constructor
  · obtain ⟨_, ⟨rest, h⟩, p1, p2, p3, p4, p5, p6, h1, h2, h3, h4, h5, h6, _, hfinal⟩ :=
      Standard_movement_keys ⟨fun _ d => d, fun _ => 0⟩ SceneViewport.new
        { timeStep_ := 1
          config_ :=
            { hotKeyMode := HotKeyMode.Standard, cameraShiftSpeedMultiplier := 5,
              cameraBaseSpeed := 5, mouseWheelCameraPosition := true, mmbPanMode := true,
              limitRotation := true, cameraBaseRotationSpeed := 1 / 5 }
          input_ :=
            { IsKeyDown := fun k => decide (k = Key.Key_W),
              IsKeyPressed := fun _ => false,
              IsMouseButtonDown := fun _ => false,
              GetMousePosition := ⟨10, 10⟩, GetMouseMove := ⟨0, 0⟩, GetMouseWheelMove := 0 }
          hasSelection_ := false
          selectionCenter_ := Vector3.ZERO } rfl rfl rfl
    constructor
    · refine ⟨rest, ?_⟩
      rw [h]
      simp only [speedMultiplier]
      norm_num
      simp
    · rw [hfinal rfl rfl rfl rfl, h6, h5, h4, h3, h2, h1]
      simp [speedMultiplier, Vector3.add, SceneViewport.new, Vector3.ZERO]
  · obtain ⟨_, ⟨rest, h⟩, p1, p2, p3, p4, p5, p6, h1, h2, h3, h4, h5, h6, _, hfinal⟩ :=
      Standard_movement_keys ⟨fun _ d => d, fun _ => 0⟩ SceneViewport.new
        { timeStep_ := 1
          config_ :=
            { hotKeyMode := HotKeyMode.Standard, cameraShiftSpeedMultiplier := 5,
              cameraBaseSpeed := 5, mouseWheelCameraPosition := true, mmbPanMode := true,
              limitRotation := true, cameraBaseRotationSpeed := 1 / 5 }
          input_ :=
            { IsKeyDown := fun k => decide (k = Key.Key_W ∨ k = Key.Key_Shift),
              IsKeyPressed := fun _ => false,
              IsMouseButtonDown := fun _ => false,
              GetMousePosition := ⟨10, 10⟩, GetMouseMove := ⟨0, 0⟩, GetMouseWheelMove := 0 }
          hasSelection_ := false
          selectionCenter_ := Vector3.ZERO } rfl rfl rfl
    constructor
    · refine ⟨rest, ?_⟩
      rw [h]
      simp only [speedMultiplier]
      norm_num
      simp
    · rw [hfinal rfl rfl rfl rfl, h6, h5, h4, h3, h2, h1]
      simp [speedMultiplier, Vector3.add, SceneViewport.new, Vector3.ZERO]
      norm_num

/-- C24, amended: in Blender mode with the fly flag set and Shift, Control and Alt up, the
movement block of an update moves the camera forward along its view direction, by base speed x
elapsed time, when W or Up is held: its first `Translate` call is then the local translation
(0, 0, base speed x elapsed time), the position after the block is the old position with the
vectors of the held key pairs added in order, the local ones rotated by the camera rotation, and
this is the camera position after the update when the wheel is idle, the Home key is up and the
mouse did not move; with every movement key and the Home key up and the wheel and mouse idle the
update makes no `Translate` call and the camera stays where it is. -/
theorem fly_mode_moves_on_keys (E : EngineMath) (v : SceneViewport)
    (p : SceneViewportUpdateParams)
    (hmode : p.config_.hotKeyMode = HotKeyMode.Blender)
    (hfly : v.flyMode_ = true)
    (hshift : p.input_.IsKeyDown Key.Key_Shift = false)
    (hctrl : p.input_.IsKeyDown Key.Key_Control = false)
    (halt : p.input_.IsKeyDown Key.Key_Alt = false) :
    (∃ rest, (v.Update E p).translations
      = (if (p.input_.IsKeyDown Key.Key_W || p.input_.IsKeyDown Key.Key_Up) = true then
          [(⟨0, 0, p.config_.cameraBaseSpeed * p.timeStep_⟩, TransformSpace.TS_LOCAL)]
        else []) ++ rest) ∧
    (∃ p1 p2 p3 p4 p5 p6 : Vector3,
      p1 = (if (p.input_.IsKeyDown Key.Key_W || p.input_.IsKeyDown Key.Key_Up) = true then
            v.position.add (E.rotate v.rotation
              ⟨0, 0, p.config_.cameraBaseSpeed * p.timeStep_⟩)
          else v.position) ∧
      p2 = (if (p.input_.IsKeyDown Key.Key_S || p.input_.IsKeyDown Key.Key_Down) = true then
            p1.add (E.rotate v.rotation ⟨0, 0, -(p.config_.cameraBaseSpeed * p.timeStep_)⟩)
          else p1) ∧
      p3 = (if (p.input_.IsKeyDown Key.Key_A || p.input_.IsKeyDown Key.Key_Left) = true then
            p2.add (E.rotate v.rotation ⟨-(p.config_.cameraBaseSpeed * p.timeStep_), 0, 0⟩)
          else p2) ∧
      p4 = (if (p.input_.IsKeyDown Key.Key_D || p.input_.IsKeyDown Key.Key_Right) = true then
            p3.add (E.rotate v.rotation ⟨p.config_.cameraBaseSpeed * p.timeStep_, 0, 0⟩)
          else p3) ∧
      p5 = (if (p.input_.IsKeyDown Key.Key_E || p.input_.IsKeyDown Key.Key_PageUp) = true then
            p4.add ⟨0, p.config_.cameraBaseSpeed * p.timeStep_, 0⟩
          else p4) ∧
      p6 = (if (p.input_.IsKeyDown Key.Key_Q || p.input_.IsKeyDown Key.Key_PageDown) = true then
            p5.add ⟨0, -(p.config_.cameraBaseSpeed * p.timeStep_), 0⟩
          else p5) ∧
      (moveCamera E p
        { viewport := v, translations := [], mouseModes := [] }).viewport.position = p6 ∧
      (p.input_.GetMouseWheelMove = 0 → p.input_.IsKeyDown Key.Key_Home = false →
        p.input_.GetMouseMove.x_ = 0 → p.input_.GetMouseMove.y_ = 0 →
        (v.Update E p).viewport.position = p6)) ∧
    (p.input_.IsKeyDown Key.Key_W = false → p.input_.IsKeyDown Key.Key_Up = false →
      p.input_.IsKeyDown Key.Key_S = false → p.input_.IsKeyDown Key.Key_Down = false →
      p.input_.IsKeyDown Key.Key_A = false → p.input_.IsKeyDown Key.Key_Left = false →
      p.input_.IsKeyDown Key.Key_D = false → p.input_.IsKeyDown Key.Key_Right = false →
      p.input_.IsKeyDown Key.Key_E = false → p.input_.IsKeyDown Key.Key_PageUp = false →
      p.input_.IsKeyDown Key.Key_Q = false → p.input_.IsKeyDown Key.Key_PageDown = false →
      p.input_.IsKeyDown Key.Key_Home = false →
      p.input_.GetMouseWheelMove = 0 →
      p.input_.GetMouseMove.x_ = 0 → p.input_.GetMouseMove.y_ = 0 →
      (v.Update E p).translations = [] ∧ (v.Update E p).viewport.position = v.position) := by
  have htog : toggleFlyMode p v = v := by
    simp [toggleFlyMode, hshift]
  have hm : speedMultiplier p = 1 := by
    simp [speedMultiplier, hshift]
  refine ⟨?_, ?_, ?_⟩
  · obtain ⟨rest, hrest⟩ := Update_translations_start E v p
    have hmove : ∃ rest2, (moveCamera E p
        { viewport := toggleFlyMode p v, translations := [], mouseModes := [] }).translations
        = (if (p.input_.IsKeyDown Key.Key_W || p.input_.IsKeyDown Key.Key_Up) = true then
            [(⟨0, 0, p.config_.cameraBaseSpeed * p.timeStep_⟩, TransformSpace.TS_LOCAL)]
          else []) ++ rest2 := by
      rw [htog]
      unfold moveCamera
      simp only [hctrl, halt, hmode, hfly, hshift, Bool.not_false, Bool.and_self, if_true,
        and_self, or_true]
      simp only [moveOnKeys_translations, List.nil_append, List.append_assoc, Vector3.mul,
        zero_mul, speedMultiplier, hshift, Bool.false_eq_true, if_false, mul_one]
      exact ⟨_, rfl⟩
    obtain ⟨rest2, hrest2⟩ := hmove
    exact ⟨rest2 ++ rest, by rw [hrest, hrest2, List.append_assoc]⟩
  · obtain ⟨p1, p2, p3, p4, p5, p6, h1, h2, h3, h4, h5, h6, hpos⟩ :=
      moveCamera_position E p { viewport := v, translations := [], mouseModes := [] }
        hctrl halt (Or.inr ⟨hmode, hfly, hshift⟩)
    simp only [hm, mul_one] at h1 h2 h3 h4 h5 h6
    refine ⟨p1, p2, p3, p4, p5, p6, h1, h2, h3, h4, h5, h6, hpos, ?_⟩
    intro hwheel hHome hx hy
    rw [(Update_of_quiet E v p hwheel hHome hx hy).2, htog]
    exact hpos
  · intro hW hUp hS hDown hA hLeft hD hRight hE hPgUp hQ hPgDn hHome hwheel hx hy
    exact Update_of_idle E v p hW hUp hS hDown hA hLeft hD hRight hE hPgUp hQ hPgDn hHome
      hwheel hx hy

theorem fly_mode_moves_on_keys_witness :
    (∃ rest,
      (SceneViewport.Update ⟨fun _ d => d, fun _ => 0⟩
        { SceneViewport.new with flyMode_ := true }
        { timeStep_ := 1
          config_ :=
            { hotKeyMode := HotKeyMode.Blender, cameraShiftSpeedMultiplier := 5,
              cameraBaseSpeed := 5, mouseWheelCameraPosition := true, mmbPanMode := true,
              limitRotation := true, cameraBaseRotationSpeed := 1 / 5 }
          input_ :=
            { IsKeyDown := fun k => decide (k = Key.Key_W),
              IsKeyPressed := fun _ => false,
              IsMouseButtonDown := fun _ => false,
              GetMousePosition := ⟨10, 10⟩, GetMouseMove := ⟨0, 0⟩, GetMouseWheelMove := 0 }
          hasSelection_ := false
          selectionCenter_ := Vector3.ZERO }).translations
        = [(⟨0, 0, 5⟩, TransformSpace.TS_LOCAL)] ++ rest) ∧
    (SceneViewport.Update ⟨fun _ d => d, fun _ => 0⟩
        { SceneViewport.new with flyMode_ := true }
        { timeStep_ := 1
          config_ :=
            { hotKeyMode := HotKeyMode.Blender, cameraShiftSpeedMultiplier := 5,
              cameraBaseSpeed := 5, mouseWheelCameraPosition := true, mmbPanMode := true,
              limitRotation := true, cameraBaseRotationSpeed := 1 / 5 }
          input_ :=
            { IsKeyDown := fun k => decide (k = Key.Key_W),
              IsKeyPressed := fun _ => false,
              IsMouseButtonDown := fun _ => false,
              GetMousePosition := ⟨10, 10⟩, GetMouseMove := ⟨0, 0⟩, GetMouseWheelMove := 0 }
          hasSelection_ := false
          selectionCenter_ := Vector3.ZERO }).viewport.position = ⟨0, 0, 5⟩ := by
  obtain ⟨⟨rest, h⟩, ⟨p1, p2, p3, p4, p5, p6, h1, h2, h3, h4, h5, h6, _, hfinal⟩, _⟩ :=
    fly_mode_moves_on_keys ⟨fun _ d => d, fun _ => 0⟩
        { SceneViewport.new with flyMode_ := true }
        { timeStep_ := 1
          config_ :=
            { hotKeyMode := HotKeyMode.Blender, cameraShiftSpeedMultiplier := 5,
              cameraBaseSpeed := 5, mouseWheelCameraPosition := true, mmbPanMode := true,
              limitRotation := true, cameraBaseRotationSpeed := 1 / 5 }
          input_ :=
            { IsKeyDown := fun k => decide (k = Key.Key_W),
              IsKeyPressed := fun _ => false,
              IsMouseButtonDown := fun _ => false,
              GetMousePosition := ⟨10, 10⟩, GetMouseMove := ⟨0, 0⟩, GetMouseWheelMove := 0 }
          hasSelection_ := false
          selectionCenter_ := Vector3.ZERO } rfl rfl rfl rfl rfl
  constructor
  · refine ⟨rest, ?_⟩
    rw [h]
    norm_num
  · rw [hfinal rfl rfl rfl rfl, h6, h5, h4, h3, h2, h1]
    simp [Vector3.add, SceneViewport.new, Vector3.ZERO]

/-- With a mode value that is neither Standard nor Blender, an update comes down to the Home
key block, one `SetMouseMode(MM_ABSOLUTE)` call and the orbiting flag. -/
theorem Update_of_other_mode (E : EngineMath) (v : SceneViewport)
    (p : SceneViewportUpdateParams)
    (hs : p.config_.hotKeyMode ≠ HotKeyMode.Standard)
    (hb : p.config_.hotKeyMode ≠ HotKeyMode.Blender) :
    v.Update E p
      = endOrbiting p
          ((homeCamera E p { viewport := v, translations := [], mouseModes := [] }).SetMouseMode
            MouseMode.MM_ABSOLUTE) := by
  have h1 : toggleFlyMode p v = v := by simp [toggleFlyMode, hb]
  have h2 : ∀ u, moveCamera E p u = u := by
    intro u
    simp [moveCamera, hs, hb]
  have h3 : ∀ u, wheelCamera E p u = u := by
    intro u
    simp [wheelCamera, hs, hb]
  have h4 : ∀ u, viewCamera E p u = u.SetMouseMode MouseMode.MM_ABSOLUTE := by
    intro u
    simp [viewCamera, changeCamViewButton, leaveFlyMode, hs, hb]
  unfold SceneViewport.Update
  simp only [h1, h2, h3, h4]

/-- C25, as stated, fails: with the mode value 7, which is neither Standard nor Blender, the
Home key down and a selection centred at the origin, an update moves a camera at the origin with
identity rotation to (0, 0, -10). -/
theorem unknown_mode_home_key_moves_camera :
    (SceneViewport.Update ⟨fun _ d => d, fun _ => 0⟩ SceneViewport.new
      { timeStep_ := 1
        config_ :=
          { hotKeyMode := HotKeyMode.OutOfEnum 7, cameraShiftSpeedMultiplier := 5,
            cameraBaseSpeed := 5, mouseWheelCameraPosition := true, mmbPanMode := true,
            limitRotation := true, cameraBaseRotationSpeed := 1 / 5 }
        input_ :=
          { IsKeyDown := fun k => decide (k = Key.Key_Home),
            IsKeyPressed := fun _ => false,
            IsMouseButtonDown := fun _ => false,
            GetMousePosition := ⟨10, 10⟩, GetMouseMove := ⟨0, 0⟩, GetMouseWheelMove := 0 }
        hasSelection_ := true
        selectionCenter_ := Vector3.ZERO }).viewport.position = ⟨0, 0, -10⟩ ∧
    SceneViewport.new.position = ⟨0, 0, 0⟩ := by
  constructor
  · rw [Update_of_other_mode _ _ _ (by decide) (by decide), endOrbiting_position]
    simp [homeCamera, CameraUpdate.SetMouseMode, CameraUpdate.SetWorldPosition, Vector3.sub,
      Vector3.ZERO]
  · rfl

/-- C25, amended: for every hotkey-mode value that is neither Standard nor Blender, an update
leaves the camera rotation, the pitch/yaw accumulators, the zoom and the fly flag unchanged,
makes no `Translate` call and sets the mouse mode to absolute; the position is unchanged unless
the Home key is down and there is a selection, in which case the camera is put 10 units behind
the selection centre along its view direction. -/
theorem unknown_mode_update (E : EngineMath) (v : SceneViewport)
    (p : SceneViewportUpdateParams)
    (hs : p.config_.hotKeyMode ≠ HotKeyMode.Standard)
    (hb : p.config_.hotKeyMode ≠ HotKeyMode.Blender) :
    (v.Update E p).viewport.rotation = v.rotation ∧
    (v.Update E p).viewport.cameraAngles_ = v.cameraAngles_ ∧
    (v.Update E p).viewport.zoom = v.zoom ∧
    (v.Update E p).viewport.flyMode_ = v.flyMode_ ∧
    (v.Update E p).translations = [] ∧
    (v.Update E p).mouseModes = [MouseMode.MM_ABSOLUTE] ∧
    (v.Update E p).viewport.position
      = (if (p.input_.IsKeyDown Key.Key_Home && p.hasSelection_) = true then
          p.selectionCenter_.sub (E.rotate v.rotation ⟨0, 0, 10⟩)
        else v.position) := by
  have h1 : toggleFlyMode p v = v := by simp [toggleFlyMode, hb]
  have h2 : ∀ u, moveCamera E p u = u := by
    intro u
    simp [moveCamera, hs, hb]
  have h3 : ∀ u, wheelCamera E p u = u := by
    intro u
    simp [wheelCamera, hs, hb]
  have h4 : ∀ u, viewCamera E p u = u.SetMouseMode MouseMode.MM_ABSOLUTE := by
    intro u
    simp [viewCamera, changeCamViewButton, leaveFlyMode, hs, hb]
  have h : v.Update E p
      = endOrbiting p
          ((homeCamera E p { viewport := v, translations := [], mouseModes := [] }).SetMouseMode
            MouseMode.MM_ABSOLUTE) := by
    unfold SceneViewport.Update
    simp only [h1, h2, h3, h4]
  rw [h, endOrbiting_frame, endOrbiting_translations, endOrbiting_mouseModes]
  cases hHome : p.input_.IsKeyDown Key.Key_Home <;> cases hsel : p.hasSelection_ <;>
    simp [homeCamera, CameraUpdate.SetMouseMode, CameraUpdate.SetWorldPosition, hHome, hsel]

theorem unknown_mode_update_witness :
    (SceneViewport.Update ⟨fun _ d => d, fun _ => 0⟩ SceneViewport.new
      { timeStep_ := 1
        config_ :=
          { hotKeyMode := HotKeyMode.OutOfEnum 7, cameraShiftSpeedMultiplier := 5,
            cameraBaseSpeed := 5, mouseWheelCameraPosition := true, mmbPanMode := true,
            limitRotation := true, cameraBaseRotationSpeed := 1 / 5 }
        input_ :=
          { IsKeyDown := fun k => decide (k = Key.Key_W),
            IsKeyPressed := fun _ => false,
            IsMouseButtonDown := fun b => decide (b = MouseButton.MiddleButton),
            GetMousePosition := ⟨10, 10⟩, GetMouseMove := ⟨3, 4⟩, GetMouseWheelMove := 2 }
        hasSelection_ := true
        selectionCenter_ := Vector3.ZERO }).translations = [] :=
  (unknown_mode_update ⟨fun _ d => d, fun _ => 0⟩ SceneViewport.new
      { timeStep_ := 1
        config_ :=
          { hotKeyMode := HotKeyMode.OutOfEnum 7, cameraShiftSpeedMultiplier := 5,
            cameraBaseSpeed := 5, mouseWheelCameraPosition := true, mmbPanMode := true,
            limitRotation := true, cameraBaseRotationSpeed := 1 / 5 }
        input_ :=
          { IsKeyDown := fun k => decide (k = Key.Key_W),
            IsKeyPressed := fun _ => false,
            IsMouseButtonDown := fun b => decide (b = MouseButton.MiddleButton),
            GetMousePosition := ⟨10, 10⟩, GetMouseMove := ⟨3, 4⟩, GetMouseWheelMove := 2 }
        hasSelection_ := true
        selectionCenter_ := Vector3.ZERO } (by decide) (by decide)).2.2.2.2.1

theorem wheelDelta_x (p : SceneViewportUpdateParams) (b s : ℚ) :
    wheelDelta p ⟨-b, 0, 0⟩ s
      = ⟨b * (p.input_.GetMouseWheelMove : ℚ) * s * p.timeStep_ * speedMultiplier p, 0, 0⟩ := by
  simp only [wheelDelta, Vector3.mul, zero_mul, Vector3.mk.injEq, and_true]
  ring

theorem wheelDelta_y (p : SceneViewportUpdateParams) (b s : ℚ) :
    wheelDelta p ⟨0, -b, 0⟩ s
      = ⟨0, b * (p.input_.GetMouseWheelMove : ℚ) * s * p.timeStep_ * speedMultiplier p, 0⟩ := by
  simp only [wheelDelta, Vector3.mul, zero_mul, Vector3.mk.injEq, and_true, true_and]
  ring

theorem wheelDelta_z (p : SceneViewportUpdateParams) (b s : ℚ) :
    wheelDelta p ⟨0, 0, -b⟩ s
      = ⟨0, 0, b * (p.input_.GetMouseWheelMove : ℚ) * s * p.timeStep_ * speedMultiplier p⟩ := by
  simp only [wheelDelta, Vector3.mul, zero_mul, Vector3.mk.injEq, true_and]
  ring

theorem Translate_translations (E : EngineMath) (u : CameraUpdate) (delta : Vector3)
    (space : TransformSpace) :
    (u.Translate E delta space).translations = u.translations ++ [(delta, space)] := rfl

theorem wheelZoom_translations (p : SceneViewportUpdateParams) (u : CameraUpdate) :
    (wheelZoom p u).translations = u.translations := rfl


/-- The `Translate` calls of an update, split after the wheel block. -/
theorem Update_translations_wheel (E : EngineMath) (v : SceneViewport)
    (p : SceneViewportUpdateParams) :
    ∃ rest, (v.Update E p).translations
      = (wheelCamera E p (moveCamera E p
          { viewport := toggleFlyMode p v, translations := [], mouseModes := [] })).translations
        ++ rest := by
  obtain ⟨rest, h⟩ := viewCamera_translations E p (beforeView E v p)
  refine ⟨rest, ?_⟩
  rw [Update_eq_beforeView, endOrbiting_translations, h]
  unfold beforeView
  rw [homeCamera_translations]

/-- C26, as stated, fails: in Blender mode with wheel positioning on, a perspective camera at
(0, 0, -50) looking along +Z, the selection centre at the origin, no key held, wheel delta 1,
base speed 5 and elapsed time 1, the only `Translate` call of the update is the local
translation (0, 0, 200), whose magnitude is 1 x 40 x 5 x 1 x 1 and not 1 x 20 x 5 x 1 x 1. -/
theorem blender_wheel_dolly_uses_scale_40 :
    (SceneViewport.Update ⟨fun _ d => d, fun a => |a.x_| + |a.y_| + |a.z_|⟩
      (SceneViewport.new.SetTransform ⟨0, 0, -50⟩ Quaternion.IDENTITY)
      { timeStep_ := 1
        config_ :=
          { hotKeyMode := HotKeyMode.Blender, cameraShiftSpeedMultiplier := 5,
            cameraBaseSpeed := 5, mouseWheelCameraPosition := true, mmbPanMode := true,
            limitRotation := true, cameraBaseRotationSpeed := 1 / 5 }
        input_ :=
          { IsKeyDown := fun _ => false,
            IsKeyPressed := fun _ => false,
            IsMouseButtonDown := fun _ => false,
            GetMousePosition := ⟨10, 10⟩, GetMouseMove := ⟨0, 0⟩, GetMouseWheelMove := 1 }
        hasSelection_ := true
        selectionCenter_ := Vector3.ZERO }).translations
      = [(⟨0, 0, 200⟩, TransformSpace.TS_LOCAL)] := by
  simp [SceneViewport.Update, toggleFlyMode, moveCamera, wheelCamera, homeCamera, viewCamera,
    endOrbiting, changeCamViewButton, leaveFlyMode, CameraUpdate.Translate,
    CameraUpdate.SetMouseMode, SceneViewport.new, SceneViewport.SetTransform, Vector3.sub,
    Vector3.mul, Vector3.ZERO, speedMultiplier]
  norm_num

/-- C26, amended: with a non-zero wheel delta, the wheel block of `SceneViewport::Update` makes
at most one `Translate` call, always a local one. Writing s for wheel delta x base speed x
elapsed time x speed multiplier: in Standard mode with wheel positioning on it is (0, 0, 20 s);
in Blender mode it is (0, 20 s, 0) with Shift, (20 s, 0, 0) with Control and no Shift, and
otherwise (0, 0, 20 s) when wheel positioning is off or the camera is orthographic and Alt is
up, but (0, 0, 40 f s) when wheel positioning is on and the camera is a perspective one, where f
is the smaller of 1 and (distance to the selection centre) / 40. In the remaining cases the
wheel zooms and makes no `Translate` call. The calls of the wheel block are part of the calls of
the update. -/
theorem wheel_translation_scale (E : EngineMath) (p : SceneViewportUpdateParams)
    (u : CameraUpdate) (v : SceneViewport)
    (hwheel : p.input_.GetMouseWheelMove ≠ 0) :
    (p.config_.hotKeyMode = HotKeyMode.Standard →
      (wheelCamera E p u).translations
        = u.translations ++
          (if p.config_.mouseWheelCameraPosition = true then
            [(⟨0, 0, p.config_.cameraBaseSpeed * (p.input_.GetMouseWheelMove : ℚ) * 20
                * p.timeStep_ * speedMultiplier p⟩, TransformSpace.TS_LOCAL)]
          else [])) ∧
    (p.config_.hotKeyMode = HotKeyMode.Blender →
      p.input_.IsKeyDown Key.Key_Shift = true →
      (wheelCamera E p u).translations
        = u.translations ++
          [(⟨0, p.config_.cameraBaseSpeed * (p.input_.GetMouseWheelMove : ℚ) * 20
              * p.timeStep_ * speedMultiplier p, 0⟩, TransformSpace.TS_LOCAL)]) ∧
    (p.config_.hotKeyMode = HotKeyMode.Blender →
      p.input_.IsKeyDown Key.Key_Shift = false →
      p.input_.IsKeyDown Key.Key_Control = true →
      (wheelCamera E p u).translations
        = u.translations ++
          [(⟨p.config_.cameraBaseSpeed * (p.input_.GetMouseWheelMove : ℚ) * 20
              * p.timeStep_ * speedMultiplier p, 0, 0⟩, TransformSpace.TS_LOCAL)]) ∧
    (p.config_.hotKeyMode = HotKeyMode.Blender →
      p.input_.IsKeyDown Key.Key_Shift = false →
      p.input_.IsKeyDown Key.Key_Control = false →
      (p.config_.mouseWheelCameraPosition && !u.viewport.orthographic) = false →
      (wheelCamera E p u).translations
        = u.translations ++
          (if p.input_.IsKeyDown Key.Key_Alt = true then []
          else
            [(⟨0, 0, p.config_.cameraBaseSpeed * (p.input_.GetMouseWheelMove : ℚ) * 20
                * p.timeStep_ * speedMultiplier p⟩, TransformSpace.TS_LOCAL)])) ∧
    (p.config_.hotKeyMode = HotKeyMode.Blender →
      p.input_.IsKeyDown Key.Key_Shift = false →
      p.input_.IsKeyDown Key.Key_Control = false →
      (p.config_.mouseWheelCameraPosition && !u.viewport.orthographic) = true →
      (wheelCamera E p u).translations
        = u.translations ++
          [(⟨0, 0, p.config_.cameraBaseSpeed * (p.input_.GetMouseWheelMove : ℚ) * 40
              * (if E.length (u.viewport.position.sub p.selectionCenter_) / 40 < 1 then
                  E.length (u.viewport.position.sub p.selectionCenter_) / 40
                else 1)
              * p.timeStep_ * speedMultiplier p⟩, TransformSpace.TS_LOCAL)]) ∧
    (∃ rest, (v.Update E p).translations
      = (wheelCamera E p (moveCamera E p
          { viewport := toggleFlyMode p v, translations := [], mouseModes := [] })).translations
        ++ rest) := by
  have hne : HotKeyMode.Blender ≠ HotKeyMode.Standard := by decide
  refine ⟨?_, ?_, ?_, ?_, ?_, Update_translations_wheel E v p⟩
  · intro hs
    unfold wheelCamera
    simp only [hwheel, ne_eq, not_false_eq_true, if_true, hs]
    split_ifs
    · rw [Translate_translations, wheelDelta_z]
    · rw [wheelZoom_translations, List.append_nil]
  · intro hb hshift
    unfold wheelCamera
    simp only [hwheel, ne_eq, not_false_eq_true, if_true, hb, hne, if_false, hshift]
    split_ifs <;> rw [Translate_translations, wheelDelta_y]
  · intro hb hshift hctrl
    unfold wheelCamera
    simp only [hwheel, ne_eq, not_false_eq_true, if_true, hb, hne, if_false, hshift, hctrl,
      Bool.false_eq_true]
    split_ifs <;> rw [Translate_translations, wheelDelta_x]
  · intro hb hshift hctrl hpos
    unfold wheelCamera
    simp only [hwheel, ne_eq, not_false_eq_true, if_true, hb, hne, if_false, hshift, hctrl,
      Bool.false_eq_true, hpos]
    split_ifs
    · rw [wheelZoom_translations, List.append_nil]
    · rw [Translate_translations, wheelDelta_z]
  · intro hb hshift hctrl hpos
    unfold wheelCamera
    simp only [hwheel, ne_eq, not_false_eq_true, if_true, hb, hne, if_false, hshift, hctrl,
      Bool.false_eq_true, hpos]
    rw [Translate_translations]
    congr 3
    simp only [Vector3.mul, zero_mul, Vector3.mk.injEq, true_and]
    ring

theorem wheel_translation_scale_witness :
    (wheelCamera ⟨fun _ d => d, fun _ => 0⟩
      { timeStep_ := 1
        config_ :=
          { hotKeyMode := HotKeyMode.Standard, cameraShiftSpeedMultiplier := 5,
            cameraBaseSpeed := 5, mouseWheelCameraPosition := true, mmbPanMode := true,
            limitRotation := true, cameraBaseRotationSpeed := 1 / 5 }
        input_ :=
          { IsKeyDown := fun _ => false,
            IsKeyPressed := fun _ => false,
            IsMouseButtonDown := fun _ => false,
            GetMousePosition := ⟨10, 10⟩, GetMouseMove := ⟨0, 0⟩, GetMouseWheelMove := 1 }
        hasSelection_ := false
        selectionCenter_ := Vector3.ZERO }
      { viewport := SceneViewport.new, translations := [], mouseModes := [] }).translations
      = [(⟨0, 0, 100⟩, TransformSpace.TS_LOCAL)] := by
  have h :=
    (wheel_translation_scale ⟨fun _ d => d, fun _ => 0⟩
      { timeStep_ := 1
        config_ :=
          { hotKeyMode := HotKeyMode.Standard, cameraShiftSpeedMultiplier := 5,
            cameraBaseSpeed := 5, mouseWheelCameraPosition := true, mmbPanMode := true,
            limitRotation := true, cameraBaseRotationSpeed := 1 / 5 }
        input_ :=
          { IsKeyDown := fun _ => false,
            IsKeyPressed := fun _ => false,
            IsMouseButtonDown := fun _ => false,
            GetMousePosition := ⟨10, 10⟩, GetMouseMove := ⟨0, 0⟩, GetMouseWheelMove := 1 }
        hasSelection_ := false
        selectionCenter_ := Vector3.ZERO }
      { viewport := SceneViewport.new, translations := [], mouseModes := [] }
      SceneViewport.new (by decide)).1 rfl
  rw [h]
  simp only [speedMultiplier]
  norm_num


/-! ## Orbit distance -/

theorem GetValue_of_cached (c : Configuration) (key : String) (v : QVariant)
    (h : c.variables_ key = some v) : c.GetValue key = (v, c) := by
  simp [Configuration.GetValue, h]

theorem GetValue_of_uncached (c : Configuration) (key : String)
    (h : c.variables_ key = none) :
    (c.GetValue key).1
      = (if (c.settingsValue key).isNull = true then c.GetDefaultValue key
        else c.settingsValue key) := by
  cases hnull : (c.settingsValue key).isNull <;>
    simp [Configuration.GetValue, Configuration.GetDefaultValue, h, hnull]

/-- After `GetValue(key)` the key has an in-memory value, the one returned. -/
theorem GetValue_caches (c : Configuration) (key : String) :
    (c.GetValue key).2.variables_ key = some (c.GetValue key).1 := by
  cases hv : c.variables_ key with
  | some v => simp [Configuration.GetValue, hv]
  | none =>
    cases hnull : (c.settingsValue key).isNull <;>
      simp [Configuration.GetValue, hv, hnull]

theorem SetValue_variables (c : Configuration) (key : String) (v : QVariant)
    (saveImmediately : Bool) (k : String) :
    (c.SetValue key v saveImmediately).variables_ k
      = if k = key then some v else c.variables_ k := by
  cases saveImmediately <;> rfl

theorem SetValue_settings_other (c : Configuration) (key : String) (v : QVariant)
    (saveImmediately : Bool) (k : String) (hk : k ≠ key) :
    (c.SetValue key v saveImmediately).settings_ k = c.settings_ k := by
  cases saveImmediately <;> simp [Configuration.SetValue, Configuration.settingsSetValue, hk]

theorem SetValue_defaults (c : Configuration) (key : String) (v : QVariant)
    (saveImmediately : Bool) :
    (c.SetValue key v saveImmediately).defaultValues_ = c.defaultValues_ := by
  cases saveImmediately <;> rfl

/-- The value returned by `GetValue` depends only on what the three containers hold for the
key. -/
theorem GetValue_congr (c d : Configuration) (key : String)
    (hv : c.variables_ key = d.variables_ key) (hs : c.settings_ key = d.settings_ key)
    (hd : c.defaultValues_ key = d.defaultValues_ key) :
    (c.GetValue key).1 = (d.GetValue key).1 := by
  cases hcv : c.variables_ key with
  | some v =>
    rw [GetValue_of_cached c key v hcv, GetValue_of_cached d key v (hv ▸ hcv)]
  | none =>
    rw [GetValue_of_uncached c key hcv, GetValue_of_uncached d key (hv ▸ hcv)]
    simp only [Configuration.settingsValue, Configuration.GetDefaultValue, hs, hd]

/-- C27: `Configuration::GetValue(key)` returns the in-memory value when the key has one,
otherwise the persisted setting when it is non-null, otherwise the default of the key, which is
the value last given to `RegisterVariable` for it; after `SetValue(key, v)`, with or without
immediate saving, `GetValue(key)` returns `v` and `GetValue` of every other key returns what it
returned before; and a second `GetValue(key)` right after a first returns the same value. -/
theorem GetValue_SetValue_spec (c : Configuration) (key : String) :
    (∀ v, c.variables_ key = some v → (c.GetValue key).1 = v) ∧
    (∀ v, c.variables_ key = none → c.settings_ key = some v → v.isNull = false →
      (c.GetValue key).1 = v) ∧
    (c.variables_ key = none → (c.settingsValue key).isNull = true →
      (c.GetValue key).1 = c.GetDefaultValue key) ∧
    (∀ d section_ displayText decoration,
      c.variables_ key = none → (c.settingsValue key).isNull = true →
      ((c.RegisterVariable key d section_ displayText decoration).GetValue key).1 = d) ∧
    (∀ v saveImmediately, ((c.SetValue key v saveImmediately).GetValue key).1 = v) ∧
    (∀ v saveImmediately other, other ≠ key →
      ((c.SetValue key v saveImmediately).GetValue other).1 = (c.GetValue other).1) ∧
    ((c.GetValue key).2.GetValue key).1 = (c.GetValue key).1 := by
  refine ⟨?_, ?_, ?_, ?_, ?_, ?_, ?_⟩
  · intro v hv
    rw [GetValue_of_cached c key v hv]
  · intro v hv hs hnull
    rw [GetValue_of_uncached c key hv]
    simp [Configuration.settingsValue, hs, hnull]
  · intro hv hnull
    rw [GetValue_of_uncached c key hv, if_pos hnull]
  · intro d section_ displayText decoration hv hnull
    have hv2 : (c.RegisterVariable key d section_ displayText decoration).variables_ key
        = none := hv
    have hs2 : (c.RegisterVariable key d section_ displayText decoration).settingsValue key
        = c.settingsValue key := rfl
    rw [GetValue_of_uncached _ key hv2, hs2, if_pos hnull]
    simp [Configuration.GetDefaultValue, Configuration.RegisterVariable]
  · intro v saveImmediately
    have h : (c.SetValue key v saveImmediately).variables_ key = some v := by
      rw [SetValue_variables, if_pos rfl]
    rw [GetValue_of_cached _ key v h]
  · intro v saveImmediately other hne
    apply GetValue_congr
    · rw [SetValue_variables, if_neg hne]
    · exact SetValue_settings_other c key v saveImmediately other hne
    · rw [SetValue_defaults]
  · rw [GetValue_of_cached _ key _ (GetValue_caches c key)]

theorem GetValue_SetValue_spec_witness :
    (Configuration.GetValue
      { settings_ := fun k => if k = "Camera.Speed" then some (QVariant.ofInt 7) else none
        defaultValues_ := fun _ => none
        variables_ := fun _ => none
        sections_ := fun _ => [] } "Camera.Speed").1 = QVariant.ofInt 7 :=
  (GetValue_SetValue_spec
    { settings_ := fun k => if k = "Camera.Speed" then some (QVariant.ofInt 7) else none
      defaultValues_ := fun _ => none
      variables_ := fun _ => none
      sections_ := fun _ => [] } "Camera.Speed").2.1 (QVariant.ofInt 7) rfl (by simp) rfl

theorem settingsSetValue_twice (c : Configuration) (key : String) (v : QVariant) :
    (c.settingsSetValue key v).settingsSetValue key v = c.settingsSetValue key v := by
  unfold Configuration.settingsSetValue
  simp only [Configuration.mk.injEq, and_true]
  funext k
  split_ifs <;> rfl

theorem filter_ne_idem (name : String) (l : List String) :
    (name :: l.filter (fun s => decide (s ≠ name))).filter (fun s => decide (s ≠ name))
      = l.filter (fun s => decide (s ≠ name)) := by
  simp [List.filter_cons]

/-- C30: `Configuration::AddRecentProject(name)` stores under `PROJECT_RECENT` a list whose first
element is `name`, in which `name` occurs exactly once, and whose remaining elements are the
list returned by `GetRecentProjects` with every occurrence of `name` removed, in their previous
order; when `GetRecentProjects` returns the list stored under `PROJECT_RECENT`, calling
`AddRecentProject(name)` a second time leaves the configuration as it is after the first
call. -/
theorem AddRecentProject_spec (GetRecentProjects : Configuration → List String)
    (c : Configuration) (name : String) :
    ∃ stored : List String,
      (c.AddRecentProject GetRecentProjects name).settings_ Configuration.PROJECT_RECENT
        = some (QVariant.ofStringList stored) ∧
      stored.head? = some name ∧
      stored.count name = 1 ∧
      stored.tail = (GetRecentProjects c).filter (fun s => decide (s ≠ name)) ∧
      (∀ s, s ≠ name → stored.count s = (GetRecentProjects c).count s) ∧
      stored.tail.Sublist (GetRecentProjects c) ∧
      ((∀ (d : Configuration) (l : List String),
          d.settings_ Configuration.PROJECT_RECENT = some (QVariant.ofStringList l) →
          GetRecentProjects d = l) →
        (c.AddRecentProject GetRecentProjects name).AddRecentProject GetRecentProjects name
          = c.AddRecentProject GetRecentProjects name) := by
  have hstored : (c.AddRecentProject GetRecentProjects name).settings_
      Configuration.PROJECT_RECENT
      = some (QVariant.ofStringList
          (name :: (GetRecentProjects c).filter (fun s => decide (s ≠ name)))) := by
    simp [Configuration.AddRecentProject, Configuration.settingsSetValue]
  refine ⟨name :: (GetRecentProjects c).filter (fun s => decide (s ≠ name)), hstored, rfl,
    ?_, rfl, ?_, ?_, ?_⟩
  · rw [List.count_cons_self, List.count_eq_zero.mpr]
    intro hmem
    have := (List.mem_filter.mp hmem).2
    simp at this
  · intro s hs
    rw [List.count_cons_of_ne hs, List.count_filter (by simpa using hs)]
  · exact List.filter_sublist _
  · intro hget
    have hread := hget _ _ hstored
    show (c.AddRecentProject GetRecentProjects name).settingsSetValue
        Configuration.PROJECT_RECENT
        (QVariant.ofStringList
          (name :: (GetRecentProjects (c.AddRecentProject GetRecentProjects name)).filter
            (fun s => decide (s ≠ name))))
      = c.AddRecentProject GetRecentProjects name
    rw [hread, filter_ne_idem]
    exact settingsSetValue_twice c _ _

theorem AddRecentProject_spec_witness :
    Configuration.AddRecentProject readRecentProjects
        (Configuration.AddRecentProject readRecentProjects
          { settings_ := fun k =>
              if k = "Project.Recent" then some (QVariant.ofStringList ["a", "b", "a"])
              else none
            defaultValues_ := fun _ => none
            variables_ := fun _ => none
            sections_ := fun _ => [] } "a") "a"
      = Configuration.AddRecentProject readRecentProjects
          { settings_ := fun k =>
              if k = "Project.Recent" then some (QVariant.ofStringList ["a", "b", "a"])
              else none
            defaultValues_ := fun _ => none
            variables_ := fun _ => none
            sections_ := fun _ => [] } "a" := by
  obtain ⟨stored, _, _, _, _, _, _, h⟩ :=
    AddRecentProject_spec readRecentProjects
      { settings_ := fun k =>
          if k = "Project.Recent" then some (QVariant.ofStringList ["a", "b", "a"])
          else none
        defaultValues_ := fun _ => none
        variables_ := fun _ => none
        sections_ := fun _ => [] } "a"
  apply h
  intro d l hd
  simp [readRecentProjects, hd]


/-! ## The current viewport index after `SetLayout` -/

theorem SetLayout_current (m : SceneViewportManager) (layout : SceneViewportLayout)
    (width height : Int) :
    ∃ m1 : SceneViewportManager, m.SetLayout layout width height = some m1 ∧
      m1.currentViewport_ = m.currentViewport_ ∧
      m1.viewports_.length = GetNumberOfViewports layout := by
  refine ⟨_, SetLayout_eq m layout width height, ?_, ?_⟩
  · simp [UpdateNumberOfViewports_current]
  · have hlen := UpdateNumberOfViewports_length
      ({ m with layout_ := layout } : SceneViewportManager) (GetNumberOfViewports layout)
    simpa [length_applyLayoutRects] using hlen

/-- C28 fails on the code: `SetLayout` never writes `currentViewport_`. From any state with four
viewports and the valid current index 3, `SetLayout(Single)` on an 800 x 600 surface leaves one
viewport and the current index 3; `ApplyViewports`, with the four renderer slots of the Quad
layout, leaves it at 3 as well; and then `GetCurrentCamera` and an `Update` with the left button
held index `viewports_[3]` out of range. -/
theorem SetLayout_leaves_stale_index (E : EngineMath) (a b c d : SceneViewport)
    (timeStep : ℚ) (config : CameraVariables) (hasSelection : Bool)
    (selectedCenter : Vector3) :
    ∃ m1 : SceneViewportManager,
      SceneViewportManager.SetLayout
        { currentViewport_ := 3, layout_ := SceneViewportLayout.Quad,
          viewports_ := [a, b, c, d], emitted := 0 }
        SceneViewportLayout.Single 800 600 = some m1 ∧
      m1.viewports_.length = 1 ∧
      m1.currentViewport_ = 3 ∧
      (m1.ApplyViewports 4).currentViewport_ = 3 ∧
      m1.GetCurrentCamera = none ∧
      (m1.ApplyViewports 4).GetCurrentCamera = none ∧
      m1.Update E
        { IsKeyDown := fun _ => false,
          IsKeyPressed := fun _ => false,
          IsMouseButtonDown := fun button => decide (button = MouseButton.LeftButton),
          GetMousePosition := ⟨600, 450⟩, GetMouseMove := ⟨0, 0⟩, GetMouseWheelMove := 0 }
        timeStep config hasSelection selectedCenter = none := by
  obtain ⟨m1, h1, hcur, hlen⟩ :=
    SetLayout_current
      { currentViewport_ := 3, layout_ := SceneViewportLayout.Quad,
        viewports_ := [a, b, c, d], emitted := 0 }
      SceneViewportLayout.Single 800 600
  have hlen1 : m1.viewports_.length = 1 := hlen
  have hcur3 : m1.currentViewport_ = 3 := hcur
  have hget : m1.viewports_[3]? = none := by
    apply List.getElem?_eq_none
    rw [hlen1]
    decide
  have happly : (m1.ApplyViewports 4).currentViewport_ = 3 := by
    simp [SceneViewportManager.ApplyViewports, hlen1, hcur3]
  refine ⟨m1, h1, hlen1, hcur3, happly, ?_, ?_, ?_⟩
  · simp [SceneViewportManager.GetCurrentCamera, hcur3, hget]
  · have hvs : (m1.ApplyViewports 4).viewports_ = m1.viewports_ := rfl
    simp [SceneViewportManager.GetCurrentCamera, happly, hvs, hget]
  · simp [SceneViewportManager.Update, hcur3, hget]

/-! ## The rectangles written by `UpdateViewportLayout` -/

theorem applyLayoutRects_eq_writes (layout : SceneViewportLayout) (width height : Int)
    (vs : List SceneViewport) :
    applyLayoutRects layout width height vs
      = (layoutWrites layout width height).foldl (fun l w => setRectAt l w.1 w.2) vs := by
  cases layout <;> rfl

theorem UpdateViewportLayout_eq (m : SceneViewportManager) (width height : Int)
    (hinv : m.CountInvariant) :
    m.UpdateViewportLayout width height
      = some { m with viewports_ := applyLayoutRects m.layout_ width height m.viewports_ } := by
  unfold SceneViewportManager.CountInvariant at hinv
  simp [SceneViewportManager.UpdateViewportLayout, hinv]

theorem layoutWrites_index_lt (layout : SceneViewportLayout) (width height : Int) :
    ∀ w ∈ layoutWrites layout width height, w.1 < GetNumberOfViewports layout := by
  cases layout <;> simp [layoutWrites, GetNumberOfViewports]

theorem layoutRects_disjoint (layout : SceneViewportLayout) (width height : Int) :
    (layoutRects layout width height).Pairwise IntRect.Disjoint := by
  cases layout <;>
    simp only [layoutRects, List.pairwise_cons, List.Pairwise.nil, List.mem_cons,
      List.mem_singleton, List.not_mem_nil, forall_eq_or_imp, forall_eq, IsEmpty.forall_iff,
      implies_true, and_true, IntRect.Disjoint, IntRect.Contains] <;>
    generalize Int.tdiv width 2 = halfWidth <;>
    generalize Int.tdiv height 2 = halfHeight <;>
    (try refine ⟨?_, ?_⟩) <;> (try refine ⟨?_, ?_⟩) <;> (try refine ⟨?_, ?_⟩) <;>
    (try (intro x y; omega))

theorem layoutRects_inside (layout : SceneViewportLayout) (width height : Int)
    (hw : 0 ≤ width) (hh : 0 ≤ height) :
    ∀ r ∈ layoutRects layout width height, r.InsideSurface width height := by
  have h1 := (tdiv_two_bounds width).1 hw
  have h2 := (tdiv_two_bounds height).1 hh
  cases layout <;>
    simp only [layoutRects, List.mem_cons, List.mem_singleton, List.not_mem_nil, or_false,
      forall_eq_or_imp, forall_eq, IsEmpty.forall_iff, implies_true, IntRect.InsideSurface] <;>
    generalize Int.tdiv width 2 = halfWidth at h1 ⊢ <;>
    generalize Int.tdiv height 2 = halfHeight at h2 ⊢ <;>
    omega

theorem layoutRects_area (layout : SceneViewportLayout) (width height : Int)
    (h : 0 < GetNumberOfViewports layout) :
    ((layoutRects layout width height).map IntRect.Area).sum = width * height := by
  cases layout <;> simp only [GetNumberOfViewports, Nat.lt_irrefl] at h <;>
    simp only [layoutRects, List.map_cons, List.map_nil, List.sum_cons, List.sum_nil,
      IntRect.Area, IntRect.Width, IntRect.Height] <;>
    ring

/-- C29: for every layout other than Empty (one with a positive viewport count), every width
and height that are not negative and a manager whose viewport count matches its layout,
`UpdateViewportLayout` completes and the rectangles it assigns are pairwise disjoint as half-open
pixel boxes, each lies inside the surface, their areas sum to width x height, and every surface
pixel lies in exactly one of them; the `SetRect` statements it executes all write an index below
`GetNumberOfViewports(layout)`. -/
theorem UpdateViewportLayout_partition (m : SceneViewportManager) (width height : Int)
    (hinv : m.CountInvariant) (hL : 0 < GetNumberOfViewports m.layout_)
    (hw : 0 ≤ width) (hh : 0 ≤ height) :
    ∃ m1 : SceneViewportManager, m.UpdateViewportLayout width height = some m1 ∧
      m1.rects.Pairwise IntRect.Disjoint ∧
      (∀ r ∈ m1.rects, r.InsideSurface width height) ∧
      (m1.rects.map IntRect.Area).sum = width * height ∧
      (∀ x y : Int, 0 ≤ x → x < width → 0 ≤ y → y < height → coverCount m1.rects x y = 1) ∧
      m1.viewports_
        = (layoutWrites m.layout_ width height).foldl (fun l w => setRectAt l w.1 w.2)
            m.viewports_ ∧
      (∀ w ∈ layoutWrites m.layout_ width height, w.1 < GetNumberOfViewports m.layout_) := by
  have hrects : SceneViewportManager.rects
      { m with viewports_ := applyLayoutRects m.layout_ width height m.viewports_ }
      = layoutRects m.layout_ width height :=
    rects_applyLayoutRects m.layout_ width height m.viewports_ hinv
  refine ⟨_, UpdateViewportLayout_eq m width height hinv, ?_, ?_, ?_, ?_, ?_, ?_⟩
  · rw [hrects]
    exact layoutRects_disjoint m.layout_ width height
  · rw [hrects]
    exact layoutRects_inside m.layout_ width height hw hh
  · rw [hrects]
    exact layoutRects_area m.layout_ width height hL
  · rw [hrects]
    exact (layoutRects_tiles m.layout_ width height hL).1
  · exact applyLayoutRects_eq_writes m.layout_ width height m.viewports_
  · exact layoutWrites_index_lt m.layout_ width height

theorem UpdateViewportLayout_partition_witness :
    ∃ m1 : SceneViewportManager,
      SceneViewportManager.UpdateViewportLayout
        { currentViewport_ := 0, layout_ := SceneViewportLayout.Left1_Right2,
          viewports_ := [SceneViewport.new, SceneViewport.new, SceneViewport.new],
          emitted := 0 } 801 601 = some m1 ∧
      (m1.rects.map IntRect.Area).sum = 801 * 601 := by
  obtain ⟨m1, h1, _, _, h2, _⟩ :=
    UpdateViewportLayout_partition
      { currentViewport_ := 0, layout_ := SceneViewportLayout.Left1_Right2,
        viewports_ := [SceneViewport.new, SceneViewport.new, SceneViewport.new],
        emitted := 0 } 801 601 (by decide) (by decide) (by decide) (by decide)
  exact ⟨m1, h1, h2⟩


end Urho3DEditor
